import Mathlib

/-!
# jsbeeb `6502.opcodes.js`: the opcode-to-timed-microcode compiler

The JavaScript source builds every instruction routine as a list of source-text
lines which is then handed to `eval`.  The embedding represents each generated
line by a constructor of `Line` (one constructor application per line of text, in
the order the source emits them) and gives the lines their JavaScript meaning
with a small interpreter over an explicit CPU state.
-/

namespace Jsbeeb

/-! ## Generated code: locations, expressions, lines -/

/-- Local `var` names that occur in the generated routines. -/
inductive Var
  | REG | addr | addrWithCarry | addrNonCarry | temp | baseAddr | oldValue | newValue
  | newTopBit | offsetAddr | weirdReadAddr | zp | pushAddr | nextAddr
  deriving DecidableEq, Repr

/-- Processor flags `cpu.p.c`, `cpu.p.z`, `cpu.p.i`, `cpu.p.d`, `cpu.p.v`, `cpu.p.n`. -/
inductive Flag
  | c | z | i | d | v | n
  deriving DecidableEq, Repr

/-- Assignable places: a local `var`, a register `cpu.<r>` named by its letter,
`cpu.pc`, or a flag `cpu.p.<f>`. -/
inductive Loc
  | var (v : Var)
  | reg (r : Char)
  | pc
  | flag (f : Flag)
  deriving DecidableEq, Repr

/-- Binary operators of the generated JavaScript:
`+`, `-`, `&`, `|`, `^`, `<<`, `>>`, `!=` (also `!==`), `>=`. -/
inductive BinOp
  | add | sub | band | bor | bxor | shl | shr | ne | ge
  deriving DecidableEq, Repr

/-- Expressions of the generated JavaScript. -/
inductive Expr
  | num (n : Int)
  | get (l : Loc)
  | getb
  | getw
  | pull
  | asByte
  | readmem (a : Expr)
  | bin (o : BinOp) (l r : Expr)
  | not (e : Expr)
  | truthy (e : Expr)
  | cond (c t f : Expr)
  deriving DecidableEq, Repr

/-- One line of generated JavaScript. -/
inductive Line
  | assign (l : Loc) (e : Expr)
  | setzn (e : Expr)
  | polltime (n : Nat)
  | checkInt
  | checkViaIntOnly
  | writemem (a v : Expr)
  | eval (e : Expr)
  | push (e : Expr)
  | ifThen (c : Expr) (body : Line)
  | ifOpen (c : Expr)
  | blockClose
  | branch (e : Expr)
  | brk
  | call (fn : String) (e : Expr)
  | throwBadFit
  deriving DecidableEq, Repr

/-! ## `InstructionGen`: the cycle scheduler -/

/-- One entry `{op: ..., exact: ...}` of `self.ops`. -/
structure Slot where
  op : List Line
  exact : Bool
  deriving DecidableEq, Repr

/-- State of an `InstructionGen` object: the sparse map `self.ops` (keyed by cycle
number, absent keys are `none`) and the counter `self.cycle`. -/
structure InstructionGen where
  ops : Int → Option Slot
  cycle : Nat

namespace InstructionGen

/-- `new InstructionGen()`: `self.ops = {}; self.cycle = 0`. -/
def new : InstructionGen := ⟨fun _ => none, 0⟩

/-- `self.append(cycle, op, exact)`.  `cycle = none` is the one-argument call
`append(op)`, which targets `self.cycle`; a string `op` is the one-element list. -/
def append (self : InstructionGen) (cycle : Option Int) (op : List Line) (exact : Bool) :
    InstructionGen :=
  let cyc : Int := match cycle with
    | some c => c
    | none => (self.cycle : Int)
  let slot : Slot := match self.ops cyc with
    | some s => { op := s.op ++ op, exact := s.exact || exact }
    | none => { op := op, exact := exact }
  { self with ops := fun k => if k = cyc then some slot else self.ops k }

/-- `self.flush()`: throws `"erk"` (here `none`) when the current cycle is empty. -/
def flush (self : InstructionGen) : Option InstructionGen :=
  match self.ops (self.cycle : Int) with
  | none => none
  | some s =>
    some { self with
      ops := fun k => if k = (self.cycle : Int) then some { s with exact := true }
                      else self.ops k }

/-- `self.tick(cycles)`: `self.cycle += (cycles || 1)`. -/
def tick (self : InstructionGen) (cycles : Nat) : InstructionGen :=
  { self with cycle := self.cycle + (if cycles = 0 then 1 else cycles) }

/-- `self.readOp(op)`. -/
def readOp (self : InstructionGen) (op : List Line) : InstructionGen :=
  let self1 := { self with cycle := self.cycle + 1 }
  self1.append (some (self1.cycle : Int)) op true

/-- `self.writeOp(op)`. -/
def writeOp (self : InstructionGen) (op : List Line) : InstructionGen :=
  let self1 := { self with cycle := self.cycle + 1 }
  self1.append (some (self1.cycle : Int)) op true

/-- `self.zpReadOp(op)`. -/
def zpReadOp (self : InstructionGen) (op : List Line) : InstructionGen :=
  let self1 := { self with cycle := self.cycle + 1 }
  self1.append (some (self1.cycle : Int)) op false

/-- `self.zpWriteOp(op)`. -/
def zpWriteOp (self : InstructionGen) (op : List Line) : InstructionGen :=
  let self1 := { self with cycle := self.cycle + 1 }
  self1.append (some (self1.cycle : Int)) op false

end InstructionGen

/-- An element of `render`'s output: either a `"cpu.polltime(" + toSkip + ");"`
line pushed by `render` itself, or a line taken from `self.ops`. -/
inductive Entry
  | poll (n : Nat)
  | op (l : Line)
  deriving DecidableEq, Repr

/-- The line of text an output element stands for. -/
def Entry.line : Entry → Line
  | Entry.poll n => Line.polltime n
  | Entry.op l => l

namespace InstructionGen

/-- The schedule after the `self.append(..., "cpu.checkInt();", true)` that opens
`render(zpOnly)`. -/
def withCheckInt (self : InstructionGen) (zpOnly : Bool) : InstructionGen :=
  if zpOnly then self.append (some (self.cycle : Int)) [Line.checkInt] true
  else self.append (some ((self.cycle : Int) - 1)) [Line.checkInt] true

/-- One iteration of the `for (i = 0; i < self.cycle; ++i)` loop of `render`, on
the loop state `(toSkip, out)`. -/
def renderStep (ops : Int → Option Slot) (st : Nat × List Entry) (i : Nat) :
    Nat × List Entry :=
  match ops (i : Int) with
  | none => (st.1 + 1, st.2)
  | some s =>
    let st1 : Nat × List Entry :=
      if st.1 ≠ 0 ∧ s.exact = true then (0, st.2 ++ [Entry.poll st.1]) else st
    (st1.1 + 1, st1.2 ++ s.op.map Entry.op)

/-- The loop of `render` run over cycles `0 .. n-1`. -/
def renderLoop (ops : Int → Option Slot) (n : Nat) : Nat × List Entry :=
  (List.range n).foldl (renderStep ops) (0, [])

/-- The two statements of `render` after the loop: flush what is left of `toSkip`,
then append the operations of cycle `self.cycle`. -/
def renderTail (ops : Int → Option Slot) (cycle : Nat) (st : Nat × List Entry) :
    List Entry :=
  let out := if st.1 ≠ 0 then st.2 ++ [Entry.poll st.1] else st.2
  match ops (cycle : Int) with
  | some s => out ++ s.op.map Entry.op
  | none => out

/-- `self.render(zpOnly)` with each output line tagged by where it comes from. -/
def renderEntries (self : InstructionGen) (zpOnly : Bool) : List Entry :=
  let g := self.withCheckInt zpOnly
  renderTail g.ops g.cycle (renderLoop g.ops g.cycle)

/-- `self.render(zpOnly)`. -/
def render (self : InstructionGen) (zpOnly : Bool) : List Line :=
  (self.renderEntries zpOnly).map Entry.line

end InstructionGen

/-- A call made on an `InstructionGen` while a schedule is being built. -/
inductive Call
  | tick (cycles : Nat)
  | append (cycle : Option Int) (op : List Line) (exact : Bool)
  | readOp (op : List Line)
  | writeOp (op : List Line)
  | zpReadOp (op : List Line)
  | zpWriteOp (op : List Line)
  deriving DecidableEq, Repr

/-- Effect of one call on the scheduler. -/
def Call.apply (g : InstructionGen) : Call → InstructionGen
  | Call.tick n => g.tick n
  | Call.append c op e => g.append c op e
  | Call.readOp op => g.readOp op
  | Call.writeOp op => g.writeOp op
  | Call.zpReadOp op => g.zpReadOp op
  | Call.zpWriteOp op => g.zpWriteOp op

/-- The scheduler reached from a fresh `InstructionGen` by a sequence of calls. -/
def build (calls : List Call) : InstructionGen :=
  calls.foldl Call.apply InstructionGen.new

/-- Sum of the arguments of the `polltime` lines that `render` inserted. -/
def pollSum : List Entry → Nat
  | [] => 0
  | Entry.poll n :: rest => n + pollSum rest
  | Entry.op _ :: rest => pollSum rest

/-- The output with the `polltime` lines that `render` inserted removed. -/
def opsOnly : List Entry → List Line
  | [] => []
  | Entry.poll _ :: rest => opsOnly rest
  | Entry.op l :: rest => l :: opsOnly rest

/-- Operations held by a cycle of `self.ops` (none when the cycle is absent). -/
def opsAt (ops : Int → Option Slot) (k : Int) : List Line :=
  match ops k with
  | some s => s.op
  | none => []

/-- Whether a cycle of `self.ops` is present and marked exact. -/
def exactAt (ops : Int → Option Slot) (k : Int) : Bool :=
  match ops k with
  | some s => s.exact
  | none => false

/-- Concatenation of `f 0, f 1, ..., f (n-1)`: the operation lists of the first `n`
cycles in ascending cycle order. -/
def concatCycles (f : Int → List Line) : Nat → List Line
  | 0 => []
  | n + 1 => concatCycles f n ++ f (n : Int)

/-- Follows the specification's wording: the operations that a sequence of calls
attaches to cycle `k`, in the order the calls are made, when the cycle counter
stands at `cyc` before the first call. -/
def attachedFrom (cyc : Nat) : List Call → Int → List Line
  | [], _ => []
  | Call.tick n :: rest, k => attachedFrom (cyc + (if n = 0 then 1 else n)) rest k
  | Call.append c op _ :: rest, k =>
    (if k = c.getD (cyc : Int) then op else []) ++ attachedFrom cyc rest k
  | Call.readOp op :: rest, k =>
    (if k = ((cyc + 1 : Nat) : Int) then op else []) ++ attachedFrom (cyc + 1) rest k
  | Call.writeOp op :: rest, k =>
    (if k = ((cyc + 1 : Nat) : Int) then op else []) ++ attachedFrom (cyc + 1) rest k
  | Call.zpReadOp op :: rest, k =>
    (if k = ((cyc + 1 : Nat) : Int) then op else []) ++ attachedFrom (cyc + 1) rest k
  | Call.zpWriteOp op :: rest, k =>
    (if k = ((cyc + 1 : Nat) : Int) then op else []) ++ attachedFrom (cyc + 1) rest k

/-- Follows the specification's wording: the operations of cycle `k` once the
interrupt sample has been appended to its cycle, which is the last cycle `n` for
zero-page-only forms and the cycle before it otherwise. -/
def scheduled (calls : List Call) (zpOnly : Bool) (n : Nat) (k : Int) : List Line :=
  attachedFrom 0 calls k ++
    (if k = (if zpOnly then (n : Int) else (n : Int) - 1) then [Line.checkInt] else [])

/-! ## The CPU execution context and the meaning of generated lines -/

/-- The six flags held by `cpu.p`. -/
structure Flags where
  c : Bool
  z : Bool
  i : Bool
  d : Bool
  v : Bool
  n : Bool
  deriving DecidableEq, Repr

/-- What a routine does to the outside world, in the order it happens: operand
fetches through the program counter, data reads and writes, stack traffic, time
advances, interrupt samples and calls to helpers whose effect is not modelled. -/
inductive Event
  | fetch (addr : Int)
  | read (addr : Int)
  | write (addr val : Int)
  | push (val : Int)
  | pull (val : Int)
  | poll (n : Nat)
  | checkInt
  | checkViaIntOnly
  | branch (taken : Bool)
  | brk
  | call (fn : String) (arg : Int)
  deriving DecidableEq, Repr

/-- The CPU execution context `cpu` handed to a routine: registers, flags, the
`cpu.p.asByte` method, memory, and the record of events so far. -/
structure Cpu where
  a : Int
  x : Int
  y : Int
  s : Int
  pc : Int
  p : Flags
  asByte : Flags → Int
  mem : Int → Int
  log : List Event

/-- Value of `cpu.<r>` for a register letter (`a`, `x`, `y`, `s`). -/
@[simp]
def Cpu.getReg (cpu : Cpu) (r : Char) : Int :=
  if r = 'a' then cpu.a
  else if r = 'x' then cpu.x
  else if r = 'y' then cpu.y
  else if r = 's' then cpu.s
  else 0

/-- Assignment `cpu.<r> = v` for a register letter (`a`, `x`, `y`, `s`). -/
@[simp]
def Cpu.setReg (cpu : Cpu) (r : Char) (v : Int) : Cpu :=
  if r = 'a' then { cpu with a := v }
  else if r = 'x' then { cpu with x := v }
  else if r = 'y' then { cpu with y := v }
  else if r = 's' then { cpu with s := v }
  else cpu

/-- Value of a flag. -/
@[simp]
def Flags.get (p : Flags) : Flag → Bool
  | Flag.c => p.c
  | Flag.z => p.z
  | Flag.i => p.i
  | Flag.d => p.d
  | Flag.v => p.v
  | Flag.n => p.n

/-- Assignment to a flag. -/
@[simp]
def Flags.set (p : Flags) (f : Flag) (b : Bool) : Flags :=
  match f with
  | Flag.c => { p with c := b }
  | Flag.z => { p with z := b }
  | Flag.i => { p with i := b }
  | Flag.d => { p with d := b }
  | Flag.v => { p with v := b }
  | Flag.n => { p with n := b }

/-- Modelled from the spec: `cpu.getb()`, the fetch-byte-and-advance helper of the
16-bit program counter, which is not part of this source file.  It returns the byte
at `pc` and advances `pc` by one. -/
@[simp]
def Cpu.getb (cpu : Cpu) : Int × Cpu :=
  (cpu.mem cpu.pc,
    { cpu with pc := (cpu.pc + 1) % 65536, log := cpu.log ++ [Event.fetch cpu.pc] })

/-- Modelled from the spec: `cpu.getw()`, the fetch-word-and-advance helper, which
is not part of this source file.  It returns the little-endian word at `pc` and
advances `pc` by two. -/
@[simp]
def Cpu.getw (cpu : Cpu) : Int × Cpu :=
  (Int.lor (cpu.mem cpu.pc) (cpu.mem ((cpu.pc + 1) % 65536) <<< (8 : Int)),
    { cpu with
      pc := (cpu.pc + 2) % 65536,
      log := cpu.log ++ [Event.fetch cpu.pc, Event.fetch ((cpu.pc + 1) % 65536)] })

/-- Modelled from the spec: `cpu.readmem(addr)`, the byte-addressable memory read of
the bus collaborator, which is not part of this source file.  The address is
recorded exactly as the routine passes it. -/
@[simp]
def Cpu.readmem (cpu : Cpu) (addr : Int) : Int × Cpu :=
  (cpu.mem addr, { cpu with log := cpu.log ++ [Event.read addr] })

/-- Modelled from the spec: `cpu.writemem(addr, v)`, the memory write of the bus
collaborator, which is not part of this source file. -/
@[simp]
def Cpu.writemem (cpu : Cpu) (addr v : Int) : Cpu :=
  { cpu with
    mem := fun k => if k = addr then v else cpu.mem k,
    log := cpu.log ++ [Event.write addr v] }

/-- Modelled from the spec: `cpu.push(v)`, the stack helper at the fixed stack page
`0x100` with 8-bit wraparound of the stack pointer, which is not part of this source
file.  Push stores at the stack pointer and then decrements it. -/
@[simp]
def Cpu.push (cpu : Cpu) (v : Int) : Cpu :=
  { cpu with
    mem := fun k => if k = 0x100 + cpu.s then v else cpu.mem k,
    s := (cpu.s - 1) % 256,
    log := cpu.log ++ [Event.push v] }

/-- Modelled from the spec: `cpu.pull()`, the reverse of `cpu.push`, which is not
part of this source file.  Pull increments the stack pointer and reads there. -/
@[simp]
def Cpu.pull (cpu : Cpu) : Int × Cpu :=
  (cpu.mem (0x100 + (cpu.s + 1) % 256),
    { cpu with
      s := (cpu.s + 1) % 256,
      log := cpu.log ++ [Event.pull (cpu.mem (0x100 + (cpu.s + 1) % 256))] })

/-- Modelled from the spec: `cpu.setzn(v)`, the helper that recomputes zero and
negative from a byte value, which is not part of this source file: result byte
`0x00` gives zero, result bytes `0x80..0xFF` give negative.  The byte is the low
eight bits of `v`. -/
@[simp]
def Cpu.setzn (cpu : Cpu) (v : Int) : Cpu :=
  { cpu with p := { cpu.p with z := decide (v % 256 = 0), n := decide (128 ≤ v % 256) } }

/-- Appends one event to the record. -/
@[simp]
def Cpu.emit (cpu : Cpu) (e : Event) : Cpu :=
  { cpu with log := cpu.log ++ [e] }

/-- State of one invocation of a routine: the CPU context, the routine's local
variables, whether execution is inside the untaken body of a multi-line `if`, and
whether a `throw` has ended the routine. -/
structure Frame where
  cpu : Cpu
  vars : Var → Int
  skip : Bool
  thrown : Bool

/-- A JavaScript boolean as a number (`true` is 1, `false` is 0). -/
@[simp]
def ofBool (b : Bool) : Int := if b then 1 else 0

/-- Meaning of the binary operators on integers.  The bitwise operators act on
two's-complement integers, which agrees with JavaScript on the 32-bit range. -/
@[simp]
def evalBin : BinOp → Int → Int → Int
  | BinOp.add, a, b => a + b
  | BinOp.sub, a, b => a - b
  | BinOp.band, a, b => Int.land a b
  | BinOp.bor, a, b => Int.lor a b
  | BinOp.bxor, a, b => Int.xor a b
  | BinOp.shl, a, b => a <<< b
  | BinOp.shr, a, b => a >>> b
  | BinOp.ne, a, b => ofBool (decide (a ≠ b))
  | BinOp.ge, a, b => ofBool (decide (b ≤ a))

/-- Value of a place. -/
@[simp]
def Frame.load (f : Frame) : Loc → Int
  | Loc.var v => f.vars v
  | Loc.reg r => f.cpu.getReg r
  | Loc.pc => f.cpu.pc
  | Loc.flag fl => ofBool (f.cpu.p.get fl)

/-- Assignment to a place; a flag takes the truthiness of the value. -/
@[simp]
def Frame.store (f : Frame) (l : Loc) (v : Int) : Frame :=
  match l with
  | Loc.var w => { f with vars := fun k => if k = w then v else f.vars k }
  | Loc.reg r => { f with cpu := f.cpu.setReg r v }
  | Loc.pc => { f with cpu := { f.cpu with pc := v } }
  | Loc.flag fl => { f with cpu := { f.cpu with p := f.cpu.p.set fl (decide (v ≠ 0)) } }

/-- Evaluation of an expression, left to right, with the side effects of the
helpers it calls. -/
@[simp]
def evalExpr : Expr → Frame → Int × Frame
  | Expr.num n, f => (n, f)
  | Expr.get l, f => (f.load l, f)
  | Expr.getb, f => (f.cpu.getb.1, { f with cpu := f.cpu.getb.2 })
  | Expr.getw, f => (f.cpu.getw.1, { f with cpu := f.cpu.getw.2 })
  | Expr.pull, f => (f.cpu.pull.1, { f with cpu := f.cpu.pull.2 })
  | Expr.asByte, f => (f.cpu.asByte f.cpu.p, f)
  | Expr.readmem a, f =>
    let r := evalExpr a f
    ((r.2.cpu.readmem r.1).1, { r.2 with cpu := (r.2.cpu.readmem r.1).2 })
  | Expr.bin o l r, f =>
    let lv := evalExpr l f
    let rv := evalExpr r lv.2
    (evalBin o lv.1 rv.1, rv.2)
  | Expr.not e, f =>
    let r := evalExpr e f
    (ofBool (decide (r.1 = 0)), r.2)
  | Expr.truthy e, f =>
    let r := evalExpr e f
    (ofBool (decide (r.1 ≠ 0)), r.2)
  | Expr.cond c t e, f =>
    let r := evalExpr c f
    if r.1 ≠ 0 then evalExpr t r.2 else evalExpr e r.2

/-- Execution of one line that is neither skipped nor after a `throw`. -/
@[simp]
def execActive : Line → Frame → Frame
  | Line.assign l e, f =>
    let r := evalExpr e f
    r.2.store l r.1
  | Line.setzn e, f =>
    let r := evalExpr e f
    { r.2 with cpu := r.2.cpu.setzn r.1 }
  | Line.polltime n, f => { f with cpu := f.cpu.emit (Event.poll n) }
  | Line.checkInt, f => { f with cpu := f.cpu.emit Event.checkInt }
  | Line.checkViaIntOnly, f => { f with cpu := f.cpu.emit Event.checkViaIntOnly }
  | Line.writemem a v, f =>
    let ra := evalExpr a f
    let rv := evalExpr v ra.2
    { rv.2 with cpu := rv.2.cpu.writemem ra.1 rv.1 }
  | Line.eval e, f => (evalExpr e f).2
  | Line.push e, f =>
    let r := evalExpr e f
    { r.2 with cpu := r.2.cpu.push r.1 }
  | Line.ifThen c body, f =>
    let r := evalExpr c f
    if r.1 ≠ 0 then execActive body r.2 else r.2
  | Line.ifOpen c, f =>
    let r := evalExpr c f
    if r.1 ≠ 0 then r.2 else { r.2 with skip := true }
  | Line.blockClose, f => f
  | Line.branch e, f =>
    let r := evalExpr e f
    { r.2 with cpu := r.2.cpu.emit (Event.branch (decide (r.1 ≠ 0))) }
  | Line.brk, f => { f with cpu := f.cpu.emit Event.brk }
  | Line.call fn e, f =>
    let r := evalExpr e f
    { r.2 with cpu := r.2.cpu.emit (Event.call fn r.1) }
  | Line.throwBadFit, f => { f with thrown := true }

/-- Execution of one line of a routine.  Nothing runs after a `throw`; inside the
untaken body of a multi-line `if` lines are passed over until the closing brace. -/
@[simp]
def execLine (f : Frame) (l : Line) : Frame :=
  if f.thrown then f
  else if l = Line.blockClose then { f with skip := false }
  else if f.skip then f
  else execActive l f

/-- Invocation of a routine on a CPU context: the lines run in order with fresh
local variables. -/
def runFrame (lines : List Line) (cpu : Cpu) : Frame :=
  lines.foldl execLine { cpu := cpu, vars := fun _ => 0, skip := false, thrown := false }

/-- The CPU context a routine leaves behind. -/
def run (lines : List Line) (cpu : Cpu) : Cpu := (runFrame lines cpu).cpu

/-- Total of the `polltime` arguments in a record of events. -/
def cycles : List Event → Nat
  | [] => 0
  | Event.poll n :: rest => n + cycles rest
  | _ :: rest => cycles rest

/-- The events a routine adds to the record of a CPU context. -/
def trace (lines : List Line) (cpu : Cpu) : List Event :=
  (run lines cpu).log.drop cpu.log.length

/-- Time a routine takes on a CPU context: the total of its `polltime` arguments. -/
def cost (lines : List Line) (cpu : Cpu) : Nat := cycles (trace lines cpu)

/-! ## Builders of the source file -/

/-- The expression that reads a local `var`. -/
@[simp]
def lv (x : Var) : Expr := Expr.get (Loc.var x)

/-- The expression `cpu.<r>` for a register letter. -/
@[simp]
def cpuReg (r : Char) : Expr := Expr.get (Loc.reg r)

/-- The expression `cpu.p.<f>`. -/
@[simp]
def cpuFlag (f : Flag) : Expr := Expr.get (Loc.flag f)

/-- The JavaScript expression `l + r`. -/
@[simp]
def eAdd (l r : Expr) : Expr := Expr.bin BinOp.add l r

/-- The JavaScript expression `l - r`. -/
@[simp]
def eSub (l r : Expr) : Expr := Expr.bin BinOp.sub l r

/-- The JavaScript expression `l & r`. -/
@[simp]
def eAnd (l r : Expr) : Expr := Expr.bin BinOp.band l r

/-- The JavaScript expression `l | r`. -/
@[simp]
def eOr (l r : Expr) : Expr := Expr.bin BinOp.bor l r

/-- The JavaScript expression `l ^ r`. -/
@[simp]
def eXor (l r : Expr) : Expr := Expr.bin BinOp.bxor l r

/-- The JavaScript expression `l << r`. -/
@[simp]
def eShl (l r : Expr) : Expr := Expr.bin BinOp.shl l r

/-- The JavaScript expression `l >> r`. -/
@[simp]
def eShr (l r : Expr) : Expr := Expr.bin BinOp.shr l r

/-- The JavaScript expressions `l != r` and `l !== r` (both sides are numbers). -/
@[simp]
def eNe (l r : Expr) : Expr := Expr.bin BinOp.ne l r

/-- The JavaScript expression `l >= r`. -/
@[simp]
def eGe (l r : Expr) : Expr := Expr.bin BinOp.ge l r

/-- The statements `var x = e;` and `x = e;` on a local. -/
@[simp]
def setVar (x : Var) (e : Expr) : Line := Line.assign (Loc.var x) e

/-- The statement `cpu.<r> = e;`. -/
@[simp]
def setCpuReg (r : Char) (e : Expr) : Line := Line.assign (Loc.reg r) e

/-- The statement `cpu.p.<f> = e;`. -/
@[simp]
def setFlag (f : Flag) (e : Expr) : Line := Line.assign (Loc.flag f) e

/-- Worker of `jsSplit`: `cur` holds the current piece reversed. -/
def splitSpaceAux : List Char → List Char → List (List Char)
  | [], cur => [cur.reverse]
  | c :: cs, cur =>
    if c = ' ' then cur.reverse :: splitSpaceAux cs [] else splitSpaceAux cs (c :: cur)

/-- The JavaScript `s.split(' ')`. -/
def jsSplit (s : String) : List String := (splitSpaceAux s.data []).map String.mk

/-- The JavaScript `s[i]` (`none` is `undefined`). -/
def charAt (s : String) (i : Nat) : Option Char := s.data.get? i

/-- The JavaScript `s.match(/^p/)` for a literal `p`, and `s.substr(0, n) == p`. -/
def startsWith (s p : String) : Bool := p.data.isPrefixOf s.data

/-- `rotate(left, logical)`: the shift and rotate mutations on the local `REG`. -/
def rotate (left logical : Bool) : List Line :=
  if !left then
    (if !logical then
      -- var newTopBit = cpu.p.c ? 0x80 : 0x00;
      [setVar Var.newTopBit (Expr.cond (cpuFlag Flag.c) (Expr.num 0x80) (Expr.num 0x00))]
     else []) ++
    -- cpu.p.c = !!(REG & 0x01);
    [setFlag Flag.c (Expr.truthy (eAnd (lv Var.REG) (Expr.num 0x01)))] ++
    (if logical then
      -- REG >>= 1;
      [setVar Var.REG (eShr (lv Var.REG) (Expr.num 1))]
     else
      -- REG = (REG >> 1) | newTopBit;
      [setVar Var.REG (eOr (eShr (lv Var.REG) (Expr.num 1)) (lv Var.newTopBit))]) ++
    -- cpu.setzn(REG);
    [Line.setzn (lv Var.REG)]
  else
    (if !logical then
      -- var newTopBit = cpu.p.c ? 0x01 : 0x00;
      [setVar Var.newTopBit (Expr.cond (cpuFlag Flag.c) (Expr.num 0x01) (Expr.num 0x00))]
     else []) ++
    -- cpu.p.c = !!(REG & 0x80);
    [setFlag Flag.c (Expr.truthy (eAnd (lv Var.REG) (Expr.num 0x80)))] ++
    (if logical then
      -- REG = (REG << 1) & 0xff;
      [setVar Var.REG (eAnd (eShl (lv Var.REG) (Expr.num 1)) (Expr.num 0xff))]
     else
      -- REG = ((REG << 1) & 0xff) | newTopBit;
      [setVar Var.REG
        (eOr (eAnd (eShl (lv Var.REG) (Expr.num 1)) (Expr.num 0xff)) (lv Var.newTopBit))]) ++
    -- cpu.setzn(REG);
    [Line.setzn (lv Var.REG)]

/-- The record `{op, read, write}` returned by `getOp`. -/
structure OpInfo where
  op : List Line
  read : Bool
  write : Bool
  deriving DecidableEq, Repr

/-- `getOp(op)`; `none` is `null`. -/
def getOp (op : String) : Option OpInfo :=
  if op = "LDA" then
    -- cpu.a = REG; cpu.setzn(cpu.a);
    some { op := [setCpuReg 'a' (lv Var.REG), Line.setzn (cpuReg 'a')],
           read := true, write := false }
  else if op = "STA" then
    -- REG = cpu.a;
    some { op := [setVar Var.REG (cpuReg 'a')], read := false, write := true }
  else if op = "INC" then
    -- REG = (REG + 1) & 0xff; cpu.setzn(REG);
    some { op := [setVar Var.REG (eAnd (eAdd (lv Var.REG) (Expr.num 1)) (Expr.num 0xff)),
                  Line.setzn (lv Var.REG)],
           read := true, write := true }
  else if op = "DEC" then
    -- REG = (REG - 1) & 0xff; cpu.setzn(REG);
    some { op := [setVar Var.REG (eAnd (eSub (lv Var.REG) (Expr.num 1)) (Expr.num 0xff)),
                  Line.setzn (lv Var.REG)],
           read := true, write := true }
  else if op = "ROL" then some { op := rotate true false, read := true, write := true }
  else if op = "ROR" then some { op := rotate false false, read := true, write := true }
  else if op = "ASL" then some { op := rotate true true, read := true, write := true }
  else if op = "ASR" then some { op := rotate false true, read := true, write := true }
  else if op = "EOR" then
    -- cpu.a ^= REG; cpu.setzn(cpu.a);
    some { op := [setCpuReg 'a' (eXor (cpuReg 'a') (lv Var.REG)), Line.setzn (cpuReg 'a')],
           read := true, write := false }
  else if op = "CMP" then
    -- cpu.setzn(cpu.a - REG); cpu.p.c = cpu.a >= REG;
    some { op := [Line.setzn (eSub (cpuReg 'a') (lv Var.REG)),
                  setFlag Flag.c (eGe (cpuReg 'a') (lv Var.REG))],
           read := true, write := false }
  else none

/-- The `case "zp":` arm of `getInstruction2`. -/
def getInstruction2Zp (op : OpInfo) (ig : InstructionGen) : List Line :=
  let ig := ig.tick 2
  -- var addr = cpu.getb();
  let ig := ig.append none [setVar Var.addr Expr.getb] false
  let ig :=
    if op.read then
      -- REG = cpu.readmem(addr);
      let ig := ig.zpReadOp [setVar Var.REG (Expr.readmem (lv Var.addr))]
      if op.write then ig.tick 1 else ig
    else ig
  let ig := ig.append none op.op false
  let ig :=
    if op.write then
      -- cpu.writemem(addr, REG);
      ig.zpWriteOp [Line.writemem (lv Var.addr) (lv Var.REG)]
    else ig
  ig.render true

/-- The `case "abs":` arm of `getInstruction2`. -/
def getInstruction2Abs (op : OpInfo) (ig : InstructionGen) : List Line :=
  let ig := ig.tick 3
  -- var addr = cpu.getw();
  let ig := ig.append none [setVar Var.addr Expr.getw] false
  let ig :=
    if op.read then
      -- REG = cpu.readmem(addr);
      let ig := ig.readOp [setVar Var.REG (Expr.readmem (lv Var.addr))]
      if op.write then
        -- cpu.writemem(addr, REG);
        ig.writeOp [Line.writemem (lv Var.addr) (lv Var.REG)]
      else ig
    else ig
  let ig := ig.append none op.op false
  let ig :=
    if op.write then
      -- cpu.writemem(addr, REG);
      ig.writeOp [Line.writemem (lv Var.addr) (lv Var.REG)]
    else ig
  ig.render false

/-- The `case "abs,x": case "abs,y":` arm of `getInstruction2`; `none` is the
`throw "erk"` of `flush`. -/
def getInstruction2AbsIndexed (op : OpInfo) (indexReg : Char) (ig : InstructionGen) :
    Option (List Line) :=
  let ig := ig.tick 3
  -- var addr = cpu.getw();
  let ig := ig.append none [setVar Var.addr Expr.getw] false
  -- var addrWithCarry = (addr + cpu.<indexReg>) & 0xffff;
  let ig := ig.append none
    [setVar Var.addrWithCarry (eAnd (eAdd (lv Var.addr) (cpuReg indexReg)) (Expr.num 0xffff))]
    false
  -- var addrNonCarry = (addr & 0xff00) | (addrWithCarry & 0xff);
  let ig := ig.append none
    [setVar Var.addrNonCarry
      (eOr (eAnd (lv Var.addr) (Expr.num 0xff00)) (eAnd (lv Var.addrWithCarry) (Expr.num 0xff)))]
    false
  let ig? : Option InstructionGen :=
    if op.read then
      -- REG = cpu.readmem(addrNonCarry);
      let ig := ig.readOp [setVar Var.REG (Expr.readmem (lv Var.addrNonCarry))]
      if !op.write then
        -- For non-RMW, we only pay the cost of the spurious read if the address carried
        match ig.flush with
        | none => none
        | some ig =>
          -- if (addrWithCarry !== addrNonCarry) {
          let ig := ig.append none
            [Line.ifOpen (eNe (lv Var.addrWithCarry) (lv Var.addrNonCarry))] false
          --     cpu.polltime(1);
          let ig := ig.append none [Line.polltime 1] false
          --     REG = cpu.readmem(addrWithCarry);
          let ig := ig.append none
            [setVar Var.REG (Expr.readmem (lv Var.addrWithCarry))] false
          -- }
          some (ig.append none [Line.blockClose] false)
      else
        -- For RMW we always have a spurious read and then a spurious write
        -- REG = cpu.readmem(addrWithCarry);
        let ig := ig.readOp [setVar Var.REG (Expr.readmem (lv Var.addrWithCarry))]
        -- cpu.writemem(addrWithCarry, REG); // Spurious write
        some (ig.writeOp [Line.writemem (lv Var.addrWithCarry) (lv Var.REG)])
    else if op.write then
      -- Pure stores still exhibit a read at the non-carried address.
      -- cpu.readmem(addrNonCarry);
      some (ig.readOp [Line.eval (Expr.readmem (lv Var.addrNonCarry))])
    else some ig
  match ig? with
  | none => none
  | some ig =>
    let ig := ig.append none op.op false
    let ig :=
      if op.write then
        -- cpu.writemem(addrWithCarry, REG);
        ig.writeOp [Line.writemem (lv Var.addrWithCarry) (lv Var.REG)]
      else ig
    some (ig.render false)

/-- The scheduler of `getInstruction2` before the `switch`:
`var ig = new InstructionGen(); ig.append("var REG = 0|0;");`. -/
def getInstruction2Start : InstructionGen :=
  InstructionGen.new.append none [setVar Var.REG (eOr (Expr.num 0) (Expr.num 0))] false

/-- `getInstruction2(opcodeString)`.  `Except.error` is a JavaScript exception,
`Except.ok none` is `null`. -/
def getInstruction2 (opcodeString : String) : Except String (Option (List Line)) :=
  let split := jsSplit opcodeString
  let opcode := split.headD ""
  let arg := split.get? 1
  -- var reg = opcode[2].toLowerCase();
  match charAt opcode 2 with
  | none => Except.error "TypeError"
  | some _ =>
    match getOp opcode with
    | none => Except.ok none
    | some op =>
      let ig := getInstruction2Start
      match arg with
      | none => Except.ok none
      | some arg =>
        if arg = "zp" then Except.ok (some (getInstruction2Zp op ig))
        else if arg = "abs" then Except.ok (some (getInstruction2Abs op ig))
        else if arg = "abs,x" ∨ arg = "abs,y" then
          match getInstruction2AbsIndexed op ((charAt arg 4).getD ' ') ig with
          | none => Except.error "erk"
          | some lines => Except.ok (some lines)
        else if arg = "zp,x" ∨ arg = "zp,y" ∨ arg = "A" ∨ arg = "imm" ∨ arg = "(),y" ∨
            arg = "(,y)" ∨ arg = "(,x)" ∨ arg = "branch" ∨ arg = "()" ∨ arg = "zpx" then
          Except.ok none
        else Except.error ("Unknown arg type " ++ arg)

/-- `compileInstruction2(ins)`: the routine is the list of lines handed to `eval`. -/
def compileInstruction2 (ins : String) : Except String (Option (List Line)) :=
  getInstruction2 ins

/-- The record returned by `getGetPut`; `reg` is the place named by its `reg`
string (`"temp"` or `"cpu.a"`). -/
structure GetPut where
  reg : Loc
  get : List Line
  reget : List Line
  put : List Line
  opcodeCycles : Nat
  memoryCycles : Nat
  deriving DecidableEq, Repr

/-- `getGetPut(arg)`; `none` is `undefined`. -/
def getGetPut (arg : Option String) : Option GetPut :=
  if arg = some "zp" then
    some { reg := Loc.var Var.temp,
           -- var addr = cpu.getb(); var temp = cpu.readmem(addr);
           get := [setVar Var.addr Expr.getb, setVar Var.temp (Expr.readmem (lv Var.addr))],
           reget := [],
           -- cpu.writemem(addr, temp);
           put := [Line.writemem (lv Var.addr) (lv Var.temp)],
           opcodeCycles := 1, memoryCycles := 1 }
  else if arg = some "zp,x" then
    some { reg := Loc.var Var.temp,
           -- var addr = (cpu.getb() + cpu.x) & 0xff; var temp = cpu.readmem(addr);
           get := [setVar Var.addr (eAnd (eAdd Expr.getb (cpuReg 'x')) (Expr.num 0xff)),
                   setVar Var.temp (Expr.readmem (lv Var.addr))],
           reget := [],
           put := [Line.writemem (lv Var.addr) (lv Var.temp)],
           opcodeCycles := 1, memoryCycles := 1 }
  else if arg = some "zp,y" then
    some { reg := Loc.var Var.temp,
           -- var addr = (cpu.getb() + cpu.y) & 0xff; var temp = cpu.readmem(addr);
           get := [setVar Var.addr (eAnd (eAdd Expr.getb (cpuReg 'y')) (Expr.num 0xff)),
                   setVar Var.temp (Expr.readmem (lv Var.addr))],
           reget := [],
           put := [Line.writemem (lv Var.addr) (lv Var.temp)],
           opcodeCycles := 1, memoryCycles := 1 }
  else if arg = some "A" then
    some { reg := Loc.reg 'a', get := [], reget := [], put := [],
           opcodeCycles := 0, memoryCycles := 0 }
  else if arg = some "imm" then
    some { reg := Loc.var Var.temp,
           -- var temp = cpu.getb();
           get := [setVar Var.temp Expr.getb],
           reget := [], put := [],
           opcodeCycles := 1, memoryCycles := 0 }
  else if arg = some "abs" then
    some { reg := Loc.var Var.temp,
           -- var addr = cpu.getw(); var temp = cpu.readmem(addr);
           get := [setVar Var.addr Expr.getw, setVar Var.temp (Expr.readmem (lv Var.addr))],
           -- cpu.readmem(addr);
           reget := [Line.eval (Expr.readmem (lv Var.addr))],
           put := [Line.writemem (lv Var.addr) (lv Var.temp)],
           opcodeCycles := 2, memoryCycles := 1 }
  else if arg = some "abs,x" ∨ arg = some "abs,y" then
    some { reg := Loc.var Var.temp,
           get := [
             -- var temp = cpu.getw();
             setVar Var.temp Expr.getw,
             -- var addr = temp + cpu.<arg[4]>;
             setVar Var.addr
               (eAdd (lv Var.temp) (cpuReg ((charAt (arg.getD "") 4).getD ' '))),
             -- if ((addr & 0xff00) != (temp & 0xff00)) cpu.polltime(1);
             Line.ifThen
               (eNe (eAnd (lv Var.addr) (Expr.num 0xff00)) (eAnd (lv Var.temp) (Expr.num 0xff00)))
               (Line.polltime 1),
             -- temp = cpu.readmem(addr);
             setVar Var.temp (Expr.readmem (lv Var.addr))],
           reget := [Line.eval (Expr.readmem (lv Var.addr))],
           put := [Line.writemem (lv Var.addr) (lv Var.temp)],
           opcodeCycles := 2, memoryCycles := 1 }
  else if arg = some "(),y" then
    some { reg := Loc.var Var.temp,
           get := [
             -- var temp = cpu.getb();
             setVar Var.temp Expr.getb,
             -- var baseAddr = cpu.readmem(temp) | (cpu.readmem(temp + 1) << 8);
             setVar Var.baseAddr
               (eOr (Expr.readmem (lv Var.temp))
                 (eShl (Expr.readmem (eAdd (lv Var.temp) (Expr.num 1))) (Expr.num 8))),
             -- var addr = baseAddr + cpu.y
             setVar Var.addr (eAdd (lv Var.baseAddr) (cpuReg 'y')),
             -- if ((baseAddr & 0xff00) != (addr & 0xff00)) cpu.polltime(1);
             Line.ifThen
               (eNe (eAnd (lv Var.baseAddr) (Expr.num 0xff00))
                 (eAnd (lv Var.addr) (Expr.num 0xff00)))
               (Line.polltime 1),
             -- temp = cpu.readmem(addr);
             setVar Var.temp (Expr.readmem (lv Var.addr))],
           reget := [Line.eval (Expr.readmem (lv Var.addr))],
           -- throw "bad fit"
           put := [Line.throwBadFit],
           opcodeCycles := 1, memoryCycles := 3 }
  else if arg = some "(,x)" then
    some { reg := Loc.var Var.temp,
           get := [
             -- var temp = cpu.getb() + cpu.x;
             setVar Var.temp (eAdd Expr.getb (cpuReg 'x')),
             -- var addr = cpu.readmem(temp) | (cpu.readmem(temp + 1) << 8);
             setVar Var.addr
               (eOr (Expr.readmem (lv Var.temp))
                 (eShl (Expr.readmem (eAdd (lv Var.temp) (Expr.num 1))) (Expr.num 8))),
             -- temp = cpu.readmem(addr);
             setVar Var.temp (Expr.readmem (lv Var.addr))],
           reget := [],
           put := [Line.throwBadFit],
           opcodeCycles := 1, memoryCycles := 4 }
  else none

/-- `compileLoad(reg, arg)`; `none` is `null`.  The test `gp.reg != reg` compares
`"temp"` or `"cpu.a"` with a register letter and always holds. -/
def compileLoad (reg : Char) (arg : Option String) : Option (List Line) :=
  if arg = some "imm" ∧ reg = 'a' then
    -- Special cased as it is in b-em.
    some [
      -- cpu.REG = cpu.getb();
      setCpuReg reg Expr.getb,
      -- cpu.setzn(cpu.REG);
      Line.setzn (cpuReg reg),
      Line.polltime 1,
      Line.checkInt,
      Line.polltime 1]
  else
    match getGetPut arg with
    | none => none
    | some gp =>
      -- ["cpu.polltime(" + (gp.opcodeCycles + gp.memoryCycles) + ");"].concat(gp.get)
      let lines := [Line.polltime (gp.opcodeCycles + gp.memoryCycles)] ++ gp.get
      -- lines.push("cpu." + reg + " = " + gp.reg + ";");
      let lines := lines ++ [setCpuReg reg (Expr.get gp.reg)]
      some (lines ++ [
        -- cpu.setzn(cpu.<reg>);
        Line.setzn (cpuReg reg),
        Line.polltime 1,
        Line.checkInt])

/-- `compileStore(reg, arg)`.  `Except.error` is the `TypeError` of `arg.match` on
an `undefined` argument; `Except.ok none` is `undefined`. -/
def compileStore (reg : Char) (arg : Option String) : Except String (Option (List Line)) :=
  match arg with
  | none => Except.error "TypeError"
  | some arg =>
    if arg = "abs" then
      Except.ok (some [
        -- var addr = cpu.getw();
        setVar Var.addr Expr.getw,
        Line.polltime 4,
        Line.checkInt,
        -- cpu.writemem(addr, cpu.REG);
        Line.writemem (lv Var.addr) (cpuReg reg)])
    else if startsWith arg "abs,x" ∨ startsWith arg "abs,y" then
      let off := (charAt arg 4).getD ' '
      Except.ok (some [
        -- var addr = cpu.getw();
        setVar Var.addr Expr.getw,
        Line.polltime 4,
        -- var offsetAddr = (addr + cpu.<off>) & 0xffff;
        setVar Var.offsetAddr (eAnd (eAdd (lv Var.addr) (cpuReg off)) (Expr.num 0xffff)),
        -- var weirdReadAddr = (addr & 0xff00) | (offsetAddr & 0xff);
        setVar Var.weirdReadAddr
          (eOr (eAnd (lv Var.addr) (Expr.num 0xff00)) (eAnd (lv Var.offsetAddr) (Expr.num 0xff))),
        -- cpu.readmem(weirdReadAddr);
        Line.eval (Expr.readmem (lv Var.weirdReadAddr)),
        Line.polltime 1,
        Line.checkInt,
        -- cpu.writemem(offsetAddr, cpu.REG);
        Line.writemem (lv Var.offsetAddr) (cpuReg reg)])
    else if arg = "zp" then
      Except.ok (some [
        -- var addr = cpu.getb();
        setVar Var.addr Expr.getb,
        -- cpu.writemem(addr, cpu.REG);
        Line.writemem (lv Var.addr) (cpuReg reg),
        Line.polltime 3,
        Line.checkInt])
    else if startsWith arg "zp,x" ∨ startsWith arg "zp,y" then
      let off := (charAt arg 3).getD ' '
      Except.ok (some [
        -- var addr = cpu.getb();
        setVar Var.addr Expr.getb,
        -- cpu.writemem((addr + cpu.<off>) & 0xff, cpu.REG);
        Line.writemem (eAnd (eAdd (lv Var.addr) (cpuReg off)) (Expr.num 0xff)) (cpuReg reg),
        Line.polltime 4,
        Line.checkInt])
    else if startsWith arg "()" then
      let off := (charAt arg 3).getD ' '
      Except.ok (some [
        -- var zp = cpu.getb();
        setVar Var.zp Expr.getb,
        -- var addr = cpu.readmem(zp) + (cpu.readmem((zp + 1) & 0xff) << 8) + cpu.<off>;
        setVar Var.addr
          (eAdd
            (eAdd (Expr.readmem (lv Var.zp))
              (eShl (Expr.readmem (eAnd (eAdd (lv Var.zp) (Expr.num 1)) (Expr.num 0xff)))
                (Expr.num 8)))
            (cpuReg off)),
        -- cpu.writemem(addr, cpu.REG);
        Line.writemem (lv Var.addr) (cpuReg reg),
        Line.polltime 6,
        Line.checkInt])
    else if arg = "(,x)" then
      Except.ok (some [
        -- var zp = cpu.getb() + cpu.x;
        setVar Var.zp (eAdd Expr.getb (cpuReg 'x')),
        -- var addr = cpu.readmem(zp) + (cpu.readmem((zp + 1) & 0xff) << 8);
        setVar Var.addr
          (eAdd (Expr.readmem (lv Var.zp))
            (eShl (Expr.readmem (eAnd (eAdd (lv Var.zp) (Expr.num 1)) (Expr.num 0xff)))
              (Expr.num 8))),
        -- cpu.writemem(addr, cpu.REG);
        Line.writemem (lv Var.addr) (cpuReg reg),
        Line.polltime 6,
        Line.checkInt])
    else Except.ok none

/-- `compileCompare(arg, reg)`. -/
def compileCompare (arg : Option String) (reg : Char) : Option (List Line) :=
  match getGetPut arg with
  | none => none
  | some gp =>
    some (gp.get ++ [
      -- cpu.setzn(cpu.REG - <gp.reg>);
      Line.setzn (eSub (cpuReg reg) (Expr.get gp.reg)),
      -- cpu.p.c = (cpu.REG >= <gp.reg>);
      setFlag Flag.c (eGe (cpuReg reg) (Expr.get gp.reg)),
      Line.polltime (1 + gp.opcodeCycles + gp.memoryCycles),
      Line.checkInt])

/-- `compileTransfer(from, to)`. -/
def compileTransfer (src dst : Char) : List Line :=
  -- cpu.<to> = cpu.<from>;
  [setCpuReg dst (cpuReg src)] ++
  -- if (to != "s") lines.push("cpu.setzn(cpu." + to + ");");
  (if dst ≠ 's' then [Line.setzn (cpuReg dst)] else []) ++
  [Line.polltime 2, Line.checkInt]

/-- `compileAsl(arg)`. -/
def compileAsl (arg : Option String) : Option (List Line) :=
  if arg = some "A" then
    some [
      -- cpu.p.c = !!(cpu.a & 0x80);
      setFlag Flag.c (Expr.truthy (eAnd (cpuReg 'a') (Expr.num 0x80))),
      -- cpu.a = (cpu.a << 1) & 0xff;
      setCpuReg 'a' (eAnd (eShl (cpuReg 'a') (Expr.num 1)) (Expr.num 0xff)),
      Line.setzn (cpuReg 'a'),
      Line.polltime 2,
      Line.checkInt]
  else
    match getGetPut arg with
    | none => none
    | some gp =>
      some (gp.get ++ [
        -- cpu.p.c = !!(<gp.reg> & 0x80);
        setFlag Flag.c (Expr.truthy (eAnd (Expr.get gp.reg) (Expr.num 0x80))),
        -- <gp.reg> = (<gp.reg> << 1) & 0xff;
        Line.assign gp.reg (eAnd (eShl (Expr.get gp.reg) (Expr.num 1)) (Expr.num 0xff)),
        -- cpu.setzn(<gp.reg>);
        Line.setzn (Expr.get gp.reg)] ++
        gp.put ++ [
        Line.polltime (1 + gp.opcodeCycles + gp.memoryCycles),
        Line.checkInt])

/-- `compilePush(reg)`. -/
def compilePush (reg : Char) : List Line :=
  if reg = 'p' then
    -- var temp = cpu.p.asByte(); cpu.push(temp);
    [setVar Var.temp Expr.asByte, Line.push (lv Var.temp), Line.polltime 3, Line.checkInt]
  else
    -- cpu.push(cpu.<reg>);
    [Line.push (cpuReg reg), Line.polltime 3, Line.checkInt]

/-- `compilePull(reg)`. -/
def compilePull (reg : Char) : List Line :=
  if reg = 'p' then
    [ -- var temp = cpu.pull();
      setVar Var.temp Expr.pull,
      Line.polltime 4,
      Line.checkInt,
      -- cpu.p.c = !!(temp & 0x01);
      setFlag Flag.c (Expr.truthy (eAnd (lv Var.temp) (Expr.num 0x01))),
      setFlag Flag.z (Expr.truthy (eAnd (lv Var.temp) (Expr.num 0x02))),
      setFlag Flag.i (Expr.truthy (eAnd (lv Var.temp) (Expr.num 0x04))),
      setFlag Flag.d (Expr.truthy (eAnd (lv Var.temp) (Expr.num 0x08))),
      setFlag Flag.v (Expr.truthy (eAnd (lv Var.temp) (Expr.num 0x40))),
      setFlag Flag.n (Expr.truthy (eAnd (lv Var.temp) (Expr.num 0x80)))]
  else
    [ -- cpu.REG = cpu.pull();
      setCpuReg reg Expr.pull,
      Line.setzn (cpuReg reg),
      Line.polltime 4,
      Line.checkInt]

/-- `compileBranch(condition)`; `none` is `undefined`. -/
def compileBranch (condition : String) : Option (List Line) :=
  if condition = "eq" then some [Line.branch (cpuFlag Flag.z)]
  else if condition = "ne" then some [Line.branch (Expr.not (cpuFlag Flag.z))]
  else if condition = "cs" then some [Line.branch (cpuFlag Flag.c)]
  else if condition = "cc" then some [Line.branch (Expr.not (cpuFlag Flag.c))]
  else if condition = "mi" then some [Line.branch (cpuFlag Flag.n)]
  else if condition = "pl" then some [Line.branch (Expr.not (cpuFlag Flag.n))]
  else if condition = "vs" then some [Line.branch (cpuFlag Flag.v)]
  else if condition = "vc" then some [Line.branch (Expr.not (cpuFlag Flag.v))]
  else none

/-- The JavaScript literal `true` as a number. -/
@[simp]
def eTrue : Expr := Expr.num 1

/-- The JavaScript literal `false` as a number. -/
@[simp]
def eFalse : Expr := Expr.num 0

/-- `compileJsr()`. -/
def compileJsr : List Line :=
  [ -- var addr = cpu.getw();
    setVar Var.addr Expr.getw,
    -- var pushAddr = cpu.pc - 1;
    setVar Var.pushAddr (eSub (Expr.get Loc.pc) (Expr.num 1)),
    -- cpu.push(pushAddr >> 8);
    Line.push (eShr (lv Var.pushAddr) (Expr.num 8)),
    -- cpu.push(pushAddr & 0xff);
    Line.push (eAnd (lv Var.pushAddr) (Expr.num 0xff)),
    -- cpu.pc = addr;
    Line.assign Loc.pc (lv Var.addr),
    Line.polltime 5,
    Line.checkInt,
    Line.polltime 1]

/-- `compileRts()`. -/
def compileRts : List Line :=
  [ -- var temp = cpu.pull();
    setVar Var.temp Expr.pull,
    -- temp |= cpu.pull() << 8;
    setVar Var.temp (eOr (lv Var.temp) (eShl Expr.pull (Expr.num 8))),
    -- cpu.pc = temp + 1;
    Line.assign Loc.pc (eAdd (lv Var.temp) (Expr.num 1)),
    Line.polltime 5,
    Line.checkInt,
    Line.polltime 1]

/-- `compileRti()`. -/
def compileRti : List Line :=
  [ -- var temp = cpu.pull();
    setVar Var.temp Expr.pull,
    -- cpu.p.c = temp & 1;
    setFlag Flag.c (eAnd (lv Var.temp) (Expr.num 1)),
    setFlag Flag.z (eAnd (lv Var.temp) (Expr.num 2)),
    setFlag Flag.i (eAnd (lv Var.temp) (Expr.num 4)),
    setFlag Flag.d (eAnd (lv Var.temp) (Expr.num 8)),
    setFlag Flag.v (eAnd (lv Var.temp) (Expr.num 0x40)),
    setFlag Flag.n (eAnd (lv Var.temp) (Expr.num 0x80)),
    -- temp = cpu.pull();
    setVar Var.temp Expr.pull,
    -- cpu.pc = temp | cpu.pull() << 8;
    Line.assign Loc.pc (eOr (lv Var.temp) (eShl Expr.pull (Expr.num 8))),
    Line.polltime 6,
    Line.checkInt]

/-- `compileAddDec(reg, arg, addOrDec)`.  The text `"+ 1"` is `BinOp.add` and
`"- 1"` is `BinOp.sub`, both applied to the literal 1. -/
def compileAddDec (reg : Char) (arg : Option String) (addOrDec : BinOp) :
    Option (List Line) :=
  if arg = none then
    some [
      -- cpu.REG = (cpu.REG <addOrDec>) & 0xff;
      setCpuReg reg (eAnd (Expr.bin addOrDec (cpuReg reg) (Expr.num 1)) (Expr.num 0xff)),
      Line.setzn (cpuReg reg),
      Line.polltime 2,
      Line.checkInt]
  else if arg = some "abs" then
    -- Hugely hand-crafted looking RMW instruction
    some [
      -- var addr = cpu.getw();
      setVar Var.addr Expr.getw,
      Line.polltime 4,
      -- var oldValue = cpu.readmem(addr);
      setVar Var.oldValue (Expr.readmem (lv Var.addr)),
      -- var newValue = (oldValue <addOrDec>) & 0xff;
      setVar Var.newValue (eAnd (Expr.bin addOrDec (lv Var.oldValue) (Expr.num 1)) (Expr.num 0xff)),
      Line.polltime 1,
      -- cpu.writemem(addr, oldValue);
      Line.writemem (lv Var.addr) (lv Var.oldValue),
      Line.checkViaIntOnly,
      Line.polltime 1,
      Line.checkInt,
      -- cpu.writemem(addr, newValue);
      Line.writemem (lv Var.addr) (lv Var.newValue),
      -- cpu.setzn(newValue);
      Line.setzn (lv Var.newValue)]
  else if arg = some "abs,x" then
    some [
      -- var addr = cpu.getw();
      setVar Var.addr Expr.getw,
      -- cpu.readmem((addr & 0xff00) | ((addr + cpu.x) & 0xff));
      Line.eval (Expr.readmem
        (eOr (eAnd (lv Var.addr) (Expr.num 0xff00))
          (eAnd (eAdd (lv Var.addr) (cpuReg 'x')) (Expr.num 0xff)))),
      -- addr += cpu.x;
      setVar Var.addr (eAdd (lv Var.addr) (cpuReg 'x')),
      -- var oldValue = cpu.readmem(addr);
      setVar Var.oldValue (Expr.readmem (lv Var.addr)),
      -- var newValue = (oldValue <addOrDec>) & 0xff;
      setVar Var.newValue (eAnd (Expr.bin addOrDec (lv Var.oldValue) (Expr.num 1)) (Expr.num 0xff)),
      -- cpu.writemem(addr, oldValue);
      Line.writemem (lv Var.addr) (lv Var.oldValue),
      -- cpu.writemem(addr, newValue);
      Line.writemem (lv Var.addr) (lv Var.newValue),
      Line.setzn (lv Var.newValue),
      Line.polltime 7,
      Line.checkInt]
  else
    match getGetPut arg with
    | none => none
    | some getput =>
      some (getput.get ++ [
        -- <reg> = (<reg> <addOrDec>) & 0xff;
        Line.assign getput.reg
          (eAnd (Expr.bin addOrDec (Expr.get getput.reg) (Expr.num 1)) (Expr.num 0xff)),
        -- cpu.setzn(<reg>);
        Line.setzn (Expr.get getput.reg),
        -- todo why is the cycle count wrong?
        Line.polltime (1 + getput.opcodeCycles + 2 * getput.memoryCycles)] ++
        getput.put)

/-- `compileRotate(left, logical, arg)`. -/
def compileRotate (left logical : Bool) (arg : Option String) : Option (List Line) :=
  match getGetPut arg with
  | none => none
  | some getput =>
    let lines := [Line.polltime (1 + getput.opcodeCycles + getput.memoryCycles)]
    let lines := lines ++ getput.get
    let lines := lines ++ [Line.polltime getput.memoryCycles]
    let lines := lines ++ getput.put
    let lines :=
      if !left then
        let lines :=
          if !logical then
            -- var newTopBit = cpu.p.c ? 0x80 : 0x00;
            lines ++ [setVar Var.newTopBit
              (Expr.cond (cpuFlag Flag.c) (Expr.num 0x80) (Expr.num 0x00))]
          else lines
        -- cpu.p.c = !!(<reg> & 0x01);
        let lines := lines ++
          [setFlag Flag.c (Expr.truthy (eAnd (Expr.get getput.reg) (Expr.num 0x01)))]
        if logical then
          -- <reg> >>= 1;
          lines ++ [Line.assign getput.reg (eShr (Expr.get getput.reg) (Expr.num 1))]
        else
          -- <reg> = (<reg> >> 1) | newTopBit;
          lines ++ [Line.assign getput.reg
            (eOr (eShr (Expr.get getput.reg) (Expr.num 1)) (lv Var.newTopBit))]
      else
        let lines :=
          if !logical then
            -- var newTopBit = cpu.p.c ? 0x01 : 0x00;
            lines ++ [setVar Var.newTopBit
              (Expr.cond (cpuFlag Flag.c) (Expr.num 0x01) (Expr.num 0x00))]
          else lines
        -- cpu.p.c = !!(<reg> & 0x80);
        let lines := lines ++
          [setFlag Flag.c (Expr.truthy (eAnd (Expr.get getput.reg) (Expr.num 0x80)))]
        if logical then
          -- <reg> = (<reg> << 1) & 0xff;
          lines ++ [Line.assign getput.reg
            (eAnd (eShl (Expr.get getput.reg) (Expr.num 1)) (Expr.num 0xff))]
        else
          -- <reg> = ((<reg> << 1) & 0xff) | newTopBit;
          lines ++ [Line.assign getput.reg
            (eOr (eAnd (eShl (Expr.get getput.reg) (Expr.num 1)) (Expr.num 0xff))
              (lv Var.newTopBit))]
    -- cpu.setzn(<reg>);
    let lines := lines ++ [Line.setzn (Expr.get getput.reg)]
    let lines := lines ++ getput.put
    some (lines ++ [Line.checkInt, Line.polltime getput.memoryCycles])

/-- `compileLogical(arg, op)`; `op` is the operator of the text `"&"`, `"|"` or
`"^"`. -/
def compileLogical (arg : Option String) (op : BinOp) : Option (List Line) :=
  match getGetPut arg with
  | none => none
  | some getput =>
    let lines := [Line.polltime (getput.opcodeCycles + getput.memoryCycles)] ++ getput.get
    some (lines ++ [
      -- cpu.a <op>= <reg>;
      setCpuReg 'a' (Expr.bin op (cpuReg 'a') (Expr.get getput.reg)),
      Line.setzn (cpuReg 'a'),
      Line.polltime 1,
      Line.checkInt])

/-- `compileJump(arg)`; `none` is `undefined`. -/
def compileJump (arg : Option String) : Option (List Line) :=
  if arg = some "abs" then
    some [
      -- cpu.pc = cpu.getw();
      Line.assign Loc.pc Expr.getw,
      Line.polltime 3,
      Line.checkInt]
  else if arg = some "()" then
    some [
      -- var addr = cpu.getw();
      setVar Var.addr Expr.getw,
      -- var nextAddr = ((addr + 1) & 0xff) | (addr & 0xff00);
      setVar Var.nextAddr
        (eOr (eAnd (eAdd (lv Var.addr) (Expr.num 1)) (Expr.num 0xff))
          (eAnd (lv Var.addr) (Expr.num 0xff00))),
      -- cpu.pc = cpu.readmem(addr) | (cpu.readmem(nextAddr) << 8);
      Line.assign Loc.pc
        (eOr (Expr.readmem (lv Var.addr)) (eShl (Expr.readmem (lv Var.nextAddr)) (Expr.num 8))),
      Line.polltime 5,
      Line.checkInt]
  else none

/-- `compileBit(arg)`. -/
def compileBit (arg : Option String) : Option (List Line) :=
  if arg = some "imm" then
    -- 65c02 instr.
    some [
      -- cpu.p.z = !(cpu.a & cpu.getb());
      setFlag Flag.z (Expr.not (eAnd (cpuReg 'a') Expr.getb)),
      Line.polltime 2]
  else
    match getGetPut arg with
    | none => none
    | some getput =>
      some (getput.get ++ [
        -- cpu.p.z = !(cpu.a & <reg>);
        setFlag Flag.z (Expr.not (eAnd (cpuReg 'a') (Expr.get getput.reg))),
        -- cpu.p.v = !!(<reg> & 0x40);
        setFlag Flag.v (Expr.truthy (eAnd (Expr.get getput.reg) (Expr.num 0x40))),
        -- cpu.p.n = !!(<reg> & 0x80);
        setFlag Flag.n (Expr.truthy (eAnd (Expr.get getput.reg) (Expr.num 0x80))),
        Line.polltime (1 + getput.opcodeCycles + getput.memoryCycles),
        Line.checkInt])

/-- `compileAdcSbc(inst, arg)`. -/
def compileAdcSbc (inst : String) (arg : Option String) : Option (List Line) :=
  match getGetPut arg with
  | none => none
  | some getput =>
    some (getput.get ++ [
      -- cpu.<inst>(<reg>);
      Line.call inst (Expr.get getput.reg),
      Line.polltime (1 + getput.opcodeCycles + getput.memoryCycles),
      Line.checkInt])

/-- `compileNop(arg)`: `null` when `arg` is truthy, that is a non-empty string. -/
def compileNop (arg : Option String) : Option (List Line) :=
  if arg = none ∨ arg = some "" then some [Line.polltime 2, Line.checkInt] else none

/-- The entries of the object literal `opcodes6502`, in source order. -/
def opcodeList : List (Nat × String) :=
  [(0x00, "BRK"), (0x01, "ORA (,x)"), (0x03, "SLO (,x)"), (0x04, "NOP zp"),
   (0x05, "ORA zp"), (0x06, "ASL zp"), (0x07, "SLO zp"), (0x08, "PHP"),
   (0x09, "ORA imm"), (0x0A, "ASL A"), (0x0B, "ANC imm"), (0x0C, "NOP abs"),
   (0x0D, "ORA abs"), (0x0E, "ASL abs"), (0x0F, "SLO abs"), (0x10, "BPL branch"),
   (0x11, "ORA (),y"), (0x13, "SLO (),y"), (0x14, "NOP zp,x"), (0x15, "ORA zp,x"),
   (0x16, "ASL zp,x"), (0x17, "SLO zp,x"), (0x18, "CLC"), (0x19, "ORA abs,y"),
   (0x1A, "NOP"), (0x1B, "SLO abs,y"), (0x1C, "NOP abs,x"), (0x1D, "ORA abs,x"),
   (0x1E, "ASL abs,x"), (0x1F, "SLO abs,x"), (0x20, "JSR abs"), (0x21, "AND (,x)"),
   (0x23, "RLA (,x)"), (0x24, "BIT zp"), (0x25, "AND zp"), (0x26, "ROL zp"),
   (0x27, "RLA zp"), (0x28, "PLP"), (0x29, "AND imm"), (0x2A, "ROL A"),
   (0x2B, "ANC imm"), (0x2C, "BIT abs"), (0x2D, "AND abs"), (0x2E, "ROL abs"),
   (0x2F, "RLA abs"), (0x30, "BMI branch"), (0x31, "AND (),y"), (0x33, "RLA (),y"),
   (0x34, "NOP zp,x"), (0x35, "AND zp,x"), (0x36, "ROL zp,x"), (0x37, "RLA zp,x"),
   (0x38, "SEC"), (0x39, "AND abs,y"), (0x3A, "NOP"), (0x3B, "RLA abs,y"),
   (0x3C, "NOP abs,x"), (0x3D, "AND abs,x"), (0x3E, "ROL abs,x"), (0x3F, "RLA abs,x"),
   (0x40, "RTI"), (0x41, "EOR (,x)"), (0x43, "SRE (,x)"), (0x44, "NOP zp"),
   (0x45, "EOR zp"), (0x46, "LSR zp"), (0x47, "SRE zp"), (0x48, "PHA"),
   (0x49, "EOR imm"), (0x4A, "LSR A"), (0x4B, "ASR imm"), (0x4C, "JMP abs"),
   (0x4D, "EOR abs"), (0x4E, "LSR abs"), (0x4F, "SRE abs"), (0x50, "BVC branch"),
   (0x51, "EOR (),y"), (0x53, "SRE (),y"), (0x54, "NOP zp,x"), (0x55, "EOR zp,x"),
   (0x56, "LSR zp,x"), (0x57, "SRE zp,x"), (0x58, "CLI"), (0x59, "EOR abs,y"),
   (0x5A, "NOP"), (0x5B, "SRE abs,y"), (0x5C, "NOP abs,x"), (0x5D, "EOR abs,x"),
   (0x5E, "LSR abs,x"), (0x5F, "SRE abs,x"), (0x60, "RTS"), (0x61, "ADC (,x)"),
   (0x63, "RRA (,x)"), (0x64, "NOP zp"), (0x65, "ADC zp"), (0x66, "ROR zp"),
   (0x67, "RRA zp"), (0x68, "PLA"), (0x69, "ADC imm"), (0x6A, "ROR A"),
   (0x6B, "ARR"), (0x6C, "JMP ()"), (0x6D, "ADC abs"), (0x6E, "ROR abs"),
   (0x6F, "RRA abs"), (0x70, "BVS branch"), (0x71, "ADC (),y"), (0x73, "RRA (,y)"),
   (0x74, "NOP zp,x"), (0x75, "ADC zp,x"), (0x76, "ROR zp,x"), (0x77, "RRA zp,x"),
   (0x78, "SEI"), (0x79, "ADC abs,y"), (0x7A, "NOP"), (0x7B, "RRA abs,y"),
   (0x7D, "ADC abs,x"), (0x7E, "ROR abs,x"), (0x7F, "RRA abs,x"), (0x80, "NOP imm"),
   (0x81, "STA (,x)"), (0x82, "NOP imm"), (0x83, "SAX (,x)"), (0x84, "STY zp"),
   (0x85, "STA zp"), (0x86, "STX zp"), (0x87, "SAX zp"), (0x88, "DEY"),
   (0x89, "NOP imm"), (0x8A, "TXA"), (0x8B, "ANE"), (0x8C, "STY abs"),
   (0x8D, "STA abs"), (0x8E, "STX abs"), (0x8F, "SAX abs"), (0x90, "BCC branch"),
   (0x91, "STA (),y"), (0x93, "SHA (),y"), (0x94, "STY zp,x"), (0x95, "STA zp,x"),
   (0x96, "STX zp,y"), (0x97, "SAX zp,y"), (0x98, "TYA"), (0x99, "STA abs,y"),
   (0x9A, "TXS"), (0x9B, "SHS abs,y"), (0x9C, "SHY abs,x"), (0x9D, "STA abs,x"),
   (0x9E, "SHX abs,y"), (0x9F, "SHA abs,y"), (0xA0, "LDY imm"), (0xA1, "LDA (,x)"),
   (0xA2, "LDX imm"), (0xA3, "LAX (,y)"), (0xA4, "LDY zp"), (0xA5, "LDA zp"),
   (0xA6, "LDX zp"), (0xA7, "LAX zp"), (0xA8, "TAY"), (0xA9, "LDA imm"),
   (0xAA, "TAX"), (0xAB, "LAX"), (0xAC, "LDY abs"), (0xAD, "LDA abs"),
   (0xAE, "LDX abs"), (0xAF, "LAX abs"), (0xB0, "BCS branch"), (0xB1, "LDA (),y"),
   (0xB3, "LAX (),y"), (0xB4, "LDY zp,x"), (0xB5, "LDA zp,x"), (0xB6, "LDX zp,y"),
   (0xB7, "LAX zp,y"), (0xB8, "CLV"), (0xB9, "LDA abs,y"), (0xBA, "TSX"),
   (0xBB, "LAS abs,y"), (0xBC, "LDY abs,x"), (0xBD, "LDA abs,x"), (0xBE, "LDX abs,y"),
   (0xBF, "LAX abs,y"), (0xC0, "CPY imm"), (0xC1, "CMP (,x)"), (0xC2, "NOP imm"),
   (0xC3, "DCP (,x)"), (0xC4, "CPY zp"), (0xC5, "CMP zp"), (0xC6, "DEC zp"),
   (0xC7, "DCP zp"), (0xC8, "INY"), (0xC9, "CMP imm"), (0xCA, "DEX"),
   (0xCB, "SBX imm"), (0xCC, "CPY abs"), (0xCD, "CMP abs"), (0xCE, "DEC abs"),
   (0xCF, "DCP abs"), (0xD0, "BNE branch"), (0xD1, "CMP (),y"), (0xD3, "DCP (),y"),
   (0xD4, "NOP zp,x"), (0xD5, "CMP zp,x"), (0xD6, "DEC zp,x"), (0xD7, "DCP zp,x"),
   (0xD8, "CLD"), (0xD9, "CMP abs,y"), (0xDA, "NOP"), (0xDB, "DCP abs,y"),
   (0xDC, "NOP abs,x"), (0xDD, "CMP abs,x"), (0xDE, "DEC abs,x"), (0xDF, "DCP abs,x"),
   (0xE0, "CPX imm"), (0xE1, "SBC (,x)"), (0xE2, "NOP imm"), (0xE3, "ISB (,x)"),
   (0xE4, "CPX zp"), (0xE5, "SBC zp"), (0xE6, "INC zp"), (0xE7, "ISB zp"),
   (0xE8, "INX"), (0xE9, "SBC imm"), (0xEA, "NOP"), (0xEB, "SBC imm"),
   (0xEC, "CPX abs"), (0xED, "SBC abs"), (0xEE, "INC abs"), (0xEF, "ISB abs"),
   (0xF0, "BEQ branch"), (0xF1, "SBC (),y"), (0xF3, "ISB (),y"), (0xF4, "NOP zpx"),
   (0xF5, "SBC zp,x"), (0xF6, "INC zp,x"), (0xF7, "ISB zp,x"), (0xF8, "SED"),
   (0xF9, "SBC abs,y"), (0xFA, "NOP"), (0xFB, "ISB abs,y"), (0xFC, "NOP abs,x"),
   (0xFD, "SBC abs,x"), (0xFE, "INC abs,x"), (0xFF, "ISB abs,x")]

/-- `opcodes6502[i]`; `none` is `undefined`. -/
def opcodes6502 (i : Nat) : Option String :=
  (opcodeList.find? (fun e => e.1 == i)).map (fun e => e.2)

/-- The JavaScript `s.toLowerCase()`. -/
def toLowerCase (s : String) : String := String.mk (s.data.map Char.toLower)

/-- The JavaScript `s.substr(start, len)`. -/
def substr (s : String) (start len : Nat) : String := String.mk ((s.data.drop start).take len)

/-- `compileInstruction(opcodeString)`.  The routine is the list of lines handed to
`eval`; `Except.ok none` is `null`.  The source has two `if ... else if` chains in
sequence (the second starts at `if (opcode == "BIT")`), and both run. -/
def compileInstruction (opcodeString : String) : Except String (Option (List Line)) :=
  let split := jsSplit opcodeString
  let opcode := split.headD ""
  let arg := split.get? 1
  -- var reg = opcode[2].toLowerCase();
  match charAt opcode 2 with
  | none => Except.error "TypeError"
  | some c2 =>
    let reg := c2.toLower
    let first : Except String (Option (List Line)) :=
      if startsWith opcode "LD" then Except.ok (compileLoad reg arg)
      else if startsWith opcode "ST" then compileStore reg arg
      else if opcode = "SEI" then
        Except.ok (some [Line.polltime 2, Line.checkInt, setFlag Flag.i eTrue])
      else if opcode = "CLI" then
        Except.ok (some [Line.polltime 2, Line.checkInt, setFlag Flag.i eFalse])
      else if opcode = "SEC" then
        Except.ok (some [Line.polltime 2, Line.checkInt, setFlag Flag.c eTrue])
      else if opcode = "CLC" then
        Except.ok (some [Line.polltime 2, Line.checkInt, setFlag Flag.c eFalse])
      else if opcode = "SED" then
        Except.ok (some [setFlag Flag.d eTrue, Line.polltime 2, Line.checkInt])
      else if opcode = "CLD" then
        Except.ok (some [setFlag Flag.d eFalse, Line.polltime 2, Line.checkInt])
      else if opcode = "CLV" then
        Except.ok (some [setFlag Flag.v eFalse, Line.polltime 2, Line.checkInt])
      else if charAt opcode 0 = some 'T' then
        Except.ok (some (compileTransfer (((charAt opcode 1).getD ' ').toLower) c2.toLower))
      else if opcode = "ASL" then Except.ok (compileAsl arg)
      else if startsWith opcode "PH" then Except.ok (some (compilePush reg))
      else if startsWith opcode "PL" then Except.ok (some (compilePull reg))
      else Except.ok none
    match first with
    | Except.error e => Except.error e
    | Except.ok lines =>
      let lines : Option (List Line) :=
        if opcode = "BIT" then compileBit arg
        else if opcode = "BRK" then some [Line.brk]
        else if charAt opcode 0 = some 'B' then compileBranch (toLowerCase (substr opcode 1 2))
        else if opcode = "CMP" then compileCompare arg 'a'
        else if startsWith opcode "CP" then compileCompare arg c2.toLower
        else if startsWith opcode "DE" then compileAddDec c2.toLower arg BinOp.sub
        else if startsWith opcode "IN" then compileAddDec c2.toLower arg BinOp.add
        else if opcode = "JSR" then some compileJsr
        else if opcode = "RTS" then some compileRts
        else if opcode = "RTI" then some compileRti
        else if opcode = "ROR" then compileRotate false false arg
        else if opcode = "ROL" then compileRotate true false arg
        else if opcode = "LSR" then compileRotate false true arg
        else if opcode = "LSL" then compileRotate true true arg
        else if opcode = "AND" then compileLogical arg BinOp.band
        else if opcode = "ORA" then compileLogical arg BinOp.bor
        else if opcode = "EOR" then compileLogical arg BinOp.bxor
        else if opcode = "JMP" then compileJump arg
        else if opcode = "ADC" ∨ opcode = "SBC" then compileAdcSbc (toLowerCase opcode) arg
        else if opcode = "NOP" then compileNop arg
        else lines
      Except.ok lines

/-- Body of the loop of `generate6502` for the byte `i`: the value left in
`functions[i]`.  `Except.ok none` is an empty slot (`undefined` when the catalog has
no entry, `null` when neither builder yields a routine). -/
def generateSlot (i : Nat) : Except String (Option (List Line)) :=
  match opcodes6502 i with
  | none => Except.ok none
  | some opcode =>
    match compileInstruction2 opcode with
    | Except.error e => Except.error e
    | Except.ok (some f) => Except.ok (some f)
    | Except.ok none => compileInstruction opcode

/-- `generate6502()`: the slots `functions[0 .. 255]`, or the exception that ended
the loop. -/
def generate6502 : Except String (List (Option (List Line))) :=
  (List.range 256).mapM generateSlot

/-- Slot `i` of the table returned by `generate6502()`; `none` when the slot is empty
or the byte is out of range or the construction raised. -/
def tableSlot (i : Nat) : Option (List Line) :=
  match generate6502 with
  | Except.error _ => none
  | Except.ok t => (t.get? i).join

/-- The value the loop of `generate6502` leaves in `functions[i]`, an exception
counting as an empty slot. -/
def slotOf (i : Nat) : Option (List Line) :=
  match generateSlot i with
  | Except.ok r => r
  | Except.error _ => none

/-- Whether the loop body of `generate6502` raises for the byte `i`. -/
def slotRaises (i : Nat) : Bool :=
  match generateSlot i with
  | Except.ok _ => false
  | Except.error _ => true

/-! ## Vocabulary of the statements -/

/-- Time taken by the routine in slot `b` of the table on a CPU context; `none` when
the slot is empty. -/
def slotCost (b : Nat) (cpu : Cpu) : Option Nat := (tableSlot b).map (fun r => cost r cpu)

/-- The mnemonic of a catalog entry: the text before the first space. -/
def mnemonicOf (s : String) : String := (jsSplit s).headD ""

/-- The addressing-mode tag of a catalog entry: the text after the first space, if
there is one. -/
def operandOf (s : String) : Option String := (jsSplit s).get? 1

/-- The 56 documented mnemonics of the 6502. -/
def documentedMnemonics : List String :=
  ["ADC", "AND", "ASL", "BCC", "BCS", "BEQ", "BIT", "BMI", "BNE", "BPL", "BRK", "BVC", "BVS",
   "CLC", "CLD", "CLI", "CLV", "CMP", "CPX", "CPY", "DEC", "DEX", "DEY", "EOR", "INC", "INX",
   "INY", "JMP", "JSR", "LDA", "LDX", "LDY", "LSR", "NOP", "ORA", "PHA", "PHP", "PLA", "PLP",
   "ROL", "ROR", "RTI", "RTS", "SBC", "SEC", "SED", "SEI", "STA", "STX", "STY", "TAX", "TAY",
   "TSX", "TXA", "TXS", "TYA"]

/-- A catalog entry with a documented mnemonic that is not a `NOP` with an operand. -/
def supportedEntry (s : String) : Bool :=
  documentedMnemonics.contains (mnemonicOf s) &&
    !(mnemonicOf s == "NOP" && (operandOf s).isSome)

/-- Whether the catalog entry of byte `b` is populated and supported. -/
def supportedByte (b : Nat) : Bool :=
  match opcodes6502 b with
  | some s => supportedEntry s
  | none => false

/-- A CPU context with cleared registers and flags, an empty record, the given
program counter and the given memory. -/
def sampleCpu (pc : Int) (mem : Int → Int) : Cpu :=
  { a := 0, x := 0, y := 0, s := 0xff, pc := pc,
    p := { c := false, z := false, i := false, d := false, v := false, n := false },
    asByte := fun _ => 0, mem := mem, log := [] }

/-- Whether an event is a data access on the bus: a `cpu.readmem` or a
`cpu.writemem` made by the routine. -/
def isBus : Event → Bool
  | Event.read _ => true
  | Event.write _ _ => true
  | _ => false

/-- The data accesses on the bus in a record of events, in order. -/
def busEvents (tr : List Event) : List Event := tr.filter isBus

/-- Follows the specification's wording: the bus accesses of a read-modify-write at
the address `ea`, namely one read of the old value, one write of the old value back,
one write of the new value (the value the address holds afterwards). -/
def rmwThree (ea : Int) (before after : Cpu) : List Event :=
  [Event.read ea, Event.write ea (before.mem ea), Event.write ea (after.mem ea)]

/-- The bus accesses of a read followed by the write of the new value only. -/
def rmwTwo (ea : Int) (after : Cpu) : List Event :=
  [Event.read ea, Event.write ea (after.mem ea)]

/-- The classes of indexed absolute instructions in the timing rule. -/
inductive IndexedKind
  | read | rmw | store
  deriving DecidableEq, Repr

/-- The read instructions of the timing rule. -/
def readMnemonics : List String :=
  ["LDA", "LDX", "LDY", "EOR", "CMP", "AND", "ORA", "ADC", "SBC"]

/-- The read-modify-write instructions that the scheduler builds. -/
def rmwScheduled : List String := ["INC", "DEC", "ASL", "ROL", "ROR"]

/-- Class and index register of the catalog entry of byte `b`, when the entry is an
`abs,x` or `abs,y` form of a read instruction, of a scheduler-built
read-modify-write instruction, or of `STA`. -/
def indexedKind (b : Nat) : Option (IndexedKind × Char) :=
  match opcodes6502 b with
  | none => none
  | some s =>
    let idx : Option Char :=
      if operandOf s = some "abs,x" then some 'x'
      else if operandOf s = some "abs,y" then some 'y'
      else none
    match idx with
    | none => none
    | some idx =>
      if readMnemonics.contains (mnemonicOf s) then some (IndexedKind.read, idx)
      else if rmwScheduled.contains (mnemonicOf s) then some (IndexedKind.rmw, idx)
      else if mnemonicOf s = "STA" then some (IndexedKind.store, idx)
      else none

/-- Follows the specification's wording: the cycle count of an indexed absolute
instruction with base address `w` and index value `i`. -/
def indexedCost (k : IndexedKind) (w i : Int) : Nat :=
  match k with
  | IndexedKind.read => if 256 ≤ w % 256 + i then 5 else 4
  | IndexedKind.rmw => 7
  | IndexedKind.store => 5

/-- The CPU context of the worked examples for indexed forms: `sampleCpu` with the
index registers set. -/
def sampleCpuXY (pc x y : Int) (mem : Int → Int) : Cpu :=
  { sampleCpu pc mem with x := x, y := y }

/-- A CPU context with cleared flags, an empty record and the given registers and
memory. -/
def sampleCpuRegs (pc a x y s : Int) (mem : Int → Int) : Cpu :=
  { sampleCpu pc mem with a := a, x := x, y := y, s := s }

/-- The CPU context of the `STA $10` example: accumulator `0x99`, operand byte `0x10`
at `0x1001`. -/
def staExampleCpu : Cpu :=
  sampleCpuRegs 0x1001 0x99 0 0 0xff (fun k => if k = 0x1001 then 0x10 else 0)

/-- Follows the specification's wording: the flag a flag-set or flag-clear mnemonic
names, with the value it gives the flag. -/
def flagOpOf (mnemonic : String) : Option (Flag × Bool) :=
  if mnemonic = "SEC" then some (Flag.c, true)
  else if mnemonic = "CLC" then some (Flag.c, false)
  else if mnemonic = "SEI" then some (Flag.i, true)
  else if mnemonic = "CLI" then some (Flag.i, false)
  else if mnemonic = "SED" then some (Flag.d, true)
  else if mnemonic = "CLD" then some (Flag.d, false)
  else if mnemonic = "CLV" then some (Flag.v, false)
  else none

/-- The flag operation of the catalog entry of byte `b`, if the entry is one of
`SEC`, `CLC`, `SEI`, `CLI`, `SED`, `CLD`, `CLV`. -/
def flagOp (b : Nat) : Option (Flag × Bool) :=
  match opcodes6502 b with
  | some s => flagOpOf s
  | none => none

/-- Whether `getInstruction2` yields an operation sequence for a catalog entry. -/
def getInstruction2Yields (s : String) : Bool :=
  match getInstruction2 s with
  | Except.ok (some _) => true
  | _ => false

/-- Whether `getInstruction2` throws on a catalog entry. -/
def getInstruction2Raises (s : String) : Bool :=
  match getInstruction2 s with
  | Except.error _ => true
  | _ => false

/-- Follows the specification's wording: the mnemonics the cycle-scheduler-based
builder is said to cover. -/
def schedulerMnemonics : List String :=
  ["LDA", "STA", "INC", "DEC", "ROL", "ROR", "ASL", "LSR", "EOR", "CMP"]

/-- The mnemonics of the catalog that `getOp` knows. -/
def getOpMnemonics : List String :=
  ["LDA", "STA", "INC", "DEC", "ROL", "ROR", "ASL", "EOR", "CMP"]

/-- The addressing modes the cycle-scheduler-based builder covers. -/
def schedulerModes : List String := ["zp", "abs", "abs,x", "abs,y"]

/-- Whether a catalog entry pairs one of the given mnemonics with a scheduler
mode. -/
def schedulerPair (mnemonics : List String) (s : String) : Bool :=
  mnemonics.contains (mnemonicOf s) &&
    match operandOf s with
    | some arg => schedulerModes.contains arg
    | none => false

/-- Whether bit `k` of the integer `f` is set. -/
def bitSet (f : Int) (k : Nat) : Bool := decide (f / 2 ^ k % 2 = 1)

/-- Follows the specification's wording: the flags unpacked from a byte, carry from
bit 0, zero from bit 1, interrupt-disable from bit 2, decimal from bit 3, overflow
from bit 6, negative from bit 7. -/
def flagsOfByte (f : Int) : Flags :=
  { c := bitSet f 0, z := bitSet f 1, i := bitSet f 2, d := bitSet f 3,
    v := bitSet f 6, n := bitSet f 7 }

/-- The CPU context of the `RTI` example: stack pointer `0xfc`, with the bytes
`0xc3`, `0x34`, `0x12` on the stack above it. -/
def rtiExampleCpu : Cpu :=
  sampleCpuRegs 0x1001 0 0 0 0xfc
    (fun k => if k = 0x1fd then 0xc3 else if k = 0x1fe then 0x34 else if k = 0x1ff then 0x12 else 0)

/-- Runs lines from a given invocation state. -/
def execLines (lines : List Line) (f : Frame) : Frame := lines.foldl execLine f

/-- An invocation state in which the local `REG` holds `v`. -/
def regFrame (cpu : Cpu) (v : Int) : Frame :=
  { cpu := cpu, vars := fun k => if k = Var.REG then v else 0, skip := false, thrown := false }

/-- The inline mutation of `compileRotate` computes the same value and carry as
`rotate`: the table's `ROL A` and `ROR A` routines leave in the accumulator and the
carry what `rotate` leaves in `REG` and the carry when `REG` starts as the
accumulator, and `ROL zp,x` and `ROR zp,x` leave in memory and the carry what
`rotate` leaves when `REG` starts as the byte in memory. -/
def InlineRotateAgrees (cpu : Cpu) : Prop :=
    (∃ r, tableSlot 0x2A = some r ∧
      (run r cpu).a = (execLines (rotate true false) (regFrame cpu cpu.a)).vars Var.REG ∧
      (run r cpu).p.c = (execLines (rotate true false) (regFrame cpu cpu.a)).cpu.p.c) ∧
    (∃ r, tableSlot 0x6A = some r ∧
      (run r cpu).a = (execLines (rotate false false) (regFrame cpu cpu.a)).vars Var.REG ∧
      (run r cpu).p.c = (execLines (rotate false false) (regFrame cpu cpu.a)).cpu.p.c) ∧
    (∃ r, tableSlot 0x36 = some r ∧
      (run r cpu).mem (Int.land (cpu.getb.1 + cpu.x) 0xff) =
        (execLines (rotate true false)
          (regFrame cpu (cpu.mem (Int.land (cpu.getb.1 + cpu.x) 0xff)))).vars Var.REG ∧
      (run r cpu).p.c =
        (execLines (rotate true false)
          (regFrame cpu (cpu.mem (Int.land (cpu.getb.1 + cpu.x) 0xff)))).cpu.p.c) ∧
    (∃ r, tableSlot 0x76 = some r ∧
      (run r cpu).mem (Int.land (cpu.getb.1 + cpu.x) 0xff) =
        (execLines (rotate false false)
          (regFrame cpu (cpu.mem (Int.land (cpu.getb.1 + cpu.x) 0xff)))).vars Var.REG ∧
      (run r cpu).p.c =
        (execLines (rotate false false)
          (regFrame cpu (cpu.mem (Int.land (cpu.getb.1 + cpu.x) 0xff)))).cpu.p.c)

/-- The catalog lookup `opcodes6502[v]` for a number read from memory; `none` is
`undefined`, which is also the result for a number outside `0..255`. -/
def opcodeAt (v : Int) : Option String :=
  if 0 ≤ v then opcodes6502 v.toNat else none

/-- The match of `param.match(/(.*),([xy])$/)`: the text before a final `,x` or
`,y`, and the index letter. -/
def indexMatch (param : String) : Option (String × Char) :=
  match param.data.reverse with
  | c :: ',' :: rest => if c = 'x' ∨ c = 'y' then some (String.mk rest.reverse, c) else none
  | _ => none

/-- `Disassemble6502(cpu).disassemble(addr)`: the text of the instruction and the
address after it.  The helpers `hexbyte`, `hexword` and `signExtend` are not part of
this source file and are taken as parameters. -/
def disassemble (hexbyte hexword : Int → String) (signExtend : Int → Int) (cpu : Cpu)
    (addr : Int) : String × Int :=
  -- var opcode = opcodes6502[cpu.readmem(addr)];
  match opcodeAt (cpu.readmem addr).1 with
  | none => ("???", addr + 1)
  | some opcode =>
    let split := jsSplit opcode
    let mnemonic := split.headD ""
    -- if (!split[1]) { return [opcode, addr + 1]; }
    match split.get? 1 with
    | none => (opcode, addr + 1)
    | some arg =>
      if arg = "" then (opcode, addr + 1)
      else
        let param := match indexMatch arg with
          | some m => m.1
          | none => arg
        let suffix := match indexMatch arg with
          | some m => "," ++ String.mk [m.2.toUpper]
          | none => ""
        if param = "imm" then
          (mnemonic ++ " #$" ++ hexbyte (cpu.readmem (addr + 1)).1 ++ suffix, addr + 2)
        else if param = "abs" then
          (mnemonic ++ " $" ++
            hexword (Int.lor (cpu.readmem (addr + 1)).1
              ((cpu.readmem (addr + 2)).1 <<< (8 : Int))) ++ suffix,
            addr + 3)
        else if param = "branch" then
          (mnemonic ++ " $" ++
            hexword (addr + signExtend (cpu.readmem (addr + 1)).1 + 2) ++ suffix,
            addr + 2)
        else if param = "zp" then
          (mnemonic ++ " $" ++ hexbyte (cpu.readmem (addr + 1)).1 ++ suffix, addr + 2)
        else if param = "(,x)" then
          (mnemonic ++ " ($" ++ hexbyte (cpu.readmem (addr + 1)).1 ++ ", X)" ++ suffix, addr + 2)
        else if param = "()" then
          if mnemonic = "JMP" then
            (mnemonic ++ " ($" ++
              hexword (Int.lor (cpu.readmem (addr + 1)).1
                ((cpu.readmem (addr + 2)).1 <<< (8 : Int))) ++ ")" ++ suffix,
              addr + 3)
          else
            (mnemonic ++ " ($" ++ hexbyte (cpu.readmem (addr + 1)).1 ++ ")" ++ suffix, addr + 2)
        else (opcode, addr + 1)

/-- The distance from an instruction to the next one that `disassemble` reports for
a catalog entry: the second components of its `return` statements, in the order of
its tests. -/
def reportedLength (entry : Option String) : Int :=
  match entry with
  | none => 1
  | some opcode =>
    match (jsSplit opcode).get? 1 with
    | none => 1
    | some arg =>
      if arg = "" then 1
      else
        let param := match indexMatch arg with
          | some m => m.1
          | none => arg
        if param = "imm" then 2
        else if param = "abs" then 3
        else if param = "branch" then 2
        else if param = "zp" then 2
        else if param = "(,x)" then 2
        else if param = "()" then (if (jsSplit opcode).headD "" = "JMP" then 3 else 2)
        else 1

/-- Follows the specification's wording: the 6502 instruction length of an
addressing-mode tag of the catalog: 1 for implied and accumulator forms, 2 for
immediate, zero-page, indexed zero-page, relative, `(zp,X)` and `(zp),Y` forms, 3
for absolute, indexed absolute and `JMP` indirect forms.  The tags `zpx` and `(,y)`
are the catalog's spellings of an indexed zero-page and an indexed indirect form. -/
def formLength (arg : Option String) : Int :=
  match arg with
  | none => 1
  | some a =>
    if a = "A" then 1
    else if a = "imm" ∨ a = "zp" ∨ a = "zp,x" ∨ a = "zp,y" ∨ a = "zpx" ∨ a = "branch" ∨
        a = "(,x)" ∨ a = "(),y" ∨ a = "(,y)" then 2
    else if a = "abs" ∨ a = "abs,x" ∨ a = "abs,y" ∨ a = "()" then 3
    else 0

/-- The CPU context of the address-range example: operand word `0xffff` at `0x1001`
and `Y = 1`. -/
def wrapExampleCpu : Cpu :=
  sampleCpuRegs 0x1001 0 0 1 0xff
    (fun k => if k = 0x1001 then 0xff else if k = 0x1002 then 0xff else 0)

/-- The CPU context of the `JMP ($12ff)` example: the pointer `0x12ff` at `0x1001`,
the byte `0x34` at `0x12ff`, `0x56` at `0x1200` and `0x78` at `0x1300`. -/
def jmpExampleCpu : Cpu :=
  sampleCpu 0x1001
    (fun k => if k = 0x1001 then 0xff else if k = 0x1002 then 0x12
      else if k = 0x12ff then 0x34 else if k = 0x1200 then 0x56
      else if k = 0x1300 then 0x78 else 0)

/-- The CPU context of the `JSR $4000` example: the opcode at `0x3000` has been
fetched, the operand word `0x4000` is at `0x3001`. -/
def jsrExampleCpu : Cpu :=
  sampleCpu 0x3001 (fun k => if k = 0x3002 then 0x40 else 0)

/-- A packing of the flags into a byte: carry in bit 0, zero in bit 1,
interrupt-disable in bit 2, decimal in bit 3, overflow in bit 6, negative in bit 7,
bits 4 and 5 set. -/
def packFlags (p : Flags) : Int :=
  ofBool p.c + 2 * ofBool p.z + 4 * ofBool p.i + 8 * ofBool p.d + 0x30 +
    64 * ofBool p.v + 128 * ofBool p.n

/-- The CPU context of the `PHP`, `PLP` example: `cpu.p.asByte` is `packFlags`,
carry and negative are set. -/
def phpExampleCpu : Cpu :=
  { sampleCpu 0x1001 (fun _ => 0) with
    asByte := packFlags,
    p := { c := true, z := false, i := false, d := false, v := false, n := true } }

/-- A CPU context for `PLP` with the byte `0xf3` on the stack above the stack
pointer. -/
def plpExampleCpuA : Cpu := sampleCpu 0x1001 (fun k => if k = 0x100 then 0xf3 else 0)

/-- A CPU context for `PLP` with the byte `0xc3` on the stack above the stack
pointer: `0xf3` with bits 4 and 5 cleared. -/
def plpExampleCpuB : Cpu := sampleCpu 0x1001 (fun k => if k = 0x100 then 0xc3 else 0)

/-- The CPU context of the `LDA ($ff),Y` example: operand byte `0xff` at `0x1001`,
`Y = 0`; memory holds `0x34` at `0xff`, `0x12` at `0x00` and `0x56` at `0x100`. -/
def indYExampleCpu : Cpu :=
  sampleCpu 0x1001
    (fun k => if k = 0x1001 then 0xff else if k = 0xff then 0x34
      else if k = 0x00 then 0x12 else if k = 0x100 then 0x56 else 0)

/-- The CPU context of the `LDA ($f0,X)` example: operand byte `0xf0` at `0x1001`,
`X = 0x20`. -/
def indXExampleCpu : Cpu :=
  sampleCpuXY 0x1001 0x20 0 (fun k => if k = 0x1001 then 0xf0 else 0)

/-- The routine a builder returned, an exception or `undefined` counting as no
routine. -/
def routineOf (e : Except String (Option (List Line))) : Option (List Line) :=
  match e with
  | Except.ok r => r
  | Except.error _ => none

/-- The address of the last operand fetch or memory read in a record of events. -/
def lastReadAddr : List Event → Option Int
  | [] => none
  | e :: rest =>
    match lastReadAddr rest with
    | some a => some a
    | none =>
      match e with
      | Event.fetch a => some a
      | Event.read a => some a
      | _ => none

/-- The operand the routine in slot `b` of the table fetched on a CPU context: the
byte at the address of its last operand fetch or memory read. -/
def slotOperand (b : Nat) (cpu : Cpu) : Option Int :=
  (tableSlot b).bind (fun r => (lastReadAddr (trace r cpu)).map cpu.mem)

/-- Follows the specification's wording: the register a compare mnemonic compares. -/
def compareRegOf (mnemonic : String) : Option Char :=
  if mnemonic = "CMP" then some 'a'
  else if mnemonic = "CPX" then some 'x'
  else if mnemonic = "CPY" then some 'y'
  else none

/-- The register compared by the catalog entry of byte `b`, if the entry is a `CMP`,
`CPX` or `CPY`. -/
def compareReg (b : Nat) : Option Char :=
  match opcodes6502 b with
  | some s => compareRegOf (mnemonicOf s)
  | none => none

/-- The CPU context of the `CMP #$30` example: accumulator `0x40`, operand byte `0x30`
at `0x1001`. -/
def cmpExampleCpu : Cpu :=
  sampleCpuRegs 0x1001 0x40 0 0 0xff (fun k => if k = 0x1001 then 0x30 else 0)

/-- The CPU context of the `ASL $2000,X` example: operand word `0x2000` at `0x1001`,
`X = 0`, the byte `0x80` at `0x2000`. -/
def aslExampleCpu : Cpu :=
  sampleCpu 0x1001 (fun k => if k = 0x1002 then 0x20 else if k = 0x2000 then 0x80 else 0)

/-- The CPU context of the `INC $30` example: operand byte `0x30` at `0x1001`, the
byte `0xff` at `0x30`. -/
def incExampleCpu : Cpu :=
  sampleCpu 0x1001 (fun k => if k = 0x1001 then 0x30 else if k = 0x30 then 0xff else 0)

/-- Follows the specification's wording: the bus accesses of an indexed absolute store
of the value `v` with base address `w` and index `i`, namely one read at the
non-carried address `(w & 0xff00) | ((w + i) & 0xff)`, then one write of `v` to
`(w + i) & 0xffff`. -/
def storeAccesses (w i v : Int) : List Event :=
  [Event.read (Int.lor (Int.land w 0xff00) (Int.land (w + i) 0xff)),
   Event.write (Int.land (w + i) 0xffff) v]

/-- The CPU context of the `STA $20ff,X` example: accumulator `0x99`, `X = 1`, operand
word `0x20ff` at `0x1001`. -/
def staIndexedExampleCpu : Cpu :=
  sampleCpuRegs 0x1001 0x99 1 0 0xff
    (fun k => if k = 0x1001 then 0xff else if k = 0x1002 then 0x20 else 0)

/-- The events of a record after its last `cpu.checkInt()`; `none` when the record
has no `cpu.checkInt()`. -/
def afterCheckInt : List Event → Option (List Event)
  | [] => none
  | e :: rest =>
    match afterCheckInt rest with
    | some t => some t
    | none => if e = Event.checkInt then some rest else none

/-- The time that elapses between the last `cpu.checkInt()` of a record and its end:
the total of the `polltime` arguments after it. -/
def cyclesAfterCheckInt (tr : List Event) : Option Nat := (afterCheckInt tr).map cycles

/-- The CPU context of the page-crossing examples: operand word `0x20ff` at `0x1001`,
`X = 1`, `Y = 1`. -/
def pageCrossExampleCpu : Cpu :=
  sampleCpuXY 0x1001 1 1 (fun k => if k = 0x1001 then 0xff else if k = 0x1002 then 0x20 else 0)

/-- The CPU context of the examples without page crossing: operand word `0x2000` at
`0x1001`, `X = 1`, `Y = 1`. -/
def samePageExampleCpu : Cpu :=
  sampleCpuXY 0x1001 1 1 (fun k => if k = 0x1002 then 0x20 else 0)

/-- The time advance written in a line of generated code: the argument of a
`cpu.polltime(...)` call, also when the call is the body of a one-line `if`. -/
def Line.time : Line → Nat
  | Line.polltime n => n
  | Line.ifThen _ body => body.time
  | _ => 0

/-- Total of the time advances written in a list of lines, the `polltime` lines that
`render` inserted and those attached to a cycle alike. -/
def linesTime : List Line → Nat
  | [] => 0
  | l :: rest => l.time + linesTime rest

/-! # Theorems -/

/-! ## The scheduler -/

theorem pollSum_append (xs ys : List Entry) :
    pollSum (xs ++ ys) = pollSum xs + pollSum ys := by
  induction xs with
  | nil => simp [pollSum]
  | cons x xs ih => cases x <;> simp [pollSum, ih, Nat.add_assoc]

theorem opsOnly_append (xs ys : List Entry) :
    opsOnly (xs ++ ys) = opsOnly xs ++ opsOnly ys := by
  induction xs with
  | nil => simp [opsOnly]
  | cons x xs ih => cases x <;> simp [opsOnly, ih]

theorem pollSum_map_op (ls : List Line) : pollSum (ls.map Entry.op) = 0 := by
  induction ls with
  | nil => rfl
  | cons l ls ih => simpa [pollSum] using ih

theorem opsOnly_map_op (ls : List Line) : opsOnly (ls.map Entry.op) = ls := by
  induction ls with
  | nil => rfl
  | cons l ls ih => simpa [opsOnly] using ih

theorem mem_opsOnly {l : Line} {xs : List Entry} (h : Entry.op l ∈ xs) :
    l ∈ opsOnly xs := by
  induction xs with
  | nil => simp at h
  | cons x xs ih =>
    cases x with
    | poll n =>
      simp only [List.mem_cons] at h
      rcases h with h | h
      · cases h
      · simpa [opsOnly] using ih h
    | op m =>
      simp only [List.mem_cons] at h
      rcases h with h | h
      · cases h; simp [opsOnly]
      · simp [opsOnly, ih h]

theorem mem_concatCycles {l : Line} {f : Int → List Line} {n : Nat}
    (h : l ∈ concatCycles f n) : ∃ k : Nat, k < n ∧ l ∈ f (k : Int) := by
  induction n with
  | zero => simp [concatCycles] at h
  | succ n ih =>
    simp only [concatCycles, List.mem_append] at h
    rcases h with h | h
    · obtain ⟨k, hk, hl⟩ := ih h
      exact ⟨k, Nat.lt_succ_of_lt hk, hl⟩
    · exact ⟨n, Nat.lt_succ_self n, h⟩

theorem concatCycles_congr {f g : Int → List Line} {n : Nat}
    (h : ∀ k : Nat, k < n → f (k : Int) = g (k : Int)) :
    concatCycles f n = concatCycles g n := by
  induction n with
  | zero => rfl
  | succ n ih =>
    simp only [concatCycles]
    rw [ih (fun k hk => h k (Nat.lt_succ_of_lt hk)), h n (Nat.lt_succ_self n)]

namespace InstructionGen

theorem renderLoop_succ (ops : Int → Option Slot) (n : Nat) :
    renderLoop ops (n + 1) = renderStep ops (renderLoop ops n) n := by
  simp [renderLoop, List.range_succ, List.foldl_append]

theorem renderLoop_congr {ops ops2 : Int → Option Slot} {n : Nat}
    (h : ∀ k : Nat, k < n → ops (k : Int) = ops2 (k : Int)) :
    renderLoop ops n = renderLoop ops2 n := by
  induction n with
  | zero => rfl
  | succ n ih =>
    rw [renderLoop_succ, renderLoop_succ, ih (fun k hk => h k (Nat.lt_succ_of_lt hk))]
    simp only [renderStep, h n (Nat.lt_succ_self n)]

/-- Loop invariant of `render`: flushed time plus pending skip equals the number of
cycles walked, the operations emitted are those of the cycles walked, in order, and
the pending skip is non-zero once a cycle has been walked. -/
theorem renderLoop_inv (ops : Int → Option Slot) (n : Nat) :
    pollSum (renderLoop ops n).2 + (renderLoop ops n).1 = n ∧
    opsOnly (renderLoop ops n).2 = concatCycles (opsAt ops) n ∧
    (0 < n → 0 < (renderLoop ops n).1) := by
  induction n with
  | zero => simp [renderLoop, pollSum, opsOnly, concatCycles]
  | succ n ih =>
    obtain ⟨h1, h2, _⟩ := ih
    rw [renderLoop_succ]
    unfold renderStep
    cases hs : ops (n : Int) with
    | none =>
      simp only [concatCycles, opsAt, hs, List.append_nil]
      refine ⟨by omega, h2, fun _ => Nat.succ_pos _⟩
    | some s =>
      simp only [concatCycles, opsAt, hs]
      by_cases hc : (renderLoop ops n).1 ≠ 0 ∧ s.exact = true
      · simp only [hc, and_self, if_true, ne_eq, not_false_eq_true, pollSum_append,
          opsOnly_append, pollSum_map_op, opsOnly_map_op, pollSum, opsOnly, h2,
          List.append_nil]
        refine ⟨by omega, trivial, fun _ => Nat.succ_pos _⟩
      · simp only [hc, if_false, pollSum_append, opsOnly_append, pollSum_map_op,
          opsOnly_map_op, h2]
        refine ⟨by omega, trivial, fun _ => Nat.succ_pos _⟩

theorem cycle_withCheckInt (g : InstructionGen) (zpOnly : Bool) :
    (g.withCheckInt zpOnly).cycle = g.cycle := by
  unfold withCheckInt append
  cases zpOnly <;> simp

theorem opsAt_append (g : InstructionGen) (c : Option Int) (op : List Line) (e : Bool)
    (k : Int) :
    opsAt (g.append c op e).ops k =
      opsAt g.ops k ++ (if k = c.getD (g.cycle : Int) then op else []) := by
  have hc : (match c with | some c => c | none => (g.cycle : Int)) = c.getD (g.cycle : Int) := by
    cases c <;> rfl
  simp only [append, opsAt, hc]
  by_cases hk : k = c.getD (g.cycle : Int)
  · subst hk
    cases h : g.ops (c.getD (g.cycle : Int)) <;> simp
  · simp [hk]

theorem opsAt_withCheckInt (g : InstructionGen) (zpOnly : Bool) (k : Int) :
    opsAt (g.withCheckInt zpOnly).ops k =
      opsAt g.ops k ++
        (if k = (if zpOnly then (g.cycle : Int) else (g.cycle : Int) - 1)
          then [Line.checkInt] else []) := by
  unfold withCheckInt
  cases zpOnly <;> simp [opsAt_append]

theorem renderTail_pollSum (ops : Int → Option Slot) (n : Nat) :
    pollSum (renderTail ops n (renderLoop ops n)) = n := by
  obtain ⟨h1, _, _⟩ := renderLoop_inv ops n
  unfold renderTail
  by_cases ht : (renderLoop ops n).1 = 0
  · cases ops (n : Int) <;>
      simp only [ht, ne_eq, not_true_eq_false, if_false, pollSum_append, pollSum_map_op] <;>
      omega
  · cases ops (n : Int) <;>
      simp only [ht, ne_eq, not_false_eq_true, if_true, pollSum_append, pollSum_map_op,
        pollSum] <;>
      omega

theorem renderTail_opsOnly (ops : Int → Option Slot) (n : Nat) :
    opsOnly (renderTail ops n (renderLoop ops n)) = concatCycles (opsAt ops) (n + 1) := by
  obtain ⟨_, h2, _⟩ := renderLoop_inv ops n
  unfold renderTail
  simp only [concatCycles, opsAt]
  by_cases ht : (renderLoop ops n).1 = 0
  · cases ops (n : Int) <;>
      simp [ht, opsOnly_append, opsOnly_map_op, h2, opsAt]
  · cases ops (n : Int) <;>
      simp [ht, opsOnly_append, opsOnly_map_op, h2, opsOnly, opsAt]

theorem renderStep_out (ops : Int → Option Slot) (st : Nat × List Entry) (i : Nat) :
    ∃ extra, (renderStep ops st i).2 = st.2 ++ extra := by
  unfold renderStep
  cases ops (i : Int) with
  | none => exact ⟨[], by simp⟩
  | some s =>
    by_cases hc : st.1 ≠ 0 ∧ s.exact = true
    · exact ⟨[Entry.poll st.1] ++ s.op.map Entry.op, by simp [hc]⟩
    · exact ⟨s.op.map Entry.op, by simp [hc]⟩

/-- Walking an exact cycle `m` leaves one pending cycle and puts the cycle's
operations after inserted `polltime` lines that add up to `m`. -/
theorem renderLoop_succ_exact (ops : Int → Option Slot) (m : Nat) (s : Slot)
    (hs : ops (m : Int) = some s) (hex : s.exact = true) :
    ∃ pre, renderLoop ops (m + 1) = (1, pre ++ s.op.map Entry.op) ∧ pollSum pre = m ∧
      opsOnly pre = concatCycles (opsAt ops) m := by
  obtain ⟨h1, h2, _⟩ := renderLoop_inv ops m
  rw [renderLoop_succ]
  unfold renderStep
  simp only [hs, hex, and_true]
  by_cases ht : (renderLoop ops m).1 = 0
  · refine ⟨(renderLoop ops m).2, by simp [ht], by omega, h2⟩
  · refine ⟨(renderLoop ops m).2 ++ [Entry.poll (renderLoop ops m).1], by simp [ht], ?_, ?_⟩
    · simp only [pollSum_append, pollSum]; omega
    · simp [opsOnly_append, opsOnly, h2]

theorem renderLoop_exact_pos (ops : Int → Option Slot) (n k : Nat) (hk : k < n)
    (hex : exactAt ops (k : Int) = true) :
    ∃ pre post, (renderLoop ops n).2 = pre ++ (opsAt ops (k : Int)).map Entry.op ++ post ∧
      pollSum pre = k ∧ opsOnly pre = concatCycles (opsAt ops) k := by
  induction n with
  | zero => omega
  | succ n ih =>
    by_cases hkn : k < n
    · obtain ⟨pre, post, h1, h2, h3⟩ := ih hkn
      obtain ⟨extra, he⟩ := renderStep_out ops (renderLoop ops n) n
      refine ⟨pre, post ++ extra, ?_, h2, h3⟩
      rw [renderLoop_succ, he, h1]
      simp
    · have hkeq : k = n := by omega
      subst hkeq
      unfold exactAt at hex
      cases hs : ops (k : Int) with
      | none => simp [hs] at hex
      | some s =>
        simp only [hs] at hex
        obtain ⟨pre, h1, h2, h3⟩ := renderLoop_succ_exact ops k s hs hex
        refine ⟨pre, [], ?_, h2, h3⟩
        simp [h1, opsAt, hs]

theorem renderTail_out (ops : Int → Option Slot) (n : Nat) (st : Nat × List Entry) :
    ∃ extra, renderTail ops n st = st.2 ++ extra := by
  unfold renderTail
  by_cases ht : st.1 = 0
  · cases ops (n : Int) with
    | none => exact ⟨[], by simp [ht]⟩
    | some s => exact ⟨s.op.map Entry.op, by simp [ht]⟩
  · cases ops (n : Int) with
    | none => exact ⟨[Entry.poll st.1], by simp [ht]⟩
    | some s => exact ⟨[Entry.poll st.1] ++ s.op.map Entry.op, by simp [ht]⟩

theorem renderTail_last_pos (ops : Int → Option Slot) (n : Nat) :
    ∃ pre, renderTail ops n (renderLoop ops n) = pre ++ (opsAt ops (n : Int)).map Entry.op ∧
      pollSum pre = n ∧ opsOnly pre = concatCycles (opsAt ops) n := by
  obtain ⟨h1, h2, _⟩ := renderLoop_inv ops n
  unfold renderTail
  by_cases ht : (renderLoop ops n).1 = 0
  · refine ⟨(renderLoop ops n).2, ?_, by omega, h2⟩
    cases hs : ops (n : Int) <;> simp [ht, opsAt, hs]
  · refine ⟨(renderLoop ops n).2 ++ [Entry.poll (renderLoop ops n).1], ?_, ?_, ?_⟩
    · cases hs : ops (n : Int) <;> simp [ht, opsAt, hs]
    · simp only [pollSum_append, pollSum]; omega
    · simp [opsOnly_append, opsOnly, h2]

theorem withCheckInt_slot (g : InstructionGen) (zpOnly : Bool) :
    ∃ s, (g.withCheckInt zpOnly).ops
        (if zpOnly then (g.cycle : Int) else (g.cycle : Int) - 1) = some s ∧
      s.exact = true ∧
      s.op = opsAt g.ops (if zpOnly then (g.cycle : Int) else (g.cycle : Int) - 1) ++
        [Line.checkInt] := by
  unfold withCheckInt append opsAt
  cases zpOnly
  · cases h : g.ops ((g.cycle : Int) - 1) <;> simp [h]
  · cases h : g.ops (g.cycle : Int) <;> simp [h]

theorem not_mem_of_opsOnly {l : Line} {xs : List Entry} {f : Int → List Line} {n : Nat}
    (h : opsOnly xs = concatCycles f n) (hf : ∀ k : Int, l ∉ f k) : Entry.op l ∉ xs := by
  intro hm
  have h1 := mem_opsOnly hm
  rw [h] at h1
  obtain ⟨k, _, hk⟩ := mem_concatCycles h1
  exact hf _ hk

end InstructionGen

theorem cycle_apply_append (g : InstructionGen) (c : Option Int) (op : List Line)
    (e : Bool) : (g.append c op e).cycle = g.cycle := rfl

theorem opsAt_foldl_apply (calls : List Call) (g : InstructionGen) (k : Int) :
    opsAt (calls.foldl Call.apply g).ops k = opsAt g.ops k ++ attachedFrom g.cycle calls k := by
  induction calls generalizing g with
  | nil => simp [attachedFrom]
  | cons c rest ih =>
    rw [List.foldl_cons, ih]
    cases c with
    | tick n => simp [Call.apply, InstructionGen.tick, attachedFrom]
    | append c op e =>
      simp [Call.apply, attachedFrom, InstructionGen.opsAt_append, cycle_apply_append]
    | readOp op =>
      simp [Call.apply, attachedFrom, InstructionGen.readOp, InstructionGen.opsAt_append,
        cycle_apply_append]
    | writeOp op =>
      simp [Call.apply, attachedFrom, InstructionGen.writeOp, InstructionGen.opsAt_append,
        cycle_apply_append]
    | zpReadOp op =>
      simp [Call.apply, attachedFrom, InstructionGen.zpReadOp, InstructionGen.opsAt_append,
        cycle_apply_append]
    | zpWriteOp op =>
      simp [Call.apply, attachedFrom, InstructionGen.zpWriteOp, InstructionGen.opsAt_append,
        cycle_apply_append]

theorem opsAt_build (calls : List Call) (k : Int) :
    opsAt (build calls).ops k = attachedFrom 0 calls k := by
  unfold build
  rw [opsAt_foldl_apply]
  simp [InstructionGen.new, opsAt]

/-- C1: for every schedule built by a sequence of `tick`, `append`, `readOp`,
`writeOp`, `zpReadOp` and `zpWriteOp` calls and for either value of `zpOnly`, the
arguments of the `cpu.polltime(n);` lines that `render` inserts add up to the cycle
counter at the time of the call. -/
theorem render_polltime_total (calls : List Call) (zpOnly : Bool) :
    pollSum ((build calls).renderEntries zpOnly) = (build calls).cycle := by
  unfold InstructionGen.renderEntries
  simp only [InstructionGen.renderTail_pollSum, InstructionGen.cycle_withCheckInt]

/-- C3: with the inserted `polltime` lines removed, the output of `render` is the
concatenation, for the cycles `0, 1, ..., N` in ascending order, of the operations
attached to each cycle in the order the calls attached them, the interrupt sample
being appended to its cycle. -/
theorem render_preserves_order (calls : List Call) (zpOnly : Bool) :
    opsOnly ((build calls).renderEntries zpOnly) =
      concatCycles (scheduled calls zpOnly (build calls).cycle) ((build calls).cycle + 1) := by
  unfold InstructionGen.renderEntries
  simp only [InstructionGen.renderTail_opsOnly, InstructionGen.cycle_withCheckInt]
  apply concatCycles_congr
  intro k _
  rw [InstructionGen.opsAt_withCheckInt, opsAt_build]
  rfl

/-- C2: for every schedule and every cycle `k` with `0 ≤ k ≤ N` that is exact when
`render` walks it (and for `k = N` whatever its exactness), the operations of cycle
`k` stand in the output of `render` right after the operations of the cycles before
`k`, and the inserted `polltime` lines that precede them add up to exactly `k`. -/
theorem exact_cycle_on_its_edge (calls : List Call) (zpOnly : Bool) (k : Nat)
    (hk : k ≤ (build calls).cycle)
    (hex : k = (build calls).cycle ∨
      exactAt ((build calls).withCheckInt zpOnly).ops (k : Int) = true) :
    ∃ pre post,
      (build calls).renderEntries zpOnly =
        pre ++ (opsAt ((build calls).withCheckInt zpOnly).ops (k : Int)).map Entry.op ++ post ∧
      pollSum pre = k ∧
      opsOnly pre = concatCycles (opsAt ((build calls).withCheckInt zpOnly).ops) k := by
  unfold InstructionGen.renderEntries
  simp only [InstructionGen.cycle_withCheckInt]
  by_cases hkn : k = (build calls).cycle
  · subst hkn
    obtain ⟨pre, h1, h2, h3⟩ := InstructionGen.renderTail_last_pos
      ((build calls).withCheckInt zpOnly).ops (build calls).cycle
    exact ⟨pre, [], by simp [h1], h2, h3⟩
  · have hlt : k < (build calls).cycle := by omega
    have hex2 : exactAt ((build calls).withCheckInt zpOnly).ops (k : Int) = true := by
      rcases hex with h | h
      · exact absurd h hkn
      · exact h
    obtain ⟨pre, post, h1, h2, h3⟩ := InstructionGen.renderLoop_exact_pos
      ((build calls).withCheckInt zpOnly).ops (build calls).cycle k hlt hex2
    obtain ⟨extra, he⟩ := InstructionGen.renderTail_out
      ((build calls).withCheckInt zpOnly).ops (build calls).cycle
      (InstructionGen.renderLoop ((build calls).withCheckInt zpOnly).ops (build calls).cycle)
    refine ⟨pre, post ++ extra, ?_, h2, h3⟩
    rw [he, h1]
    simp

/-- Witness for C2: `tick(2); append(brk); readOp(read); tick(2)` rendered with
`zpOnly = false`, at the exact cycle 3. -/
theorem exact_cycle_on_its_edge_witness :
    ∃ pre post,
      (build [Call.tick 2, Call.append none [Line.brk] false,
        Call.readOp [Line.eval (Expr.readmem (Expr.num 3))], Call.tick 2]).renderEntries false =
        pre ++ (opsAt ((build [Call.tick 2, Call.append none [Line.brk] false,
          Call.readOp [Line.eval (Expr.readmem (Expr.num 3))],
          Call.tick 2]).withCheckInt false).ops ((3 : Nat) : Int)).map Entry.op ++ post ∧
      pollSum pre = 3 ∧
      opsOnly pre = concatCycles (opsAt ((build [Call.tick 2, Call.append none [Line.brk] false,
          Call.readOp [Line.eval (Expr.readmem (Expr.num 3))],
          Call.tick 2]).withCheckInt false).ops) 3 :=
  exact_cycle_on_its_edge
    [Call.tick 2, Call.append none [Line.brk] false,
      Call.readOp [Line.eval (Expr.readmem (Expr.num 3))], Call.tick 2]
    false 3 (by decide) (Or.inr (by decide))

/-- Where `render(false)` puts the interrupt sample among the `polltime` lines it
inserts, over any scheduler state. -/
theorem checkInt_penultimate (g : InstructionGen) (hN : 1 ≤ g.cycle)
    (hno : ∀ k : Int, Line.checkInt ∉ opsAt g.ops k) :
    ∃ pre post,
      g.renderEntries false =
        pre ++ Entry.op Line.checkInt :: Entry.poll 1 :: post ∧
      pollSum pre = g.cycle - 1 ∧ pollSum post = 0 ∧
      Entry.op Line.checkInt ∉ pre ∧ Entry.op Line.checkInt ∉ post := by
  obtain ⟨m, hm⟩ : ∃ m, g.cycle = m + 1 := ⟨g.cycle - 1, by omega⟩
  obtain ⟨s, hs, hex, hop⟩ := InstructionGen.withCheckInt_slot g false
  have hidx : (if false = true then (g.cycle : Int) else (g.cycle : Int) - 1) = (m : Int) := by
    simp [hm]
  rw [hidx] at hs hop
  obtain ⟨pre, h1, h2, h3⟩ :=
    InstructionGen.renderLoop_succ_exact (g.withCheckInt false).ops m s hs hex
  have hother : ∀ k : Int, k ≠ (m : Int) →
      opsAt (g.withCheckInt false).ops k = opsAt g.ops k := by
    intro k hk
    rw [InstructionGen.opsAt_withCheckInt]
    have : ¬ k = (g.cycle : Int) - 1 := by rw [hm]; push_cast; omega
    simp [this]
  have hlast : opsAt (g.withCheckInt false).ops ((m + 1 : Nat) : Int) =
      opsAt g.ops ((m + 1 : Nat) : Int) := hother _ (by push_cast; omega)
  refine ⟨pre ++ (opsAt g.ops (m : Int)).map Entry.op,
    (opsAt g.ops ((m + 1 : Nat) : Int)).map Entry.op, ?_, ?_, ?_, ?_, ?_⟩
  · unfold InstructionGen.renderEntries
    simp only [InstructionGen.cycle_withCheckInt]
    rw [hm, h1, hop, ← hlast]
    unfold InstructionGen.renderTail opsAt
    cases hl : (g.withCheckInt false).ops ((m + 1 : Nat) : Int) <;> simp
  · simp only [pollSum_append, pollSum_map_op]; omega
  · exact pollSum_map_op _
  · intro hmem
    rcases List.mem_append.mp hmem with h | h
    · have hpre : opsOnly pre = concatCycles (opsAt g.ops) m := by
        rw [h3]
        apply concatCycles_congr
        intro k hk
        exact hother _ (by omega)
      exact InstructionGen.not_mem_of_opsOnly hpre hno h
    · have := mem_opsOnly h
      rw [opsOnly_map_op] at this
      exact hno _ this
  · intro hmem
    have := mem_opsOnly hmem
    rw [opsOnly_map_op] at this
    exact hno _ this

/-- Where `render(true)` puts the interrupt sample among the `polltime` lines it
inserts, over any scheduler state. -/
theorem checkInt_last (g : InstructionGen)
    (hno : ∀ k : Int, Line.checkInt ∉ opsAt g.ops k) :
    ∃ pre,
      g.renderEntries true = pre ++ [Entry.op Line.checkInt] ∧
      pollSum pre = g.cycle ∧ Entry.op Line.checkInt ∉ pre := by
  obtain ⟨pre, h1, h2, h3⟩ :=
    InstructionGen.renderTail_last_pos (g.withCheckInt true).ops g.cycle
  have hother : ∀ k : Nat, k < g.cycle →
      opsAt (g.withCheckInt true).ops (k : Int) = opsAt g.ops (k : Int) := by
    intro k hk
    rw [InstructionGen.opsAt_withCheckInt]
    have : ¬ (k : Int) = (g.cycle : Int) := by omega
    simp [this]
  have hlast : opsAt (g.withCheckInt true).ops (g.cycle : Int) =
      opsAt g.ops (g.cycle : Int) ++ [Line.checkInt] := by
    rw [InstructionGen.opsAt_withCheckInt]; simp
  refine ⟨pre ++ (opsAt g.ops (g.cycle : Int)).map Entry.op, ?_, ?_, ?_⟩
  · unfold InstructionGen.renderEntries
    simp only [InstructionGen.cycle_withCheckInt]
    rw [h1, hlast]
    simp
  · simp only [pollSum_append, pollSum_map_op]; omega
  · intro hmem
    rcases List.mem_append.mp hmem with h | h
    · have hpre : opsOnly pre = concatCycles (opsAt g.ops) g.cycle := by
        rw [h3]
        exact concatCycles_congr hother
      exact InstructionGen.not_mem_of_opsOnly hpre hno h
    · have := mem_opsOnly h
      rw [opsOnly_map_op] at this
      exact hno _ this

theorem linesTime_append (xs ys : List Line) :
    linesTime (xs ++ ys) = linesTime xs + linesTime ys := by
  induction xs with
  | nil => simp [linesTime]
  | cons x xs ih => simp [linesTime, ih, Nat.add_assoc]

/-- In an output whose attached lines advance no time, the time written in the lines
is the total of the inserted `polltime` lines. -/
theorem linesTime_entries (es : List Entry) (h : ∀ l, Entry.op l ∈ es → l.time = 0) :
    linesTime (es.map Entry.line) = pollSum es := by
  induction es with
  | nil => rfl
  | cons e es ih =>
    have ih2 := ih (fun l hl => h l (List.mem_cons_of_mem _ hl))
    cases e with
    | poll n => simp [linesTime, pollSum, Entry.line, Line.time, ih2]
    | op l =>
      have := h l (List.mem_cons_self _ _)
      simp [linesTime, pollSum, Entry.line, this, ih2]

theorem checkInt_not_mem_lines (es : List Entry) (h : Entry.op Line.checkInt ∉ es) :
    Line.checkInt ∉ es.map Entry.line := by
  intro hm
  obtain ⟨e, he, hl⟩ := List.mem_map.mp hm
  cases e with
  | poll n => simp [Entry.line] at hl
  | op l =>
    simp only [Entry.line] at hl
    subst hl
    exact h he

/-- Every attached line of the output of `render` is the interrupt sample or a line of
a cycle of the schedule. -/
theorem op_mem_renderEntries (g : InstructionGen) (zpOnly : Bool) (l : Line)
    (h : Entry.op l ∈ g.renderEntries zpOnly) :
    l = Line.checkInt ∨ ∃ k : Int, l ∈ opsAt g.ops k := by
  have h1 := mem_opsOnly h
  unfold InstructionGen.renderEntries at h1
  simp only [InstructionGen.renderTail_opsOnly, InstructionGen.cycle_withCheckInt] at h1
  obtain ⟨k, _, hk⟩ := mem_concatCycles h1
  rw [InstructionGen.opsAt_withCheckInt] at hk
  rcases List.mem_append.mp hk with h2 | h2
  · exact Or.inr ⟨_, h2⟩
  · by_cases hc : (k : Int) = (if zpOnly = true then (g.cycle : Int) else (g.cycle : Int) - 1)
    · rw [if_pos hc] at h2
      exact Or.inl (List.mem_singleton.mp h2)
    · rw [if_neg hc] at h2
      simp at h2

/-- C4 as stated fails: the schedule `tick(1); append("cpu.polltime(1);")` has cycle
counter 1 and no interrupt sample among its attached operations, `render(false)`
gives `cpu.checkInt(); cpu.polltime(1); cpu.polltime(1);`, and the lines after the
interrupt sample advance time by two cycles. -/
theorem attached_polltime_after_checkInt :
    1 ≤ (build [Call.tick 1, Call.append none [Line.polltime 1] false]).cycle ∧
    (∀ k : Int,
      Line.checkInt ∉ attachedFrom 0 [Call.tick 1, Call.append none [Line.polltime 1] false] k) ∧
    (build [Call.tick 1, Call.append none [Line.polltime 1] false]).render false =
      [Line.checkInt, Line.polltime 1, Line.polltime 1] ∧
    ¬ ∃ pre post,
      (build [Call.tick 1, Call.append none [Line.polltime 1] false]).render false =
        pre ++ Line.checkInt :: post ∧ linesTime post = 1 := by
  have hr : (build [Call.tick 1, Call.append none [Line.polltime 1] false]).render false =
      [Line.checkInt, Line.polltime 1, Line.polltime 1] := by decide
  refine ⟨by decide, ?_, hr, ?_⟩
  · intro k
    simp only [attachedFrom]
    split_ifs <;> simp
  · rintro ⟨pre, post, h, ht⟩
    rw [hr] at h
    rcases pre with _ | ⟨x, pre⟩
    · simp at h
      subst h
      simp [linesTime, Line.time] at ht
    · rcases pre with _ | ⟨y, pre⟩
      · simp at h
      · rcases pre with _ | ⟨z, pre⟩
        · simp at h
        · rcases pre with _ | ⟨u, pre⟩ <;> simp at h

/-- C4, amended: for every schedule with cycle counter `N ≥ 1` whose attached
operations hold no interrupt sample and advance no time themselves, `render(false)`
emits `cpu.checkInt();` exactly once, after lines whose time advances add up to
`N - 1`, directly followed by `cpu.polltime(1);` and then by lines that advance no
time; `render(true)` emits it exactly once, as the last line of the output, after
lines whose time advances add up to `N`. -/
theorem checkInt_placement (calls : List Call) (hN : 1 ≤ (build calls).cycle)
    (hno : ∀ k : Int, Line.checkInt ∉ attachedFrom 0 calls k)
    (hnt : ∀ k : Int, ∀ l ∈ attachedFrom 0 calls k, l.time = 0) :
    (∃ pre post,
      (build calls).render false = pre ++ Line.checkInt :: Line.polltime 1 :: post ∧
      linesTime pre = (build calls).cycle - 1 ∧ linesTime post = 0 ∧
      linesTime (Line.polltime 1 :: post) = 1 ∧
      Line.checkInt ∉ pre ∧ Line.checkInt ∉ post) ∧
    (∃ pre,
      (build calls).render true = pre ++ [Line.checkInt] ∧
      linesTime pre = (build calls).cycle ∧ Line.checkInt ∉ pre) := by
  have hno2 : ∀ k : Int, Line.checkInt ∉ opsAt (build calls).ops k := by
    intro k; rw [opsAt_build]; exact hno k
  have htime : ∀ (zp : Bool) (l : Line), Entry.op l ∈ (build calls).renderEntries zp →
      l.time = 0 := by
    intro zp l hl
    rcases op_mem_renderEntries (build calls) zp l hl with h | ⟨k, hk⟩
    · subst h; rfl
    · rw [opsAt_build] at hk
      exact hnt k l hk
  constructor
  · obtain ⟨pre, post, h1, h2, h3, h4, h5⟩ := checkInt_penultimate (build calls) hN hno2
    have hpre : ∀ l, Entry.op l ∈ pre → l.time = 0 := fun l hl =>
      htime false l (by rw [h1]; exact List.mem_append_left _ hl)
    have hpost : ∀ l, Entry.op l ∈ post → l.time = 0 := fun l hl =>
      htime false l (by
        rw [h1]
        exact List.mem_append_right _ (List.mem_cons_of_mem _ (List.mem_cons_of_mem _ hl)))
    have e1 := linesTime_entries pre hpre
    have e2 := linesTime_entries post hpost
    refine ⟨pre.map Entry.line, post.map Entry.line, ?_, ?_, ?_, ?_, ?_, ?_⟩
    · unfold InstructionGen.render
      rw [h1]
      simp [Entry.line]
    · rw [e1, h2]
    · rw [e2, h3]
    · simp [linesTime, Line.time, e2, h3]
    · exact checkInt_not_mem_lines pre h4
    · exact checkInt_not_mem_lines post h5
  · obtain ⟨pre, h1, h2, h3⟩ := checkInt_last (build calls) hno2
    have hpre : ∀ l, Entry.op l ∈ pre → l.time = 0 := fun l hl =>
      htime true l (by rw [h1]; exact List.mem_append_left _ hl)
    refine ⟨pre.map Entry.line, ?_, ?_, ?_⟩
    · unfold InstructionGen.render
      rw [h1]
      simp [Entry.line]
    · rw [linesTime_entries pre hpre, h2]
    · exact checkInt_not_mem_lines pre h3

/-- Witness for the amended C4: the schedule `tick(2); append(brk); readOp(read);
tick(2)`, whose cycle counter is 5. -/
theorem checkInt_placement_witness :
    (∃ pre post,
      (build [Call.tick 2, Call.append none [Line.brk] false,
        Call.readOp [Line.eval (Expr.readmem (Expr.num 3))], Call.tick 2]).render false =
        pre ++ Line.checkInt :: Line.polltime 1 :: post ∧
      linesTime pre = (build [Call.tick 2, Call.append none [Line.brk] false,
        Call.readOp [Line.eval (Expr.readmem (Expr.num 3))], Call.tick 2]).cycle - 1 ∧
      linesTime post = 0 ∧ linesTime (Line.polltime 1 :: post) = 1 ∧
      Line.checkInt ∉ pre ∧ Line.checkInt ∉ post) ∧
    (∃ pre,
      (build [Call.tick 2, Call.append none [Line.brk] false,
        Call.readOp [Line.eval (Expr.readmem (Expr.num 3))], Call.tick 2]).render true =
        pre ++ [Line.checkInt] ∧
      linesTime pre = (build [Call.tick 2, Call.append none [Line.brk] false,
        Call.readOp [Line.eval (Expr.readmem (Expr.num 3))], Call.tick 2]).cycle ∧
      Line.checkInt ∉ pre) :=
  checkInt_placement
    [Call.tick 2, Call.append none [Line.brk] false,
      Call.readOp [Line.eval (Expr.readmem (Expr.num 3))], Call.tick 2]
    (by decide)
    (by
      intro k
      simp only [attachedFrom]
      split_ifs <;> simp)
    (by
      intro k l hl
      simp only [attachedFrom] at hl
      split_ifs at hl <;> simp at hl <;> rcases hl with rfl | rfl <;> rfl)

/-! ## The dispatch table -/

theorem mapM_except_ok {α β : Type} (f : α → Except String β) (g : α → β) (l : List α)
    (h : ∀ x ∈ l, f x = Except.ok (g x)) : l.mapM f = Except.ok (l.map g) := by
  induction l with
  | nil => rfl
  | cons a l ih =>
    rw [List.mapM_cons, h a (List.mem_cons_self a l),
      ih (fun x hx => h x (List.mem_cons_of_mem a hx))]
    rfl

theorem slotRaises_none : ∀ i < 256, slotRaises i = false := by decide!

theorem generateSlot_eq (i : Nat) (h : i < 256) : generateSlot i = Except.ok (slotOf i) := by
  have hr := slotRaises_none i h
  unfold slotRaises at hr
  unfold slotOf
  cases hg : generateSlot i with
  | error e => simp [hg] at hr
  | ok r => rfl

theorem generate6502_eq : generate6502 = Except.ok ((List.range 256).map slotOf) := by
  unfold generate6502
  apply mapM_except_ok
  intro x hx
  exact generateSlot_eq x (List.mem_range.mp hx)

theorem tableSlot_eq (i : Nat) (h : i < 256) : tableSlot i = slotOf i := by
  unfold tableSlot
  rw [generate6502_eq]
  simp [List.get?_eq_getElem?, h]

theorem supportedByte_slotOf : ∀ b < 256, supportedByte b = true → (slotOf b).isSome = true := by
  decide!

/-! ## Conditionals in symbolic runs

A routine with a conditional line leaves a state of the form `if c then f else g`.
These rewriting rules move the projections of the state inside the conditional. -/

@[simp]
theorem ite_append_list {α : Type} (c : Prop) [Decidable c] (l1 l2 l3 : List α) :
    (if c then l1 else l2) ++ l3 = if c then l1 ++ l3 else l2 ++ l3 := by
  split <;> rfl

@[simp]
theorem ite_pair_fst (c : Prop) [Decidable c] (p q : Int × Frame) :
    (if c then p else q).1 = if c then p.1 else q.1 := by
  split <;> rfl

@[simp]
theorem ite_pair_snd (c : Prop) [Decidable c] (p q : Int × Frame) :
    (if c then p else q).2 = if c then p.2 else q.2 := by
  split <;> rfl

@[simp]
theorem ite_frame_cpu (c : Prop) [Decidable c] (f g : Frame) :
    (if c then f else g).cpu = if c then f.cpu else g.cpu := by
  split <;> rfl

@[simp]
theorem ite_frame_vars (c : Prop) [Decidable c] (f g : Frame) :
    (if c then f else g).vars = if c then f.vars else g.vars := by
  split <;> rfl

@[simp]
theorem ite_frame_skip (c : Prop) [Decidable c] (f g : Frame) :
    (if c then f else g).skip = if c then f.skip else g.skip := by
  split <;> rfl

@[simp]
theorem ite_frame_thrown (c : Prop) [Decidable c] (f g : Frame) :
    (if c then f else g).thrown = if c then f.thrown else g.thrown := by
  split <;> rfl

@[simp]
theorem ite_cpu_a (c : Prop) [Decidable c] (f g : Cpu) :
    (if c then f else g).a = if c then f.a else g.a := by
  split <;> rfl

@[simp]
theorem ite_cpu_x (c : Prop) [Decidable c] (f g : Cpu) :
    (if c then f else g).x = if c then f.x else g.x := by
  split <;> rfl

@[simp]
theorem ite_cpu_y (c : Prop) [Decidable c] (f g : Cpu) :
    (if c then f else g).y = if c then f.y else g.y := by
  split <;> rfl

@[simp]
theorem ite_cpu_s (c : Prop) [Decidable c] (f g : Cpu) :
    (if c then f else g).s = if c then f.s else g.s := by
  split <;> rfl

@[simp]
theorem ite_cpu_pc (c : Prop) [Decidable c] (f g : Cpu) :
    (if c then f else g).pc = if c then f.pc else g.pc := by
  split <;> rfl

@[simp]
theorem ite_cpu_p (c : Prop) [Decidable c] (f g : Cpu) :
    (if c then f else g).p = if c then f.p else g.p := by
  split <;> rfl

@[simp]
theorem ite_cpu_asByte (c : Prop) [Decidable c] (f g : Cpu) :
    (if c then f else g).asByte = if c then f.asByte else g.asByte := by
  split <;> rfl

@[simp]
theorem ite_cpu_mem (c : Prop) [Decidable c] (f g : Cpu) :
    (if c then f else g).mem = if c then f.mem else g.mem := by
  split <;> rfl

@[simp]
theorem ite_cpu_log (c : Prop) [Decidable c] (f g : Cpu) :
    (if c then f else g).log = if c then f.log else g.log := by
  split <;> rfl

@[simp]
theorem ite_fun_apply {α β : Type} (c : Prop) [Decidable c] (f g : α → β) (k : α) :
    (if c then f else g) k = if c then f k else g k := by
  split <;> rfl

theorem ite_drop {α : Type} (c : Prop) [Decidable c] (n : Nat) (l1 l2 : List α) :
    (if c then l1 else l2).drop n = if c then l1.drop n else l2.drop n := by
  split <;> rfl

theorem ite_cycles (c : Prop) [Decidable c] (l1 l2 : List Event) :
    cycles (if c then l1 else l2) = if c then cycles l1 else cycles l2 := by
  split <;> rfl

/-! ## Slots of the table used below -/

theorem slot_2A : slotOf 0x2A = compileRotate true false (some "A") := by decide!

theorem slot_6A : slotOf 0x6A = compileRotate false false (some "A") := by decide!

theorem slot_4A : slotOf 0x4A = compileRotate false true (some "A") := by decide!

theorem slot_B5 : slotOf 0xB5 = compileLoad 'a' (some "zp,x") := by decide!

theorem slot_16 : slotOf 0x16 = compileAsl (some "zp,x") := by decide!

theorem slot_F6 : slotOf 0xF6 = compileAddDec 'c' (some "zp,x") BinOp.add := by decide!

theorem slot_A9 : slotOf 0xA9 = compileLoad 'a' (some "imm") := by decide!

/-- C5, evaluated on the code: in every CPU context the table's routines for `ROL A`,
`ROR A` and `LSR A` take 1 cycle (published: 2), `LDA zp,x` takes 3 (published: 4),
`ASL zp,x` takes 3 (published: 6) and `INC zp,x` takes 4 (published: 6). -/
theorem table_cycle_counts_off (cpu : Cpu) :
    (opcodes6502 0x2A = some "ROL A" ∧ slotCost 0x2A cpu = some 1) ∧
    (opcodes6502 0x6A = some "ROR A" ∧ slotCost 0x6A cpu = some 1) ∧
    (opcodes6502 0x4A = some "LSR A" ∧ slotCost 0x4A cpu = some 1) ∧
    (opcodes6502 0xB5 = some "LDA zp,x" ∧ slotCost 0xB5 cpu = some 3) ∧
    (opcodes6502 0x16 = some "ASL zp,x" ∧ slotCost 0x16 cpu = some 3) ∧
    (opcodes6502 0xF6 = some "INC zp,x" ∧ slotCost 0xF6 cpu = some 4) := by
  refine ⟨⟨by decide!, ?_⟩, ⟨by decide!, ?_⟩, ⟨by decide!, ?_⟩, ⟨by decide!, ?_⟩,
    ⟨by decide!, ?_⟩, ⟨by decide!, ?_⟩⟩
  · unfold slotCost
    rw [tableSlot_eq _ (by decide), slot_2A]
    simp [compileRotate, getGetPut, cost, trace, run, runFrame, cycles,
      apply_ite Prod.fst, apply_ite Prod.snd]
  · unfold slotCost
    rw [tableSlot_eq _ (by decide), slot_6A]
    simp [compileRotate, getGetPut, cost, trace, run, runFrame, cycles,
      apply_ite Prod.fst, apply_ite Prod.snd]
  · unfold slotCost
    rw [tableSlot_eq _ (by decide), slot_4A]
    simp [compileRotate, getGetPut, cost, trace, run, runFrame, cycles]
  · unfold slotCost
    rw [tableSlot_eq _ (by decide), slot_B5]
    simp [compileLoad, getGetPut, cost, trace, run, runFrame, cycles]
  · unfold slotCost
    rw [tableSlot_eq _ (by decide), slot_16]
    simp [compileAsl, getGetPut, cost, trace, run, runFrame, cycles]
  · unfold slotCost
    rw [tableSlot_eq _ (by decide), slot_F6]
    simp [compileAddDec, getGetPut, cost, trace, run, runFrame, cycles]

/-- C6 as stated fails: byte `0x03` has the catalog entry `SLO (,x)` and an empty
slot, so not every populated catalog entry has a routine. -/
theorem populated_entry_without_routine :
    ¬ (∀ b, b < 256 → (opcodes6502 b).isSome = true → (tableSlot b).isSome = true) := by
  intro h
  have h3 := h 3 (by decide) (by decide!)
  rw [tableSlot_eq _ (by decide)] at h3
  revert h3
  decide!

/-- C6 amended: for every byte `b` in `0..255` whose catalog entry is populated with
one of the 56 documented mnemonics, other than a `NOP` with an operand, slot `b` of
the table returned by `generate6502` holds a routine. -/
theorem documented_entry_has_routine (b : Nat) (hb : b < 256) (s : String)
    (hs : opcodes6502 b = some s) (hd : supportedEntry s = true) :
    (tableSlot b).isSome = true := by
  rw [tableSlot_eq b hb]
  apply supportedByte_slotOf b hb
  unfold supportedByte
  rw [hs]
  exact hd

/-- Witness for C6 amended: byte `0xA9`, `LDA imm`. -/
theorem documented_entry_has_routine_witness : (tableSlot 0xA9).isSome = true :=
  documented_entry_has_routine 0xA9 (by decide) "LDA imm" (by decide!) (by decide!)

/-- C7 as stated fails: byte `0x02` has no catalog entry and its slot is empty, so
the table has a slot that holds no routine at all. -/
theorem empty_slot_without_trap :
    opcodes6502 0x02 = none ∧ tableSlot 0x02 = none ∧
      ¬ (∀ b, b < 256 → (tableSlot b).isSome = true) := by
  have h2 : tableSlot 0x02 = none := by
    rw [tableSlot_eq _ (by decide)]
    decide!
  refine ⟨by decide!, h2, ?_⟩
  intro h
  have := h 2 (by decide)
  rw [h2] at this
  simp at this

/-- C7 amended: for every byte `b` in `0..255` whose catalog entry is empty, or for
which neither builder yields a routine, slot `b` of the table returned by
`generate6502` is left empty. -/
theorem unsupported_slot_empty (b : Nat) (hb : b < 256)
    (h : opcodes6502 b = none ∨
      ∃ s, opcodes6502 b = some s ∧ compileInstruction2 s = Except.ok none ∧
        compileInstruction s = Except.ok none) :
    tableSlot b = none := by
  rw [tableSlot_eq b hb]
  unfold slotOf generateSlot
  rcases h with h | ⟨s, hs, h2, h1⟩
  · simp [h]
  · simp [hs, h2, h1]

/-- Witness for C7 amended: byte `0x03`, `SLO (,x)`, which neither builder
supports. -/
theorem unsupported_slot_empty_witness : tableSlot 0x03 = none :=
  unsupported_slot_empty 0x03 (by decide)
    (Or.inr ⟨"SLO (,x)", by decide!, by rfl, by rfl⟩)

/-! ## `LDA imm` -/

/-- C8: for every operand byte `v`, the routine built for `LDA imm` fetches one byte
at the program counter, which advances by one, sets the accumulator to `v`,
recomputes zero and negative from `v`, leaves the other registers, the other flags
and memory unchanged, makes no other memory access, and advances time by 2 cycles
with the interrupt sample between the two one-cycle advances. -/
theorem lda_imm_effect (cpu : Cpu) (v : Int) (hv : cpu.mem cpu.pc = v)
    (hb : 0 ≤ v ∧ v < 256) :
    opcodes6502 0xA9 = some "LDA imm" ∧
    ∃ r, tableSlot 0xA9 = some r ∧
      trace r cpu = [Event.fetch cpu.pc, Event.poll 1, Event.checkInt, Event.poll 1] ∧
      cost r cpu = 2 ∧
      (run r cpu).a = v ∧
      (run r cpu).pc = (cpu.pc + 1) % 65536 ∧
      (run r cpu).p = { cpu.p with z := decide (v = 0), n := decide (128 ≤ v) } ∧
      (run r cpu).x = cpu.x ∧ (run r cpu).y = cpu.y ∧ (run r cpu).s = cpu.s ∧
      (run r cpu).mem = cpu.mem := by
  refine ⟨by decide!, _, (tableSlot_eq _ (by decide)).trans slot_A9, ?_⟩
  have hm : v % 256 = v := Int.emod_eq_of_lt hb.1 hb.2
  simp [compileLoad, cost, trace, run, runFrame, cycles, hv, hm]

/-- Witness for C8: operand `0x42` at `0x1001`; the accumulator becomes `0x42`, zero
and negative are false, the program counter becomes `0x1002`, the cost is 2. -/
theorem lda_imm_effect_witness :
    opcodes6502 0xA9 = some "LDA imm" ∧
    ∃ r, tableSlot 0xA9 = some r ∧
      trace r (sampleCpu 0x1001 (fun k => if k = 0x1001 then 0x42 else 0)) =
        [Event.fetch (sampleCpu 0x1001 (fun k => if k = 0x1001 then 0x42 else 0)).pc,
          Event.poll 1, Event.checkInt, Event.poll 1] ∧
      cost r (sampleCpu 0x1001 (fun k => if k = 0x1001 then 0x42 else 0)) = 2 ∧
      (run r (sampleCpu 0x1001 (fun k => if k = 0x1001 then 0x42 else 0))).a = 0x42 ∧
      (run r (sampleCpu 0x1001 (fun k => if k = 0x1001 then 0x42 else 0))).pc =
        ((sampleCpu 0x1001 (fun k => if k = 0x1001 then 0x42 else 0)).pc + 1) % 65536 ∧
      (run r (sampleCpu 0x1001 (fun k => if k = 0x1001 then 0x42 else 0))).p =
        { (sampleCpu 0x1001 (fun k => if k = 0x1001 then 0x42 else 0)).p with
          z := decide ((0x42 : Int) = 0), n := decide ((128 : Int) ≤ 0x42) } ∧
      (run r (sampleCpu 0x1001 (fun k => if k = 0x1001 then 0x42 else 0))).x =
        (sampleCpu 0x1001 (fun k => if k = 0x1001 then 0x42 else 0)).x ∧
      (run r (sampleCpu 0x1001 (fun k => if k = 0x1001 then 0x42 else 0))).y =
        (sampleCpu 0x1001 (fun k => if k = 0x1001 then 0x42 else 0)).y ∧
      (run r (sampleCpu 0x1001 (fun k => if k = 0x1001 then 0x42 else 0))).s =
        (sampleCpu 0x1001 (fun k => if k = 0x1001 then 0x42 else 0)).s ∧
      (run r (sampleCpu 0x1001 (fun k => if k = 0x1001 then 0x42 else 0))).mem =
        (sampleCpu 0x1001 (fun k => if k = 0x1001 then 0x42 else 0)).mem :=
  lda_imm_effect (sampleCpu 0x1001 (fun k => if k = 0x1001 then 0x42 else 0)) 0x42
    (by decide) (by decide)

/-! ## Bitwise facts behind the page-crossing tests -/

theorem nat_and_ff00 (a : Nat) : a &&& 65280 = a / 256 % 256 * 256 := by
  have h1 : (65280 : Nat) = (2 ^ 8 - 1) <<< 8 := by decide
  have h2 : a / 256 % 256 * 256 = ((a >>> 8) % 2 ^ 8) <<< 8 := by
    rw [Nat.shiftLeft_eq, Nat.shiftRight_eq_div_pow]
    norm_num
  rw [h1, h2]
  apply Nat.eq_of_testBit_eq
  intro j
  simp only [Nat.testBit_and, Nat.testBit_shiftLeft, Nat.testBit_two_pow_sub_one,
    Nat.testBit_mod_two_pow, Nat.testBit_shiftRight]
  by_cases hj : 8 ≤ j
  · have : 8 + (j - 8) = j := by omega
    simp [hj, this, Bool.and_comm]
  · simp [hj]

theorem nat_and_ffff (a : Nat) : a &&& 65535 = a % 65536 :=
  Nat.and_pow_two_sub_one_eq_mod a 16

theorem nat_and_ff (a : Nat) : a &&& 255 = a % 256 :=
  Nat.and_pow_two_sub_one_eq_mod a 8

theorem int_land_cast (a b : Nat) : Int.land (a : Int) (b : Int) = ((a &&& b : Nat) : Int) :=
  rfl

theorem int_lor_cast (a b : Nat) : Int.lor (a : Int) (b : Int) = ((a ||| b : Nat) : Int) :=
  rfl

/-- The page-crossing test of `getGetPut`, `(addr & 0xff00) != (temp & 0xff00)` with
`addr = temp + index`, fails exactly when the low byte of the base plus the index
stays below `0x100`. -/
theorem cross_getput (w i : Int) (hw : 0 ≤ w ∧ w < 65536) (hi : 0 ≤ i ∧ i < 256) :
    (Int.land (w + i) 65280 = Int.land w 65280) ↔ w % 256 + i < 256 := by
  obtain ⟨wn, rfl⟩ := Int.eq_ofNat_of_zero_le hw.1
  obtain ⟨n, rfl⟩ := Int.eq_ofNat_of_zero_le hi.1
  have e1 : Int.land ((wn : Int) + (n : Int)) 65280 = (((wn + n) &&& 65280 : Nat) : Int) := by
    rw [← Nat.cast_add]; exact int_land_cast (wn + n) 65280
  have e2 : Int.land (wn : Int) 65280 = ((wn &&& 65280 : Nat) : Int) := int_land_cast wn 65280
  rw [e1, e2, nat_and_ff00, nat_and_ff00]
  have h1 : wn < 65536 := by omega
  have h2 : n < 256 := by omega
  constructor
  · intro h
    have h3 : (wn + n) / 256 % 256 * 256 = wn / 256 % 256 * 256 := by exact_mod_cast h
    omega
  · intro h
    have h3 : wn % 256 + n < 256 := by omega
    have : (wn + n) / 256 % 256 * 256 = wn / 256 % 256 * 256 := by omega
    exact_mod_cast this

/-- The page-crossing test of `getInstruction2`, `addrWithCarry !== addrNonCarry`,
fails exactly when the low byte of the base plus the index stays below `0x100`. -/
theorem cross_sched (w i : Int) (hw : 0 ≤ w ∧ w < 65536) (hi : 0 ≤ i ∧ i < 256) :
    (Int.land (w + i) 65535 =
        Int.lor (Int.land w 65280) (Int.land (Int.land (w + i) 65535) 255)) ↔
      w % 256 + i < 256 := by
  obtain ⟨wn, rfl⟩ := Int.eq_ofNat_of_zero_le hw.1
  obtain ⟨n, rfl⟩ := Int.eq_ofNat_of_zero_le hi.1
  have e1 : Int.land ((wn : Int) + (n : Int)) 65535 = (((wn + n) % 65536 : Nat) : Int) := by
    rw [← Nat.cast_add]
    exact (int_land_cast (wn + n) 65535).trans (by rw [nat_and_ffff])
  have e2 : Int.land (wn : Int) 65280 = ((wn / 256 % 256 * 256 : Nat) : Int) :=
    (int_land_cast wn 65280).trans (by rw [nat_and_ff00])
  have e3 : Int.land (((wn + n) % 65536 : Nat) : Int) 255 =
      (((wn + n) % 65536 % 256 : Nat) : Int) :=
    (int_land_cast ((wn + n) % 65536) 255).trans (by rw [nat_and_ff])
  have e4 : Int.lor ((wn / 256 % 256 * 256 : Nat) : Int) (((wn + n) % 65536 % 256 : Nat) : Int) =
      ((wn / 256 % 256 * 256 + (wn + n) % 65536 % 256 : Nat) : Int) := by
    rw [int_lor_cast]
    congr 1
    have hlt : (wn + n) % 65536 % 256 < 2 ^ 8 := by omega
    have := Nat.mul_add_lt_is_or hlt (wn / 256 % 256)
    rw [Nat.mul_comm] at this
    exact this.symm
  rw [e1, e2, e3, e4]
  have h1 : wn < 65536 := by omega
  have h2 : n < 256 := by omega
  constructor
  · intro h
    have h3 : (wn + n) % 65536 = wn / 256 % 256 * 256 + (wn + n) % 65536 % 256 := by
      exact_mod_cast h
    omega
  · intro h
    have h3 : wn % 256 + n < 256 := by omega
    have : (wn + n) % 65536 = wn / 256 % 256 * 256 + (wn + n) % 65536 % 256 := by omega
    exact_mod_cast this

/-! ## Bus accesses of the read-modify-write routines -/

theorem slot_0E :
    slotOf 0x0E = (getOp "ASL").map (fun op => getInstruction2Abs op getInstruction2Start) := by
  decide!

theorem bus_0E (cpu : Cpu) :
    ∃ r, tableSlot 0x0E = some r ∧
      busEvents (trace r cpu) =
        rmwThree cpu.getw.1 cpu (run r cpu) := by
  have hs := (tableSlot_eq 0x0E (by decide)).trans slot_0E
  simp [getOp, rotate, getInstruction2Abs, getInstruction2Start, InstructionGen.render,
    InstructionGen.renderEntries, InstructionGen.renderTail, InstructionGen.renderLoop,
    InstructionGen.renderStep, InstructionGen.withCheckInt, InstructionGen.append,
    InstructionGen.tick, InstructionGen.readOp, InstructionGen.writeOp,
    InstructionGen.zpReadOp, InstructionGen.zpWriteOp, InstructionGen.flush,
    InstructionGen.new, Entry.line, List.range, List.range.loop] at hs
  refine ⟨_, hs, ?_⟩
  simp [busEvents, isBus, rmwThree, rmwTwo, trace, run, runFrame, ite_drop]

theorem slot_2E :
    slotOf 0x2E = (getOp "ROL").map (fun op => getInstruction2Abs op getInstruction2Start) := by
  decide!

theorem bus_2E (cpu : Cpu) :
    ∃ r, tableSlot 0x2E = some r ∧
      busEvents (trace r cpu) =
        rmwThree cpu.getw.1 cpu (run r cpu) := by
  have hs := (tableSlot_eq 0x2E (by decide)).trans slot_2E
  simp [getOp, rotate, getInstruction2Abs, getInstruction2Start, InstructionGen.render,
    InstructionGen.renderEntries, InstructionGen.renderTail, InstructionGen.renderLoop,
    InstructionGen.renderStep, InstructionGen.withCheckInt, InstructionGen.append,
    InstructionGen.tick, InstructionGen.readOp, InstructionGen.writeOp,
    InstructionGen.zpReadOp, InstructionGen.zpWriteOp, InstructionGen.flush,
    InstructionGen.new, Entry.line, List.range, List.range.loop] at hs
  refine ⟨_, hs, ?_⟩
  simp [busEvents, isBus, rmwThree, rmwTwo, trace, run, runFrame, ite_drop]

theorem slot_4E :
    slotOf 0x4E = compileRotate false true (some "abs") := by
  decide!

theorem bus_4E (cpu : Cpu) :
    ∃ r, tableSlot 0x4E = some r ∧
      busEvents (trace r cpu) =
        rmwThree cpu.getw.1 cpu (run r cpu) := by
  have hs := (tableSlot_eq 0x4E (by decide)).trans slot_4E
  simp [compileRotate, getGetPut, charAt] at hs
  refine ⟨_, hs, ?_⟩
  simp [busEvents, isBus, rmwThree, rmwTwo, trace, run, runFrame, ite_drop]

theorem slot_6E :
    slotOf 0x6E = (getOp "ROR").map (fun op => getInstruction2Abs op getInstruction2Start) := by
  decide!

theorem bus_6E (cpu : Cpu) :
    ∃ r, tableSlot 0x6E = some r ∧
      busEvents (trace r cpu) =
        rmwThree cpu.getw.1 cpu (run r cpu) := by
  have hs := (tableSlot_eq 0x6E (by decide)).trans slot_6E
  simp [getOp, rotate, getInstruction2Abs, getInstruction2Start, InstructionGen.render,
    InstructionGen.renderEntries, InstructionGen.renderTail, InstructionGen.renderLoop,
    InstructionGen.renderStep, InstructionGen.withCheckInt, InstructionGen.append,
    InstructionGen.tick, InstructionGen.readOp, InstructionGen.writeOp,
    InstructionGen.zpReadOp, InstructionGen.zpWriteOp, InstructionGen.flush,
    InstructionGen.new, Entry.line, List.range, List.range.loop] at hs
  refine ⟨_, hs, ?_⟩
  simp [busEvents, isBus, rmwThree, rmwTwo, trace, run, runFrame, ite_drop]

theorem slot_CE :
    slotOf 0xCE = (getOp "DEC").map (fun op => getInstruction2Abs op getInstruction2Start) := by
  decide!

theorem bus_CE (cpu : Cpu) :
    ∃ r, tableSlot 0xCE = some r ∧
      busEvents (trace r cpu) =
        rmwThree cpu.getw.1 cpu (run r cpu) := by
  have hs := (tableSlot_eq 0xCE (by decide)).trans slot_CE
  simp [getOp, rotate, getInstruction2Abs, getInstruction2Start, InstructionGen.render,
    InstructionGen.renderEntries, InstructionGen.renderTail, InstructionGen.renderLoop,
    InstructionGen.renderStep, InstructionGen.withCheckInt, InstructionGen.append,
    InstructionGen.tick, InstructionGen.readOp, InstructionGen.writeOp,
    InstructionGen.zpReadOp, InstructionGen.zpWriteOp, InstructionGen.flush,
    InstructionGen.new, Entry.line, List.range, List.range.loop] at hs
  refine ⟨_, hs, ?_⟩
  simp [busEvents, isBus, rmwThree, rmwTwo, trace, run, runFrame, ite_drop]

theorem slot_EE :
    slotOf 0xEE = (getOp "INC").map (fun op => getInstruction2Abs op getInstruction2Start) := by
  decide!

theorem bus_EE (cpu : Cpu) :
    ∃ r, tableSlot 0xEE = some r ∧
      busEvents (trace r cpu) =
        rmwThree cpu.getw.1 cpu (run r cpu) := by
  have hs := (tableSlot_eq 0xEE (by decide)).trans slot_EE
  simp [getOp, rotate, getInstruction2Abs, getInstruction2Start, InstructionGen.render,
    InstructionGen.renderEntries, InstructionGen.renderTail, InstructionGen.renderLoop,
    InstructionGen.renderStep, InstructionGen.withCheckInt, InstructionGen.append,
    InstructionGen.tick, InstructionGen.readOp, InstructionGen.writeOp,
    InstructionGen.zpReadOp, InstructionGen.zpWriteOp, InstructionGen.flush,
    InstructionGen.new, Entry.line, List.range, List.range.loop] at hs
  refine ⟨_, hs, ?_⟩
  simp [busEvents, isBus, rmwThree, rmwTwo, trace, run, runFrame, ite_drop]

theorem slot_1E :
    slotOf 0x1E = (getOp "ASL").bind
      (fun op => getInstruction2AbsIndexed op 'x' getInstruction2Start) := by
  decide!

theorem bus_1E (cpu : Cpu) :
    ∃ r, tableSlot 0x1E = some r ∧
      busEvents (trace r cpu) =
        Event.read (Int.lor (Int.land cpu.getw.1 0xff00)
          (Int.land (Int.land (cpu.getw.1 + cpu.x) 0xffff) 0xff)) ::
        rmwThree (Int.land (cpu.getw.1 + cpu.x) 0xffff) cpu (run r cpu) := by
  have hs := (tableSlot_eq 0x1E (by decide)).trans slot_1E
  simp [getOp, rotate, getInstruction2AbsIndexed, getInstruction2Start, InstructionGen.render,
    InstructionGen.renderEntries, InstructionGen.renderTail, InstructionGen.renderLoop,
    InstructionGen.renderStep, InstructionGen.withCheckInt, InstructionGen.append,
    InstructionGen.tick, InstructionGen.readOp, InstructionGen.writeOp,
    InstructionGen.zpReadOp, InstructionGen.zpWriteOp, InstructionGen.flush,
    InstructionGen.new, Entry.line, List.range, List.range.loop] at hs
  refine ⟨_, hs, ?_⟩
  simp [busEvents, isBus, rmwThree, rmwTwo, trace, run, runFrame, ite_drop]

theorem slot_3E :
    slotOf 0x3E = (getOp "ROL").bind
      (fun op => getInstruction2AbsIndexed op 'x' getInstruction2Start) := by
  decide!

theorem bus_3E (cpu : Cpu) :
    ∃ r, tableSlot 0x3E = some r ∧
      busEvents (trace r cpu) =
        Event.read (Int.lor (Int.land cpu.getw.1 0xff00)
          (Int.land (Int.land (cpu.getw.1 + cpu.x) 0xffff) 0xff)) ::
        rmwThree (Int.land (cpu.getw.1 + cpu.x) 0xffff) cpu (run r cpu) := by
  have hs := (tableSlot_eq 0x3E (by decide)).trans slot_3E
  simp [getOp, rotate, getInstruction2AbsIndexed, getInstruction2Start, InstructionGen.render,
    InstructionGen.renderEntries, InstructionGen.renderTail, InstructionGen.renderLoop,
    InstructionGen.renderStep, InstructionGen.withCheckInt, InstructionGen.append,
    InstructionGen.tick, InstructionGen.readOp, InstructionGen.writeOp,
    InstructionGen.zpReadOp, InstructionGen.zpWriteOp, InstructionGen.flush,
    InstructionGen.new, Entry.line, List.range, List.range.loop] at hs
  refine ⟨_, hs, ?_⟩
  simp [busEvents, isBus, rmwThree, rmwTwo, trace, run, runFrame, ite_drop]

theorem slot_7E :
    slotOf 0x7E = (getOp "ROR").bind
      (fun op => getInstruction2AbsIndexed op 'x' getInstruction2Start) := by
  decide!

theorem bus_7E (cpu : Cpu) :
    ∃ r, tableSlot 0x7E = some r ∧
      busEvents (trace r cpu) =
        Event.read (Int.lor (Int.land cpu.getw.1 0xff00)
          (Int.land (Int.land (cpu.getw.1 + cpu.x) 0xffff) 0xff)) ::
        rmwThree (Int.land (cpu.getw.1 + cpu.x) 0xffff) cpu (run r cpu) := by
  have hs := (tableSlot_eq 0x7E (by decide)).trans slot_7E
  simp [getOp, rotate, getInstruction2AbsIndexed, getInstruction2Start, InstructionGen.render,
    InstructionGen.renderEntries, InstructionGen.renderTail, InstructionGen.renderLoop,
    InstructionGen.renderStep, InstructionGen.withCheckInt, InstructionGen.append,
    InstructionGen.tick, InstructionGen.readOp, InstructionGen.writeOp,
    InstructionGen.zpReadOp, InstructionGen.zpWriteOp, InstructionGen.flush,
    InstructionGen.new, Entry.line, List.range, List.range.loop] at hs
  refine ⟨_, hs, ?_⟩
  simp [busEvents, isBus, rmwThree, rmwTwo, trace, run, runFrame, ite_drop]

theorem slot_DE :
    slotOf 0xDE = (getOp "DEC").bind
      (fun op => getInstruction2AbsIndexed op 'x' getInstruction2Start) := by
  decide!

theorem bus_DE (cpu : Cpu) :
    ∃ r, tableSlot 0xDE = some r ∧
      busEvents (trace r cpu) =
        Event.read (Int.lor (Int.land cpu.getw.1 0xff00)
          (Int.land (Int.land (cpu.getw.1 + cpu.x) 0xffff) 0xff)) ::
        rmwThree (Int.land (cpu.getw.1 + cpu.x) 0xffff) cpu (run r cpu) := by
  have hs := (tableSlot_eq 0xDE (by decide)).trans slot_DE
  simp [getOp, rotate, getInstruction2AbsIndexed, getInstruction2Start, InstructionGen.render,
    InstructionGen.renderEntries, InstructionGen.renderTail, InstructionGen.renderLoop,
    InstructionGen.renderStep, InstructionGen.withCheckInt, InstructionGen.append,
    InstructionGen.tick, InstructionGen.readOp, InstructionGen.writeOp,
    InstructionGen.zpReadOp, InstructionGen.zpWriteOp, InstructionGen.flush,
    InstructionGen.new, Entry.line, List.range, List.range.loop] at hs
  refine ⟨_, hs, ?_⟩
  simp [busEvents, isBus, rmwThree, rmwTwo, trace, run, runFrame, ite_drop]

theorem slot_FE :
    slotOf 0xFE = (getOp "INC").bind
      (fun op => getInstruction2AbsIndexed op 'x' getInstruction2Start) := by
  decide!

theorem bus_FE (cpu : Cpu) :
    ∃ r, tableSlot 0xFE = some r ∧
      busEvents (trace r cpu) =
        Event.read (Int.lor (Int.land cpu.getw.1 0xff00)
          (Int.land (Int.land (cpu.getw.1 + cpu.x) 0xffff) 0xff)) ::
        rmwThree (Int.land (cpu.getw.1 + cpu.x) 0xffff) cpu (run r cpu) := by
  have hs := (tableSlot_eq 0xFE (by decide)).trans slot_FE
  simp [getOp, rotate, getInstruction2AbsIndexed, getInstruction2Start, InstructionGen.render,
    InstructionGen.renderEntries, InstructionGen.renderTail, InstructionGen.renderLoop,
    InstructionGen.renderStep, InstructionGen.withCheckInt, InstructionGen.append,
    InstructionGen.tick, InstructionGen.readOp, InstructionGen.writeOp,
    InstructionGen.zpReadOp, InstructionGen.zpWriteOp, InstructionGen.flush,
    InstructionGen.new, Entry.line, List.range, List.range.loop] at hs
  refine ⟨_, hs, ?_⟩
  simp [busEvents, isBus, rmwThree, rmwTwo, trace, run, runFrame, ite_drop]

theorem slot_5E :
    slotOf 0x5E = compileRotate false true (some "abs,x") := by
  decide!

theorem bus_5E (cpu : Cpu) :
    ∃ r, tableSlot 0x5E = some r ∧
      busEvents (trace r cpu) =
        rmwThree (cpu.getw.1 + cpu.x) cpu (run r cpu) := by
  have hs := (tableSlot_eq 0x5E (by decide)).trans slot_5E
  simp [compileRotate, getGetPut, charAt] at hs
  refine ⟨_, hs, ?_⟩
  simp [busEvents, isBus, rmwThree, rmwTwo, trace, run, runFrame, ite_drop]
  split_ifs <;> simp [isBus]

theorem slot_36 :
    slotOf 0x36 = compileRotate true false (some "zp,x") := by
  decide!

theorem bus_36 (cpu : Cpu) :
    ∃ r, tableSlot 0x36 = some r ∧
      busEvents (trace r cpu) =
        rmwThree (Int.land (cpu.getb.1 + cpu.x) 0xff) cpu (run r cpu) := by
  have hs := (tableSlot_eq 0x36 (by decide)).trans slot_36
  simp [compileRotate, getGetPut, charAt] at hs
  refine ⟨_, hs, ?_⟩
  simp [busEvents, isBus, rmwThree, rmwTwo, trace, run, runFrame, ite_drop]

theorem slot_56 :
    slotOf 0x56 = compileRotate false true (some "zp,x") := by
  decide!

theorem bus_56 (cpu : Cpu) :
    ∃ r, tableSlot 0x56 = some r ∧
      busEvents (trace r cpu) =
        rmwThree (Int.land (cpu.getb.1 + cpu.x) 0xff) cpu (run r cpu) := by
  have hs := (tableSlot_eq 0x56 (by decide)).trans slot_56
  simp [compileRotate, getGetPut, charAt] at hs
  refine ⟨_, hs, ?_⟩
  simp [busEvents, isBus, rmwThree, rmwTwo, trace, run, runFrame, ite_drop]

theorem slot_76 :
    slotOf 0x76 = compileRotate false false (some "zp,x") := by
  decide!

theorem bus_76 (cpu : Cpu) :
    ∃ r, tableSlot 0x76 = some r ∧
      busEvents (trace r cpu) =
        rmwThree (Int.land (cpu.getb.1 + cpu.x) 0xff) cpu (run r cpu) := by
  have hs := (tableSlot_eq 0x76 (by decide)).trans slot_76
  simp [compileRotate, getGetPut, charAt] at hs
  refine ⟨_, hs, ?_⟩
  simp [busEvents, isBus, rmwThree, rmwTwo, trace, run, runFrame, ite_drop]

theorem slot_46 :
    slotOf 0x46 = compileRotate false true (some "zp") := by
  decide!

theorem bus_46 (cpu : Cpu) :
    ∃ r, tableSlot 0x46 = some r ∧
      busEvents (trace r cpu) =
        rmwThree cpu.getb.1 cpu (run r cpu) := by
  have hs := (tableSlot_eq 0x46 (by decide)).trans slot_46
  simp [compileRotate, getGetPut, charAt] at hs
  refine ⟨_, hs, ?_⟩
  simp [busEvents, isBus, rmwThree, rmwTwo, trace, run, runFrame, ite_drop]

theorem slot_06 :
    slotOf 0x06 = (getOp "ASL").map (fun op => getInstruction2Zp op getInstruction2Start) := by
  decide!

theorem bus_06 (cpu : Cpu) :
    ∃ r, tableSlot 0x06 = some r ∧
      busEvents (trace r cpu) =
        rmwTwo cpu.getb.1 (run r cpu) := by
  have hs := (tableSlot_eq 0x06 (by decide)).trans slot_06
  simp [getOp, rotate, getInstruction2Zp, getInstruction2Start, InstructionGen.render,
    InstructionGen.renderEntries, InstructionGen.renderTail, InstructionGen.renderLoop,
    InstructionGen.renderStep, InstructionGen.withCheckInt, InstructionGen.append,
    InstructionGen.tick, InstructionGen.readOp, InstructionGen.writeOp,
    InstructionGen.zpReadOp, InstructionGen.zpWriteOp, InstructionGen.flush,
    InstructionGen.new, Entry.line, List.range, List.range.loop] at hs
  refine ⟨_, hs, ?_⟩
  simp [busEvents, isBus, rmwThree, rmwTwo, trace, run, runFrame, ite_drop]

theorem slot_26 :
    slotOf 0x26 = (getOp "ROL").map (fun op => getInstruction2Zp op getInstruction2Start) := by
  decide!

theorem bus_26 (cpu : Cpu) :
    ∃ r, tableSlot 0x26 = some r ∧
      busEvents (trace r cpu) =
        rmwTwo cpu.getb.1 (run r cpu) := by
  have hs := (tableSlot_eq 0x26 (by decide)).trans slot_26
  simp [getOp, rotate, getInstruction2Zp, getInstruction2Start, InstructionGen.render,
    InstructionGen.renderEntries, InstructionGen.renderTail, InstructionGen.renderLoop,
    InstructionGen.renderStep, InstructionGen.withCheckInt, InstructionGen.append,
    InstructionGen.tick, InstructionGen.readOp, InstructionGen.writeOp,
    InstructionGen.zpReadOp, InstructionGen.zpWriteOp, InstructionGen.flush,
    InstructionGen.new, Entry.line, List.range, List.range.loop] at hs
  refine ⟨_, hs, ?_⟩
  simp [busEvents, isBus, rmwThree, rmwTwo, trace, run, runFrame, ite_drop]

theorem slot_66 :
    slotOf 0x66 = (getOp "ROR").map (fun op => getInstruction2Zp op getInstruction2Start) := by
  decide!

theorem bus_66 (cpu : Cpu) :
    ∃ r, tableSlot 0x66 = some r ∧
      busEvents (trace r cpu) =
        rmwTwo cpu.getb.1 (run r cpu) := by
  have hs := (tableSlot_eq 0x66 (by decide)).trans slot_66
  simp [getOp, rotate, getInstruction2Zp, getInstruction2Start, InstructionGen.render,
    InstructionGen.renderEntries, InstructionGen.renderTail, InstructionGen.renderLoop,
    InstructionGen.renderStep, InstructionGen.withCheckInt, InstructionGen.append,
    InstructionGen.tick, InstructionGen.readOp, InstructionGen.writeOp,
    InstructionGen.zpReadOp, InstructionGen.zpWriteOp, InstructionGen.flush,
    InstructionGen.new, Entry.line, List.range, List.range.loop] at hs
  refine ⟨_, hs, ?_⟩
  simp [busEvents, isBus, rmwThree, rmwTwo, trace, run, runFrame, ite_drop]

theorem slot_C6 :
    slotOf 0xC6 = (getOp "DEC").map (fun op => getInstruction2Zp op getInstruction2Start) := by
  decide!

theorem bus_C6 (cpu : Cpu) :
    ∃ r, tableSlot 0xC6 = some r ∧
      busEvents (trace r cpu) =
        rmwTwo cpu.getb.1 (run r cpu) := by
  have hs := (tableSlot_eq 0xC6 (by decide)).trans slot_C6
  simp [getOp, rotate, getInstruction2Zp, getInstruction2Start, InstructionGen.render,
    InstructionGen.renderEntries, InstructionGen.renderTail, InstructionGen.renderLoop,
    InstructionGen.renderStep, InstructionGen.withCheckInt, InstructionGen.append,
    InstructionGen.tick, InstructionGen.readOp, InstructionGen.writeOp,
    InstructionGen.zpReadOp, InstructionGen.zpWriteOp, InstructionGen.flush,
    InstructionGen.new, Entry.line, List.range, List.range.loop] at hs
  refine ⟨_, hs, ?_⟩
  simp [busEvents, isBus, rmwThree, rmwTwo, trace, run, runFrame, ite_drop]

theorem slot_E6 :
    slotOf 0xE6 = (getOp "INC").map (fun op => getInstruction2Zp op getInstruction2Start) := by
  decide!

theorem bus_E6 (cpu : Cpu) :
    ∃ r, tableSlot 0xE6 = some r ∧
      busEvents (trace r cpu) =
        rmwTwo cpu.getb.1 (run r cpu) := by
  have hs := (tableSlot_eq 0xE6 (by decide)).trans slot_E6
  simp [getOp, rotate, getInstruction2Zp, getInstruction2Start, InstructionGen.render,
    InstructionGen.renderEntries, InstructionGen.renderTail, InstructionGen.renderLoop,
    InstructionGen.renderStep, InstructionGen.withCheckInt, InstructionGen.append,
    InstructionGen.tick, InstructionGen.readOp, InstructionGen.writeOp,
    InstructionGen.zpReadOp, InstructionGen.zpWriteOp, InstructionGen.flush,
    InstructionGen.new, Entry.line, List.range, List.range.loop] at hs
  refine ⟨_, hs, ?_⟩
  simp [busEvents, isBus, rmwThree, rmwTwo, trace, run, runFrame, ite_drop]

/-- C9 as stated fails: on a CPU context whose operand byte is `0x30` and whose
memory holds `0x80` there, the table's `ASL zp` routine makes two bus accesses only,
the read of the old value and the write of the new one. -/
theorem asl_zp_two_accesses :
    opcodes6502 0x06 = some "ASL zp" ∧
    ∃ r, tableSlot 0x06 = some r ∧
      busEvents (trace r
        (sampleCpu 0x1001 (fun k => if k = 0x1001 then 0x30 else if k = 0x30 then 0x80 else 0))) =
        [Event.read 0x30, Event.write 0x30 0x00] ∧
      ¬ 3 ≤ (busEvents (trace r
        (sampleCpu 0x1001
          (fun k => if k = 0x1001 then 0x30 else if k = 0x30 then 0x80 else 0)))).length := by
  have hs := (tableSlot_eq 0x06 (by decide)).trans slot_06
  simp [getOp, rotate, getInstruction2Zp, getInstruction2Start, InstructionGen.render,
    InstructionGen.renderEntries, InstructionGen.renderTail, InstructionGen.renderLoop,
    InstructionGen.renderStep, InstructionGen.withCheckInt, InstructionGen.append,
    InstructionGen.tick, InstructionGen.readOp, InstructionGen.writeOp,
    InstructionGen.zpReadOp, InstructionGen.zpWriteOp, InstructionGen.flush,
    InstructionGen.new, Entry.line, List.range, List.range.loop] at hs
  refine ⟨by decide!, _, hs, ?_, ?_⟩
  · decide!
  · decide!

/-- C9 amended: in every CPU context, the table's read-modify-write routines with
`abs` and `abs,x` operands (`ASL`, `LSR`, `ROL`, `ROR`, `INC`, `DEC`), and `LSR zp`,
`LSR zp,x`, `ROL zp,x`, `ROR zp,x`, access the effective address in the order: one
read of the old value, one write of the old value back, one write of the new value
(the scheduler-built `abs,x` forms first read once at the non-carried address); the
scheduler-built zero-page forms (`ASL`, `ROL`, `ROR`, `INC`, `DEC` with `zp`) make
one read of the old value and one write of the new value. -/
theorem rmw_bus_accesses (cpu : Cpu) :
    ([0x0E, 0x2E, 0x4E, 0x6E, 0xCE, 0xEE].map opcodes6502 =
        [some "ASL abs", some "ROL abs", some "LSR abs", some "ROR abs", some "DEC abs", some "INC abs"] ∧
      ∀ b ∈ [0x0E, 0x2E, 0x4E, 0x6E, 0xCE, 0xEE], ∃ r, tableSlot b = some r ∧
        busEvents (trace r cpu) =
          rmwThree cpu.getw.1 cpu (run r cpu)) ∧
    ([0x1E, 0x3E, 0x7E, 0xDE, 0xFE].map opcodes6502 =
        [some "ASL abs,x", some "ROL abs,x", some "ROR abs,x", some "DEC abs,x", some "INC abs,x"] ∧
      ∀ b ∈ [0x1E, 0x3E, 0x7E, 0xDE, 0xFE], ∃ r, tableSlot b = some r ∧
        busEvents (trace r cpu) =
          Event.read (Int.lor (Int.land cpu.getw.1 0xff00)
            (Int.land (Int.land (cpu.getw.1 + cpu.x) 0xffff) 0xff)) ::
          rmwThree (Int.land (cpu.getw.1 + cpu.x) 0xffff) cpu (run r cpu)) ∧
    ([0x5E].map opcodes6502 =
        [some "LSR abs,x"] ∧
      ∀ b ∈ [0x5E], ∃ r, tableSlot b = some r ∧
        busEvents (trace r cpu) =
          rmwThree (cpu.getw.1 + cpu.x) cpu (run r cpu)) ∧
    ([0x36, 0x56, 0x76].map opcodes6502 =
        [some "ROL zp,x", some "LSR zp,x", some "ROR zp,x"] ∧
      ∀ b ∈ [0x36, 0x56, 0x76], ∃ r, tableSlot b = some r ∧
        busEvents (trace r cpu) =
          rmwThree (Int.land (cpu.getb.1 + cpu.x) 0xff) cpu (run r cpu)) ∧
    ([0x46].map opcodes6502 =
        [some "LSR zp"] ∧
      ∀ b ∈ [0x46], ∃ r, tableSlot b = some r ∧
        busEvents (trace r cpu) =
          rmwThree cpu.getb.1 cpu (run r cpu)) ∧
    ([0x06, 0x26, 0x66, 0xC6, 0xE6].map opcodes6502 =
        [some "ASL zp", some "ROL zp", some "ROR zp", some "DEC zp", some "INC zp"] ∧
      ∀ b ∈ [0x06, 0x26, 0x66, 0xC6, 0xE6], ∃ r, tableSlot b = some r ∧
        busEvents (trace r cpu) =
          rmwTwo cpu.getb.1 (run r cpu)) := by
  refine ⟨?_, ?_, ?_, ?_, ?_, ?_⟩
  · refine ⟨by decide!, ?_⟩
    intro b hb
    simp only [List.mem_cons, List.mem_singleton, List.not_mem_nil, or_false] at hb
    rcases hb with rfl | rfl | rfl | rfl | rfl | rfl
    · exact bus_0E cpu
    · exact bus_2E cpu
    · exact bus_4E cpu
    · exact bus_6E cpu
    · exact bus_CE cpu
    · exact bus_EE cpu
  · refine ⟨by decide!, ?_⟩
    intro b hb
    simp only [List.mem_cons, List.mem_singleton, List.not_mem_nil, or_false] at hb
    rcases hb with rfl | rfl | rfl | rfl | rfl
    · exact bus_1E cpu
    · exact bus_3E cpu
    · exact bus_7E cpu
    · exact bus_DE cpu
    · exact bus_FE cpu
  · refine ⟨by decide!, ?_⟩
    intro b hb
    simp only [List.mem_cons, List.mem_singleton, List.not_mem_nil, or_false] at hb
    rcases hb with rfl
    · exact bus_5E cpu
  · refine ⟨by decide!, ?_⟩
    intro b hb
    simp only [List.mem_cons, List.mem_singleton, List.not_mem_nil, or_false] at hb
    rcases hb with rfl | rfl | rfl
    · exact bus_36 cpu
    · exact bus_56 cpu
    · exact bus_76 cpu
  · refine ⟨by decide!, ?_⟩
    intro b hb
    simp only [List.mem_cons, List.mem_singleton, List.not_mem_nil, or_false] at hb
    rcases hb with rfl
    · exact bus_46 cpu
  · refine ⟨by decide!, ?_⟩
    intro b hb
    simp only [List.mem_cons, List.mem_singleton, List.not_mem_nil, or_false] at hb
    rcases hb with rfl | rfl | rfl | rfl | rfl
    · exact bus_06 cpu
    · exact bus_26 cpu
    · exact bus_66 cpu
    · exact bus_C6 cpu
    · exact bus_E6 cpu

/-- Witness for C9 amended: `ASL abs` on a CPU context with operand word `0x2000`. -/
theorem rmw_bus_accesses_witness :
    ∃ r, tableSlot 0x0E = some r ∧
      busEvents (trace r (sampleCpu 0x1001 (fun k => if k = 0x1002 then 0x20 else 0))) =
        rmwThree (sampleCpu 0x1001 (fun k => if k = 0x1002 then 0x20 else 0)).getw.1
          (sampleCpu 0x1001 (fun k => if k = 0x1002 then 0x20 else 0))
          (run r (sampleCpu 0x1001 (fun k => if k = 0x1002 then 0x20 else 0))) :=
  (rmw_bus_accesses (sampleCpu 0x1001 (fun k => if k = 0x1002 then 0x20 else 0))).1.2
    0x0E (by decide)

/-! ## Cost of the indexed absolute routines -/

theorem slot_BD :
    slotOf 0xBD = (getOp "LDA").bind
      (fun op => getInstruction2AbsIndexed op 'x' getInstruction2Start) := by
  decide!

theorem cost_BD (cpu : Cpu) (w i : Int) (hw : cpu.getw.1 = w) (hwr : 0 ≤ w ∧ w < 65536)
    (hi : cpu.x = i) (hir : 0 ≤ i ∧ i < 256) :
    slotCost 0xBD cpu = some (if 256 ≤ w % 256 + i then 5 else 4) := by
  unfold slotCost
  rw [tableSlot_eq _ (by decide), slot_BD]
  simp only [Cpu.getw] at hw
  simp [getOp, rotate, getInstruction2AbsIndexed, getInstruction2Start, InstructionGen.render,
    InstructionGen.renderEntries, InstructionGen.renderTail, InstructionGen.renderLoop,
    InstructionGen.renderStep, InstructionGen.withCheckInt, InstructionGen.append,
    InstructionGen.tick, InstructionGen.readOp, InstructionGen.writeOp,
    InstructionGen.zpReadOp, InstructionGen.zpWriteOp, InstructionGen.flush,
    InstructionGen.new, Entry.line, List.range, List.range.loop,
    cost, trace, run, runFrame, ite_drop, ite_cycles, cycles, hw, hi,
    cross_sched w i hwr hir]
  split_ifs <;> omega

theorem slot_B9 :
    slotOf 0xB9 = (getOp "LDA").bind
      (fun op => getInstruction2AbsIndexed op 'y' getInstruction2Start) := by
  decide!

theorem cost_B9 (cpu : Cpu) (w i : Int) (hw : cpu.getw.1 = w) (hwr : 0 ≤ w ∧ w < 65536)
    (hi : cpu.y = i) (hir : 0 ≤ i ∧ i < 256) :
    slotCost 0xB9 cpu = some (if 256 ≤ w % 256 + i then 5 else 4) := by
  unfold slotCost
  rw [tableSlot_eq _ (by decide), slot_B9]
  simp only [Cpu.getw] at hw
  simp [getOp, rotate, getInstruction2AbsIndexed, getInstruction2Start, InstructionGen.render,
    InstructionGen.renderEntries, InstructionGen.renderTail, InstructionGen.renderLoop,
    InstructionGen.renderStep, InstructionGen.withCheckInt, InstructionGen.append,
    InstructionGen.tick, InstructionGen.readOp, InstructionGen.writeOp,
    InstructionGen.zpReadOp, InstructionGen.zpWriteOp, InstructionGen.flush,
    InstructionGen.new, Entry.line, List.range, List.range.loop,
    cost, trace, run, runFrame, ite_drop, ite_cycles, cycles, hw, hi,
    cross_sched w i hwr hir]
  split_ifs <;> omega

theorem slot_BE :
    slotOf 0xBE = compileLoad 'x' (some "abs,y") := by
  decide!

theorem cost_BE (cpu : Cpu) (w i : Int) (hw : cpu.getw.1 = w) (hwr : 0 ≤ w ∧ w < 65536)
    (hi : cpu.y = i) (hir : 0 ≤ i ∧ i < 256) :
    slotCost 0xBE cpu = some (if 256 ≤ w % 256 + i then 5 else 4) := by
  unfold slotCost
  rw [tableSlot_eq _ (by decide), slot_BE]
  simp only [Cpu.getw] at hw
  simp [compileLoad, getGetPut, charAt,
    cost, trace, run, runFrame, ite_drop, ite_cycles, cycles, hw, hi,
    cross_getput w i hwr hir]

theorem slot_BC :
    slotOf 0xBC = compileLoad 'y' (some "abs,x") := by
  decide!

theorem cost_BC (cpu : Cpu) (w i : Int) (hw : cpu.getw.1 = w) (hwr : 0 ≤ w ∧ w < 65536)
    (hi : cpu.x = i) (hir : 0 ≤ i ∧ i < 256) :
    slotCost 0xBC cpu = some (if 256 ≤ w % 256 + i then 5 else 4) := by
  unfold slotCost
  rw [tableSlot_eq _ (by decide), slot_BC]
  simp only [Cpu.getw] at hw
  simp [compileLoad, getGetPut, charAt,
    cost, trace, run, runFrame, ite_drop, ite_cycles, cycles, hw, hi,
    cross_getput w i hwr hir]

theorem slot_5D :
    slotOf 0x5D = (getOp "EOR").bind
      (fun op => getInstruction2AbsIndexed op 'x' getInstruction2Start) := by
  decide!

theorem cost_5D (cpu : Cpu) (w i : Int) (hw : cpu.getw.1 = w) (hwr : 0 ≤ w ∧ w < 65536)
    (hi : cpu.x = i) (hir : 0 ≤ i ∧ i < 256) :
    slotCost 0x5D cpu = some (if 256 ≤ w % 256 + i then 5 else 4) := by
  unfold slotCost
  rw [tableSlot_eq _ (by decide), slot_5D]
  simp only [Cpu.getw] at hw
  simp [getOp, rotate, getInstruction2AbsIndexed, getInstruction2Start, InstructionGen.render,
    InstructionGen.renderEntries, InstructionGen.renderTail, InstructionGen.renderLoop,
    InstructionGen.renderStep, InstructionGen.withCheckInt, InstructionGen.append,
    InstructionGen.tick, InstructionGen.readOp, InstructionGen.writeOp,
    InstructionGen.zpReadOp, InstructionGen.zpWriteOp, InstructionGen.flush,
    InstructionGen.new, Entry.line, List.range, List.range.loop,
    cost, trace, run, runFrame, ite_drop, ite_cycles, cycles, hw, hi,
    cross_sched w i hwr hir]
  split_ifs <;> omega

theorem slot_59 :
    slotOf 0x59 = (getOp "EOR").bind
      (fun op => getInstruction2AbsIndexed op 'y' getInstruction2Start) := by
  decide!

theorem cost_59 (cpu : Cpu) (w i : Int) (hw : cpu.getw.1 = w) (hwr : 0 ≤ w ∧ w < 65536)
    (hi : cpu.y = i) (hir : 0 ≤ i ∧ i < 256) :
    slotCost 0x59 cpu = some (if 256 ≤ w % 256 + i then 5 else 4) := by
  unfold slotCost
  rw [tableSlot_eq _ (by decide), slot_59]
  simp only [Cpu.getw] at hw
  simp [getOp, rotate, getInstruction2AbsIndexed, getInstruction2Start, InstructionGen.render,
    InstructionGen.renderEntries, InstructionGen.renderTail, InstructionGen.renderLoop,
    InstructionGen.renderStep, InstructionGen.withCheckInt, InstructionGen.append,
    InstructionGen.tick, InstructionGen.readOp, InstructionGen.writeOp,
    InstructionGen.zpReadOp, InstructionGen.zpWriteOp, InstructionGen.flush,
    InstructionGen.new, Entry.line, List.range, List.range.loop,
    cost, trace, run, runFrame, ite_drop, ite_cycles, cycles, hw, hi,
    cross_sched w i hwr hir]
  split_ifs <;> omega

theorem slot_DD :
    slotOf 0xDD = (getOp "CMP").bind
      (fun op => getInstruction2AbsIndexed op 'x' getInstruction2Start) := by
  decide!

theorem cost_DD (cpu : Cpu) (w i : Int) (hw : cpu.getw.1 = w) (hwr : 0 ≤ w ∧ w < 65536)
    (hi : cpu.x = i) (hir : 0 ≤ i ∧ i < 256) :
    slotCost 0xDD cpu = some (if 256 ≤ w % 256 + i then 5 else 4) := by
  unfold slotCost
  rw [tableSlot_eq _ (by decide), slot_DD]
  simp only [Cpu.getw] at hw
  simp [getOp, rotate, getInstruction2AbsIndexed, getInstruction2Start, InstructionGen.render,
    InstructionGen.renderEntries, InstructionGen.renderTail, InstructionGen.renderLoop,
    InstructionGen.renderStep, InstructionGen.withCheckInt, InstructionGen.append,
    InstructionGen.tick, InstructionGen.readOp, InstructionGen.writeOp,
    InstructionGen.zpReadOp, InstructionGen.zpWriteOp, InstructionGen.flush,
    InstructionGen.new, Entry.line, List.range, List.range.loop,
    cost, trace, run, runFrame, ite_drop, ite_cycles, cycles, hw, hi,
    cross_sched w i hwr hir]
  split_ifs <;> omega

theorem slot_D9 :
    slotOf 0xD9 = (getOp "CMP").bind
      (fun op => getInstruction2AbsIndexed op 'y' getInstruction2Start) := by
  decide!

theorem cost_D9 (cpu : Cpu) (w i : Int) (hw : cpu.getw.1 = w) (hwr : 0 ≤ w ∧ w < 65536)
    (hi : cpu.y = i) (hir : 0 ≤ i ∧ i < 256) :
    slotCost 0xD9 cpu = some (if 256 ≤ w % 256 + i then 5 else 4) := by
  unfold slotCost
  rw [tableSlot_eq _ (by decide), slot_D9]
  simp only [Cpu.getw] at hw
  simp [getOp, rotate, getInstruction2AbsIndexed, getInstruction2Start, InstructionGen.render,
    InstructionGen.renderEntries, InstructionGen.renderTail, InstructionGen.renderLoop,
    InstructionGen.renderStep, InstructionGen.withCheckInt, InstructionGen.append,
    InstructionGen.tick, InstructionGen.readOp, InstructionGen.writeOp,
    InstructionGen.zpReadOp, InstructionGen.zpWriteOp, InstructionGen.flush,
    InstructionGen.new, Entry.line, List.range, List.range.loop,
    cost, trace, run, runFrame, ite_drop, ite_cycles, cycles, hw, hi,
    cross_sched w i hwr hir]
  split_ifs <;> omega

theorem slot_3D :
    slotOf 0x3D = compileLogical (some "abs,x") BinOp.band := by
  decide!

theorem cost_3D (cpu : Cpu) (w i : Int) (hw : cpu.getw.1 = w) (hwr : 0 ≤ w ∧ w < 65536)
    (hi : cpu.x = i) (hir : 0 ≤ i ∧ i < 256) :
    slotCost 0x3D cpu = some (if 256 ≤ w % 256 + i then 5 else 4) := by
  unfold slotCost
  rw [tableSlot_eq _ (by decide), slot_3D]
  simp only [Cpu.getw] at hw
  simp [compileLogical, getGetPut, charAt,
    cost, trace, run, runFrame, ite_drop, ite_cycles, cycles, hw, hi,
    cross_getput w i hwr hir]

theorem slot_39 :
    slotOf 0x39 = compileLogical (some "abs,y") BinOp.band := by
  decide!

theorem cost_39 (cpu : Cpu) (w i : Int) (hw : cpu.getw.1 = w) (hwr : 0 ≤ w ∧ w < 65536)
    (hi : cpu.y = i) (hir : 0 ≤ i ∧ i < 256) :
    slotCost 0x39 cpu = some (if 256 ≤ w % 256 + i then 5 else 4) := by
  unfold slotCost
  rw [tableSlot_eq _ (by decide), slot_39]
  simp only [Cpu.getw] at hw
  simp [compileLogical, getGetPut, charAt,
    cost, trace, run, runFrame, ite_drop, ite_cycles, cycles, hw, hi,
    cross_getput w i hwr hir]

theorem slot_1D :
    slotOf 0x1D = compileLogical (some "abs,x") BinOp.bor := by
  decide!

theorem cost_1D (cpu : Cpu) (w i : Int) (hw : cpu.getw.1 = w) (hwr : 0 ≤ w ∧ w < 65536)
    (hi : cpu.x = i) (hir : 0 ≤ i ∧ i < 256) :
    slotCost 0x1D cpu = some (if 256 ≤ w % 256 + i then 5 else 4) := by
  unfold slotCost
  rw [tableSlot_eq _ (by decide), slot_1D]
  simp only [Cpu.getw] at hw
  simp [compileLogical, getGetPut, charAt,
    cost, trace, run, runFrame, ite_drop, ite_cycles, cycles, hw, hi,
    cross_getput w i hwr hir]

theorem slot_19 :
    slotOf 0x19 = compileLogical (some "abs,y") BinOp.bor := by
  decide!

theorem cost_19 (cpu : Cpu) (w i : Int) (hw : cpu.getw.1 = w) (hwr : 0 ≤ w ∧ w < 65536)
    (hi : cpu.y = i) (hir : 0 ≤ i ∧ i < 256) :
    slotCost 0x19 cpu = some (if 256 ≤ w % 256 + i then 5 else 4) := by
  unfold slotCost
  rw [tableSlot_eq _ (by decide), slot_19]
  simp only [Cpu.getw] at hw
  simp [compileLogical, getGetPut, charAt,
    cost, trace, run, runFrame, ite_drop, ite_cycles, cycles, hw, hi,
    cross_getput w i hwr hir]

theorem slot_7D :
    slotOf 0x7D = compileAdcSbc "adc" (some "abs,x") := by
  decide!

theorem cost_7D (cpu : Cpu) (w i : Int) (hw : cpu.getw.1 = w) (hwr : 0 ≤ w ∧ w < 65536)
    (hi : cpu.x = i) (hir : 0 ≤ i ∧ i < 256) :
    slotCost 0x7D cpu = some (if 256 ≤ w % 256 + i then 5 else 4) := by
  unfold slotCost
  rw [tableSlot_eq _ (by decide), slot_7D]
  simp only [Cpu.getw] at hw
  simp [compileAdcSbc, getGetPut, charAt,
    cost, trace, run, runFrame, ite_drop, ite_cycles, cycles, hw, hi,
    cross_getput w i hwr hir]

theorem slot_79 :
    slotOf 0x79 = compileAdcSbc "adc" (some "abs,y") := by
  decide!

theorem cost_79 (cpu : Cpu) (w i : Int) (hw : cpu.getw.1 = w) (hwr : 0 ≤ w ∧ w < 65536)
    (hi : cpu.y = i) (hir : 0 ≤ i ∧ i < 256) :
    slotCost 0x79 cpu = some (if 256 ≤ w % 256 + i then 5 else 4) := by
  unfold slotCost
  rw [tableSlot_eq _ (by decide), slot_79]
  simp only [Cpu.getw] at hw
  simp [compileAdcSbc, getGetPut, charAt,
    cost, trace, run, runFrame, ite_drop, ite_cycles, cycles, hw, hi,
    cross_getput w i hwr hir]

theorem slot_FD :
    slotOf 0xFD = compileAdcSbc "sbc" (some "abs,x") := by
  decide!

theorem cost_FD (cpu : Cpu) (w i : Int) (hw : cpu.getw.1 = w) (hwr : 0 ≤ w ∧ w < 65536)
    (hi : cpu.x = i) (hir : 0 ≤ i ∧ i < 256) :
    slotCost 0xFD cpu = some (if 256 ≤ w % 256 + i then 5 else 4) := by
  unfold slotCost
  rw [tableSlot_eq _ (by decide), slot_FD]
  simp only [Cpu.getw] at hw
  simp [compileAdcSbc, getGetPut, charAt,
    cost, trace, run, runFrame, ite_drop, ite_cycles, cycles, hw, hi,
    cross_getput w i hwr hir]

theorem slot_F9 :
    slotOf 0xF9 = compileAdcSbc "sbc" (some "abs,y") := by
  decide!

theorem cost_F9 (cpu : Cpu) (w i : Int) (hw : cpu.getw.1 = w) (hwr : 0 ≤ w ∧ w < 65536)
    (hi : cpu.y = i) (hir : 0 ≤ i ∧ i < 256) :
    slotCost 0xF9 cpu = some (if 256 ≤ w % 256 + i then 5 else 4) := by
  unfold slotCost
  rw [tableSlot_eq _ (by decide), slot_F9]
  simp only [Cpu.getw] at hw
  simp [compileAdcSbc, getGetPut, charAt,
    cost, trace, run, runFrame, ite_drop, ite_cycles, cycles, hw, hi,
    cross_getput w i hwr hir]

theorem cost_FE (cpu : Cpu) : slotCost 0xFE cpu = some 7 := by
  unfold slotCost
  rw [tableSlot_eq _ (by decide), slot_FE]
  simp [getOp, rotate, getInstruction2AbsIndexed, getInstruction2Start, InstructionGen.render,
    InstructionGen.renderEntries, InstructionGen.renderTail, InstructionGen.renderLoop,
    InstructionGen.renderStep, InstructionGen.withCheckInt, InstructionGen.append,
    InstructionGen.tick, InstructionGen.readOp, InstructionGen.writeOp,
    InstructionGen.zpReadOp, InstructionGen.zpWriteOp, InstructionGen.flush,
    InstructionGen.new, Entry.line, List.range, List.range.loop,
    cost, trace, run, runFrame, ite_drop, ite_cycles, cycles]

theorem cost_DE (cpu : Cpu) : slotCost 0xDE cpu = some 7 := by
  unfold slotCost
  rw [tableSlot_eq _ (by decide), slot_DE]
  simp [getOp, rotate, getInstruction2AbsIndexed, getInstruction2Start, InstructionGen.render,
    InstructionGen.renderEntries, InstructionGen.renderTail, InstructionGen.renderLoop,
    InstructionGen.renderStep, InstructionGen.withCheckInt, InstructionGen.append,
    InstructionGen.tick, InstructionGen.readOp, InstructionGen.writeOp,
    InstructionGen.zpReadOp, InstructionGen.zpWriteOp, InstructionGen.flush,
    InstructionGen.new, Entry.line, List.range, List.range.loop,
    cost, trace, run, runFrame, ite_drop, ite_cycles, cycles]

theorem cost_1E (cpu : Cpu) : slotCost 0x1E cpu = some 7 := by
  unfold slotCost
  rw [tableSlot_eq _ (by decide), slot_1E]
  simp [getOp, rotate, getInstruction2AbsIndexed, getInstruction2Start, InstructionGen.render,
    InstructionGen.renderEntries, InstructionGen.renderTail, InstructionGen.renderLoop,
    InstructionGen.renderStep, InstructionGen.withCheckInt, InstructionGen.append,
    InstructionGen.tick, InstructionGen.readOp, InstructionGen.writeOp,
    InstructionGen.zpReadOp, InstructionGen.zpWriteOp, InstructionGen.flush,
    InstructionGen.new, Entry.line, List.range, List.range.loop,
    cost, trace, run, runFrame, ite_drop, ite_cycles, cycles]

theorem cost_3E (cpu : Cpu) : slotCost 0x3E cpu = some 7 := by
  unfold slotCost
  rw [tableSlot_eq _ (by decide), slot_3E]
  simp [getOp, rotate, getInstruction2AbsIndexed, getInstruction2Start, InstructionGen.render,
    InstructionGen.renderEntries, InstructionGen.renderTail, InstructionGen.renderLoop,
    InstructionGen.renderStep, InstructionGen.withCheckInt, InstructionGen.append,
    InstructionGen.tick, InstructionGen.readOp, InstructionGen.writeOp,
    InstructionGen.zpReadOp, InstructionGen.zpWriteOp, InstructionGen.flush,
    InstructionGen.new, Entry.line, List.range, List.range.loop,
    cost, trace, run, runFrame, ite_drop, ite_cycles, cycles]

theorem cost_7E (cpu : Cpu) : slotCost 0x7E cpu = some 7 := by
  unfold slotCost
  rw [tableSlot_eq _ (by decide), slot_7E]
  simp [getOp, rotate, getInstruction2AbsIndexed, getInstruction2Start, InstructionGen.render,
    InstructionGen.renderEntries, InstructionGen.renderTail, InstructionGen.renderLoop,
    InstructionGen.renderStep, InstructionGen.withCheckInt, InstructionGen.append,
    InstructionGen.tick, InstructionGen.readOp, InstructionGen.writeOp,
    InstructionGen.zpReadOp, InstructionGen.zpWriteOp, InstructionGen.flush,
    InstructionGen.new, Entry.line, List.range, List.range.loop,
    cost, trace, run, runFrame, ite_drop, ite_cycles, cycles]

theorem slot_9D :
    slotOf 0x9D = (getOp "STA").bind
      (fun op => getInstruction2AbsIndexed op 'x' getInstruction2Start) := by
  decide!

theorem cost_9D (cpu : Cpu) : slotCost 0x9D cpu = some 5 := by
  unfold slotCost
  rw [tableSlot_eq _ (by decide), slot_9D]
  simp [getOp, rotate, getInstruction2AbsIndexed, getInstruction2Start, InstructionGen.render,
    InstructionGen.renderEntries, InstructionGen.renderTail, InstructionGen.renderLoop,
    InstructionGen.renderStep, InstructionGen.withCheckInt, InstructionGen.append,
    InstructionGen.tick, InstructionGen.readOp, InstructionGen.writeOp,
    InstructionGen.zpReadOp, InstructionGen.zpWriteOp, InstructionGen.flush,
    InstructionGen.new, Entry.line, List.range, List.range.loop,
    cost, trace, run, runFrame, ite_drop, ite_cycles, cycles]

theorem slot_99 :
    slotOf 0x99 = (getOp "STA").bind
      (fun op => getInstruction2AbsIndexed op 'y' getInstruction2Start) := by
  decide!

theorem cost_99 (cpu : Cpu) : slotCost 0x99 cpu = some 5 := by
  unfold slotCost
  rw [tableSlot_eq _ (by decide), slot_99]
  simp [getOp, rotate, getInstruction2AbsIndexed, getInstruction2Start, InstructionGen.render,
    InstructionGen.renderEntries, InstructionGen.renderTail, InstructionGen.renderLoop,
    InstructionGen.renderStep, InstructionGen.withCheckInt, InstructionGen.append,
    InstructionGen.tick, InstructionGen.readOp, InstructionGen.writeOp,
    InstructionGen.zpReadOp, InstructionGen.zpWriteOp, InstructionGen.flush,
    InstructionGen.new, Entry.line, List.range, List.range.loop,
    cost, trace, run, runFrame, ite_drop, ite_cycles, cycles]

theorem indexedKind_bytes :
    ∀ b < 256, (indexedKind b).isSome = true →
      b ∈ [0x19, 0x1D, 0x1E, 0x39, 0x3D, 0x3E, 0x59, 0x5D, 0x79, 0x7D, 0x7E, 0x99, 0x9D, 0xB9, 0xBC, 0xBD, 0xBE, 0xD9, 0xDD, 0xDE, 0xF9, 0xFD, 0xFE] := by
  decide!

/-- C10: for every 16-bit base address `w` and index register value `i` in `0..255`,
the table's `abs,x` and `abs,y` routines cost 5 cycles when `(w & 0xff) + i >= 0x100`
and 4 cycles otherwise for the read instructions (`LDA`, `LDX`, `LDY`, `EOR`, `CMP`,
`AND`, `ORA`, `ADC`, `SBC`), 7 cycles for the scheduler-built read-modify-write
instructions (`INC`, `DEC`, `ASL`, `ROL`, `ROR`) and 5 cycles for `STA`, whether or
not the page is crossed. -/
theorem indexed_absolute_cost (b : Nat) (hb : b < 256) (k : IndexedKind) (idx : Char)
    (hk : indexedKind b = some (k, idx)) (cpu : Cpu) (w i : Int)
    (hw : cpu.getw.1 = w) (hwr : 0 ≤ w ∧ w < 65536)
    (hi : cpu.getReg idx = i) (hir : 0 ≤ i ∧ i < 256) :
    slotCost b cpu = some (indexedCost k w i) := by
  have hmem := indexedKind_bytes b hb (by rw [hk]; rfl)
  simp only [List.mem_cons, List.mem_singleton, List.not_mem_nil, or_false] at hmem
  rcases hmem with rfl | rfl | rfl | rfl | rfl | rfl | rfl | rfl | rfl | rfl | rfl | rfl | rfl | rfl | rfl | rfl | rfl | rfl | rfl | rfl | rfl | rfl | rfl
  · have hk2 : indexedKind 0x19 = some (IndexedKind.read, 'y') := by decide!
    rw [hk2] at hk
    simp only [Option.some.injEq, Prod.mk.injEq] at hk
    obtain ⟨rfl, rfl⟩ := hk
    simp only [Cpu.getReg] at hi
    exact cost_19 cpu w i hw hwr (by simpa using hi) hir
  · have hk2 : indexedKind 0x1D = some (IndexedKind.read, 'x') := by decide!
    rw [hk2] at hk
    simp only [Option.some.injEq, Prod.mk.injEq] at hk
    obtain ⟨rfl, rfl⟩ := hk
    simp only [Cpu.getReg] at hi
    exact cost_1D cpu w i hw hwr (by simpa using hi) hir
  · have hk2 : indexedKind 0x1E = some (IndexedKind.rmw, 'x') := by decide!
    rw [hk2] at hk
    simp only [Option.some.injEq, Prod.mk.injEq] at hk
    obtain ⟨rfl, rfl⟩ := hk
    exact cost_1E cpu
  · have hk2 : indexedKind 0x39 = some (IndexedKind.read, 'y') := by decide!
    rw [hk2] at hk
    simp only [Option.some.injEq, Prod.mk.injEq] at hk
    obtain ⟨rfl, rfl⟩ := hk
    simp only [Cpu.getReg] at hi
    exact cost_39 cpu w i hw hwr (by simpa using hi) hir
  · have hk2 : indexedKind 0x3D = some (IndexedKind.read, 'x') := by decide!
    rw [hk2] at hk
    simp only [Option.some.injEq, Prod.mk.injEq] at hk
    obtain ⟨rfl, rfl⟩ := hk
    simp only [Cpu.getReg] at hi
    exact cost_3D cpu w i hw hwr (by simpa using hi) hir
  · have hk2 : indexedKind 0x3E = some (IndexedKind.rmw, 'x') := by decide!
    rw [hk2] at hk
    simp only [Option.some.injEq, Prod.mk.injEq] at hk
    obtain ⟨rfl, rfl⟩ := hk
    exact cost_3E cpu
  · have hk2 : indexedKind 0x59 = some (IndexedKind.read, 'y') := by decide!
    rw [hk2] at hk
    simp only [Option.some.injEq, Prod.mk.injEq] at hk
    obtain ⟨rfl, rfl⟩ := hk
    simp only [Cpu.getReg] at hi
    exact cost_59 cpu w i hw hwr (by simpa using hi) hir
  · have hk2 : indexedKind 0x5D = some (IndexedKind.read, 'x') := by decide!
    rw [hk2] at hk
    simp only [Option.some.injEq, Prod.mk.injEq] at hk
    obtain ⟨rfl, rfl⟩ := hk
    simp only [Cpu.getReg] at hi
    exact cost_5D cpu w i hw hwr (by simpa using hi) hir
  · have hk2 : indexedKind 0x79 = some (IndexedKind.read, 'y') := by decide!
    rw [hk2] at hk
    simp only [Option.some.injEq, Prod.mk.injEq] at hk
    obtain ⟨rfl, rfl⟩ := hk
    simp only [Cpu.getReg] at hi
    exact cost_79 cpu w i hw hwr (by simpa using hi) hir
  · have hk2 : indexedKind 0x7D = some (IndexedKind.read, 'x') := by decide!
    rw [hk2] at hk
    simp only [Option.some.injEq, Prod.mk.injEq] at hk
    obtain ⟨rfl, rfl⟩ := hk
    simp only [Cpu.getReg] at hi
    exact cost_7D cpu w i hw hwr (by simpa using hi) hir
  · have hk2 : indexedKind 0x7E = some (IndexedKind.rmw, 'x') := by decide!
    rw [hk2] at hk
    simp only [Option.some.injEq, Prod.mk.injEq] at hk
    obtain ⟨rfl, rfl⟩ := hk
    exact cost_7E cpu
  · have hk2 : indexedKind 0x99 = some (IndexedKind.store, 'y') := by decide!
    rw [hk2] at hk
    simp only [Option.some.injEq, Prod.mk.injEq] at hk
    obtain ⟨rfl, rfl⟩ := hk
    exact cost_99 cpu
  · have hk2 : indexedKind 0x9D = some (IndexedKind.store, 'x') := by decide!
    rw [hk2] at hk
    simp only [Option.some.injEq, Prod.mk.injEq] at hk
    obtain ⟨rfl, rfl⟩ := hk
    exact cost_9D cpu
  · have hk2 : indexedKind 0xB9 = some (IndexedKind.read, 'y') := by decide!
    rw [hk2] at hk
    simp only [Option.some.injEq, Prod.mk.injEq] at hk
    obtain ⟨rfl, rfl⟩ := hk
    simp only [Cpu.getReg] at hi
    exact cost_B9 cpu w i hw hwr (by simpa using hi) hir
  · have hk2 : indexedKind 0xBC = some (IndexedKind.read, 'x') := by decide!
    rw [hk2] at hk
    simp only [Option.some.injEq, Prod.mk.injEq] at hk
    obtain ⟨rfl, rfl⟩ := hk
    simp only [Cpu.getReg] at hi
    exact cost_BC cpu w i hw hwr (by simpa using hi) hir
  · have hk2 : indexedKind 0xBD = some (IndexedKind.read, 'x') := by decide!
    rw [hk2] at hk
    simp only [Option.some.injEq, Prod.mk.injEq] at hk
    obtain ⟨rfl, rfl⟩ := hk
    simp only [Cpu.getReg] at hi
    exact cost_BD cpu w i hw hwr (by simpa using hi) hir
  · have hk2 : indexedKind 0xBE = some (IndexedKind.read, 'y') := by decide!
    rw [hk2] at hk
    simp only [Option.some.injEq, Prod.mk.injEq] at hk
    obtain ⟨rfl, rfl⟩ := hk
    simp only [Cpu.getReg] at hi
    exact cost_BE cpu w i hw hwr (by simpa using hi) hir
  · have hk2 : indexedKind 0xD9 = some (IndexedKind.read, 'y') := by decide!
    rw [hk2] at hk
    simp only [Option.some.injEq, Prod.mk.injEq] at hk
    obtain ⟨rfl, rfl⟩ := hk
    simp only [Cpu.getReg] at hi
    exact cost_D9 cpu w i hw hwr (by simpa using hi) hir
  · have hk2 : indexedKind 0xDD = some (IndexedKind.read, 'x') := by decide!
    rw [hk2] at hk
    simp only [Option.some.injEq, Prod.mk.injEq] at hk
    obtain ⟨rfl, rfl⟩ := hk
    simp only [Cpu.getReg] at hi
    exact cost_DD cpu w i hw hwr (by simpa using hi) hir
  · have hk2 : indexedKind 0xDE = some (IndexedKind.rmw, 'x') := by decide!
    rw [hk2] at hk
    simp only [Option.some.injEq, Prod.mk.injEq] at hk
    obtain ⟨rfl, rfl⟩ := hk
    exact cost_DE cpu
  · have hk2 : indexedKind 0xF9 = some (IndexedKind.read, 'y') := by decide!
    rw [hk2] at hk
    simp only [Option.some.injEq, Prod.mk.injEq] at hk
    obtain ⟨rfl, rfl⟩ := hk
    simp only [Cpu.getReg] at hi
    exact cost_F9 cpu w i hw hwr (by simpa using hi) hir
  · have hk2 : indexedKind 0xFD = some (IndexedKind.read, 'x') := by decide!
    rw [hk2] at hk
    simp only [Option.some.injEq, Prod.mk.injEq] at hk
    obtain ⟨rfl, rfl⟩ := hk
    simp only [Cpu.getReg] at hi
    exact cost_FD cpu w i hw hwr (by simpa using hi) hir
  · have hk2 : indexedKind 0xFE = some (IndexedKind.rmw, 'x') := by decide!
    rw [hk2] at hk
    simp only [Option.some.injEq, Prod.mk.injEq] at hk
    obtain ⟨rfl, rfl⟩ := hk
    exact cost_FE cpu

/-- Witness for C10: `LDA abs,x` with base address `0x20ff` and `X = 1`, which
crosses a page and costs 5 cycles. -/
theorem indexed_absolute_cost_witness :
    slotCost 0xBD
      (sampleCpuXY 0x1001 1 0 (fun k => if k = 0x1001 then 0xff else if k = 0x1002 then 0x20 else 0)) =
      some (indexedCost IndexedKind.read 0x20ff 1) :=
  indexed_absolute_cost 0xBD (by decide) IndexedKind.read 'x' (by decide!)
    (sampleCpuXY 0x1001 1 0 (fun k => if k = 0x1001 then 0xff else if k = 0x1002 then 0x20 else 0))
    0x20ff 1 (by decide) (by decide) (by decide) (by decide)

/-! ## `STA zp` -/

theorem slot_85 :
    slotOf 0x85 = (getOp "STA").map (fun op => getInstruction2Zp op getInstruction2Start) := by
  decide!

/-- C21: for every zero-page address `a` and accumulator value `v`, the table's
`STA zp` routine writes `v` to `a`, makes no memory read, leaves every flag and the
registers A, X, Y, S unchanged, leaves every other memory location unchanged, and
costs exactly 3 cycles. -/
theorem sta_zp_effect (cpu : Cpu) (a v : Int) (ha : cpu.mem cpu.pc = a) (hv : cpu.a = v) :
    opcodes6502 0x85 = some "STA zp" ∧
    ∃ r, tableSlot 0x85 = some r ∧
      trace r cpu = [Event.fetch cpu.pc, Event.poll 3, Event.write a v, Event.checkInt] ∧
      busEvents (trace r cpu) = [Event.write a v] ∧
      cost r cpu = 3 ∧
      (run r cpu).mem = (fun k => if k = a then v else cpu.mem k) ∧
      (run r cpu).p = cpu.p ∧
      (run r cpu).a = cpu.a ∧ (run r cpu).x = cpu.x ∧ (run r cpu).y = cpu.y ∧
      (run r cpu).s = cpu.s := by
  have hs := (tableSlot_eq 0x85 (by decide)).trans slot_85
  simp [getOp, rotate, getInstruction2Zp, getInstruction2Start, InstructionGen.render,
    InstructionGen.renderEntries, InstructionGen.renderTail, InstructionGen.renderLoop,
    InstructionGen.renderStep, InstructionGen.withCheckInt, InstructionGen.append,
    InstructionGen.tick, InstructionGen.readOp, InstructionGen.writeOp,
    InstructionGen.zpReadOp, InstructionGen.zpWriteOp, InstructionGen.flush,
    InstructionGen.new, Entry.line, List.range, List.range.loop] at hs
  refine ⟨by decide!, _, hs, ?_⟩
  simp [busEvents, isBus, cost, cycles, trace, run, runFrame, ha, hv]

/-- Witness for C21: accumulator `0x99`, operand byte `0x10`. -/
theorem sta_zp_effect_witness :
    opcodes6502 0x85 = some "STA zp" ∧
    ∃ r, tableSlot 0x85 = some r ∧
      trace r staExampleCpu =
        [Event.fetch staExampleCpu.pc, Event.poll 3, Event.write 0x10 0x99, Event.checkInt] ∧
      busEvents (trace r staExampleCpu) = [Event.write 0x10 0x99] ∧
      cost r staExampleCpu = 3 ∧
      (run r staExampleCpu).mem = (fun k => if k = 0x10 then 0x99 else staExampleCpu.mem k) ∧
      (run r staExampleCpu).p = staExampleCpu.p ∧
      (run r staExampleCpu).a = staExampleCpu.a ∧ (run r staExampleCpu).x = staExampleCpu.x ∧
      (run r staExampleCpu).y = staExampleCpu.y ∧ (run r staExampleCpu).s = staExampleCpu.s :=
  sta_zp_effect staExampleCpu 0x10 0x99 (by decide) (by decide)


/-! ## Flag set and clear -/

theorem flagOp_bytes :
    ∀ b < 256, (flagOp b).isSome = true → b ∈ [0x18, 0x38, 0x58, 0x78, 0xB8, 0xD8, 0xF8] := by
  decide!

theorem slot_18 : slotOf 0x18 = some [Line.polltime 2, Line.checkInt, setFlag Flag.c eFalse] := by
  decide!

theorem slot_38 : slotOf 0x38 = some [Line.polltime 2, Line.checkInt, setFlag Flag.c eTrue] := by
  decide!

theorem slot_58 : slotOf 0x58 = some [Line.polltime 2, Line.checkInt, setFlag Flag.i eFalse] := by
  decide!

theorem slot_78 : slotOf 0x78 = some [Line.polltime 2, Line.checkInt, setFlag Flag.i eTrue] := by
  decide!

theorem slot_B8 : slotOf 0xB8 = some [setFlag Flag.v eFalse, Line.polltime 2, Line.checkInt] := by
  decide!

theorem slot_D8 : slotOf 0xD8 = some [setFlag Flag.d eFalse, Line.polltime 2, Line.checkInt] := by
  decide!

theorem slot_F8 : slotOf 0xF8 = some [setFlag Flag.d eTrue, Line.polltime 2, Line.checkInt] := by
  decide!

/-- C22: each of `SEC`, `CLC`, `SEI`, `CLI`, `SED`, `CLD` and `CLV` sets or clears
exactly the named flag, leaves every other flag, every register and all memory
unchanged, makes no memory read or write and no operand fetch, and advances time by
exactly 2 cycles. -/
theorem flag_op_effect (b : Nat) (hb : b < 256) (f : Flag) (v : Bool)
    (hf : flagOp b = some (f, v)) (cpu : Cpu) :
    ∃ r, tableSlot b = some r ∧
      run r cpu =
        { cpu with p := cpu.p.set f v, log := cpu.log ++ [Event.poll 2, Event.checkInt] } ∧
      trace r cpu = [Event.poll 2, Event.checkInt] ∧
      busEvents (trace r cpu) = [] ∧
      cost r cpu = 2 := by
  have hmem := flagOp_bytes b hb (by rw [hf]; rfl)
  simp only [List.mem_cons, List.mem_singleton, List.not_mem_nil, or_false] at hmem
  rcases hmem with rfl | rfl | rfl | rfl | rfl | rfl | rfl
  · have h2 : flagOp 0x18 = some (Flag.c, false) := by decide!
    rw [h2] at hf
    simp only [Option.some.injEq, Prod.mk.injEq] at hf
    obtain ⟨rfl, rfl⟩ := hf
    refine ⟨_, (tableSlot_eq 0x18 (by decide)).trans slot_18, ?_⟩
    simp [busEvents, isBus, cost, cycles, trace, run, runFrame]
  · have h2 : flagOp 0x38 = some (Flag.c, true) := by decide!
    rw [h2] at hf
    simp only [Option.some.injEq, Prod.mk.injEq] at hf
    obtain ⟨rfl, rfl⟩ := hf
    refine ⟨_, (tableSlot_eq 0x38 (by decide)).trans slot_38, ?_⟩
    simp [busEvents, isBus, cost, cycles, trace, run, runFrame]
  · have h2 : flagOp 0x58 = some (Flag.i, false) := by decide!
    rw [h2] at hf
    simp only [Option.some.injEq, Prod.mk.injEq] at hf
    obtain ⟨rfl, rfl⟩ := hf
    refine ⟨_, (tableSlot_eq 0x58 (by decide)).trans slot_58, ?_⟩
    simp [busEvents, isBus, cost, cycles, trace, run, runFrame]
  · have h2 : flagOp 0x78 = some (Flag.i, true) := by decide!
    rw [h2] at hf
    simp only [Option.some.injEq, Prod.mk.injEq] at hf
    obtain ⟨rfl, rfl⟩ := hf
    refine ⟨_, (tableSlot_eq 0x78 (by decide)).trans slot_78, ?_⟩
    simp [busEvents, isBus, cost, cycles, trace, run, runFrame]
  · have h2 : flagOp 0xB8 = some (Flag.v, false) := by decide!
    rw [h2] at hf
    simp only [Option.some.injEq, Prod.mk.injEq] at hf
    obtain ⟨rfl, rfl⟩ := hf
    refine ⟨_, (tableSlot_eq 0xB8 (by decide)).trans slot_B8, ?_⟩
    simp [busEvents, isBus, cost, cycles, trace, run, runFrame]
  · have h2 : flagOp 0xD8 = some (Flag.d, false) := by decide!
    rw [h2] at hf
    simp only [Option.some.injEq, Prod.mk.injEq] at hf
    obtain ⟨rfl, rfl⟩ := hf
    refine ⟨_, (tableSlot_eq 0xD8 (by decide)).trans slot_D8, ?_⟩
    simp [busEvents, isBus, cost, cycles, trace, run, runFrame]
  · have h2 : flagOp 0xF8 = some (Flag.d, true) := by decide!
    rw [h2] at hf
    simp only [Option.some.injEq, Prod.mk.injEq] at hf
    obtain ⟨rfl, rfl⟩ := hf
    refine ⟨_, (tableSlot_eq 0xF8 (by decide)).trans slot_F8, ?_⟩
    simp [busEvents, isBus, cost, cycles, trace, run, runFrame]

/-- Witness for C22: `SEC` (byte `0x38`) on a CPU context with cleared flags. -/
theorem flag_op_effect_witness :
    ∃ r, tableSlot 0x38 = some r ∧
      run r (sampleCpu 0x1001 (fun _ => 0)) =
        { sampleCpu 0x1001 (fun _ => 0) with
          p := (sampleCpu 0x1001 (fun _ => 0)).p.set Flag.c true,
          log := (sampleCpu 0x1001 (fun _ => 0)).log ++ [Event.poll 2, Event.checkInt] } ∧
      trace r (sampleCpu 0x1001 (fun _ => 0)) = [Event.poll 2, Event.checkInt] ∧
      busEvents (trace r (sampleCpu 0x1001 (fun _ => 0))) = [] ∧
      cost r (sampleCpu 0x1001 (fun _ => 0)) = 2 :=
  flag_op_effect 0x38 (by decide) Flag.c true (by decide!) (sampleCpu 0x1001 (fun _ => 0))

/-! ## Coverage of the two builders -/

/-- C23, evaluated on the code: `getOp` keys the logical shift right on `"ASR"`, so
`getInstruction2` yields `null` for the catalog entries `LSR zp`, `LSR abs` and
`LSR abs,x`.  For the catalog as a whole it never throws, and it yields an operation
sequence exactly for the entries that pair one of `LDA`, `STA`, `INC`, `DEC`, `ROL`,
`ROR`, `ASL`, `EOR`, `CMP` with one of `zp`, `abs`, `abs,x`, `abs,y`. -/
theorem scheduler_builder_misses_lsr :
    (opcodes6502 0x46 = some "LSR zp" ∧ getInstruction2 "LSR zp" = Except.ok none) ∧
    (opcodes6502 0x4E = some "LSR abs" ∧ getInstruction2 "LSR abs" = Except.ok none) ∧
    (opcodes6502 0x5E = some "LSR abs,x" ∧ getInstruction2 "LSR abs,x" = Except.ok none) ∧
    (∀ b, b < 256 → ∀ s, opcodes6502 b = some s →
      getInstruction2Raises s = false ∧
      getInstruction2Yields s = schedulerPair getOpMnemonics s) := by
  refine ⟨⟨by decide!, by rfl⟩, ⟨by decide!, by rfl⟩, ⟨by decide!, by rfl⟩, ?_⟩
  have key : ∀ b, b < 256 →
      (match opcodes6502 b with
      | some s => !getInstruction2Raises s &&
          (getInstruction2Yields s == schedulerPair getOpMnemonics s)
      | none => true) = true := by
    decide!
  intro b hb s hs
  have := key b hb
  rw [hs] at this
  simpa using this

/-- C26: `generate6502` completes without raising on the catalog and returns 256
slots; slot `b` holds a routine exactly when the catalog has an entry at `b` whose
mnemonic is one of the 56 documented mnemonics and that is not a `NOP` with an
operand; 13 bytes have no catalog entry. -/
theorem table_population :
    (∃ t, generate6502 = Except.ok t ∧ t.length = 256) ∧
    (∀ b, b < 256 → (tableSlot b).isSome = supportedByte b) ∧
    ((List.range 256).filter (fun b => (opcodes6502 b).isNone)).length = 13 := by
  refine ⟨⟨_, generate6502_eq, by simp⟩, ?_, by decide!⟩
  have key : ∀ b, b < 256 → (slotOf b).isSome = supportedByte b := by decide!
  intro b hb
  rw [tableSlot_eq b hb]
  exact key b hb


/-! ## `RTI` and `PLP` -/

theorem slot_40 : slotOf 0x40 = some compileRti := by decide!

theorem slot_28 : slotOf 0x28 = some (compilePull 'p') := by decide!

theorem mask_tests_cast : ∀ n : Nat, n < 256 →
    (decide (Int.land (n : Int) 1 = 0) = !bitSet (n : Int) 0) ∧
    (decide (Int.land (n : Int) 2 = 0) = !bitSet (n : Int) 1) ∧
    (decide (Int.land (n : Int) 4 = 0) = !bitSet (n : Int) 2) ∧
    (decide (Int.land (n : Int) 8 = 0) = !bitSet (n : Int) 3) ∧
    (decide (Int.land (n : Int) 64 = 0) = !bitSet (n : Int) 6) ∧
    (decide (Int.land (n : Int) 128 = 0) = !bitSet (n : Int) 7) := by
  decide!

/-- The mask tests of the flag unpacking, on a byte, read the named bits. -/
theorem mask_tests (f : Int) (hf : 0 ≤ f ∧ f < 256) :
    (Int.land f 1 = 0 ↔ bitSet f 0 = false) ∧
    (Int.land f 2 = 0 ↔ bitSet f 1 = false) ∧
    (Int.land f 4 = 0 ↔ bitSet f 2 = false) ∧
    (Int.land f 8 = 0 ↔ bitSet f 3 = false) ∧
    (Int.land f 64 = 0 ↔ bitSet f 6 = false) ∧
    (Int.land f 128 = 0 ↔ bitSet f 7 = false) := by
  obtain ⟨n, rfl⟩ := Int.eq_ofNat_of_zero_le hf.1
  have hn : n < 256 := by omega
  obtain ⟨h0, h1, h2, h3, h6, h7⟩ := mask_tests_cast n hn
  refine ⟨?_, ?_, ?_, ?_, ?_, ?_⟩
  · simpa using congrArg (fun b => b = true) h0
  · simpa using congrArg (fun b => b = true) h1
  · simpa using congrArg (fun b => b = true) h2
  · simpa using congrArg (fun b => b = true) h3
  · simpa using congrArg (fun b => b = true) h6
  · simpa using congrArg (fun b => b = true) h7

/-- C24: for every pulled flags byte `f` and return-address bytes `lo`, `hi`, `RTI`
pulls `f` first, then `lo`, then `hi`; leaves carry, zero, interrupt-disable,
decimal, overflow and negative set exactly when bit 0, 1, 2, 3, 6, 7 of `f` is set,
which is the flag state `PLP` produces for `f`; sets PC to `lo | (hi << 8)` with no
increment; and costs exactly 6 cycles with the interrupt sample after all 6. -/
theorem rti_effect (cpu : Cpu) (f lo hi : Int)
    (hf : cpu.mem (0x100 + (cpu.s + 1) % 256) = f)
    (hlo : cpu.mem (0x100 + (cpu.s + 2) % 256) = lo)
    (hhi : cpu.mem (0x100 + (cpu.s + 3) % 256) = hi)
    (hfb : 0 ≤ f ∧ f < 256) :
    opcodes6502 0x40 = some "RTI" ∧
    ∃ r, tableSlot 0x40 = some r ∧
      trace r cpu =
        [Event.pull f, Event.pull lo, Event.pull hi, Event.poll 6, Event.checkInt] ∧
      cost r cpu = 6 ∧
      (run r cpu).p = flagsOfByte f ∧
      (∃ plp, tableSlot 0x28 = some plp ∧ (run r cpu).p = (run plp cpu).p) ∧
      (run r cpu).pc = Int.lor lo (hi <<< (8 : Int)) := by
  obtain ⟨h0, h1, h2, h3, h6, h7⟩ := mask_tests f hfb
  refine ⟨by decide!, _, (tableSlot_eq 0x40 (by decide)).trans slot_40, ?_, ?_, ?_,
    ⟨_, (tableSlot_eq 0x28 (by decide)).trans slot_28, ?_⟩, ?_⟩
  · simp [compileRti, trace, run, runFrame, hf, hlo, hhi, add_assoc]
  · simp [compileRti, cost, cycles, trace, run, runFrame]
  · simp [compileRti, run, runFrame, hf, flagsOfByte, h0, h1, h2, h3, h6, h7]
  · simp [compileRti, compilePull, run, runFrame, hf]
  · simp [compileRti, run, runFrame, hlo, hhi, add_assoc]

/-- Witness for C24: flags byte `0xc3`, return address bytes `0x34`, `0x12`. -/
theorem rti_effect_witness :
    opcodes6502 0x40 = some "RTI" ∧
    ∃ r, tableSlot 0x40 = some r ∧
      trace r rtiExampleCpu =
        [Event.pull 0xc3, Event.pull 0x34, Event.pull 0x12, Event.poll 6, Event.checkInt] ∧
      cost r rtiExampleCpu = 6 ∧
      (run r rtiExampleCpu).p = flagsOfByte 0xc3 ∧
      (∃ plp, tableSlot 0x28 = some plp ∧ (run r rtiExampleCpu).p = (run plp rtiExampleCpu).p) ∧
      (run r rtiExampleCpu).pc = Int.lor 0x34 (0x12 <<< (8 : Int)) :=
  rti_effect rtiExampleCpu 0xc3 0x34 0x12 (by decide) (by decide) (by decide) (by decide)

/-! ## Rotate through carry -/

theorem rotate_bytes : ∀ n : Nat, n < 256 → ∀ c : Bool,
    (Int.lor (Int.land ((n : Int) <<< (1 : Int)) 255) (if c = true then 1 else 0) =
      (2 * (n : Int) + ofBool c) % 256) ∧
    (decide (Int.land (n : Int) 128 = 0) = !bitSet (n : Int) 7) ∧
    (Int.lor ((n : Int) >>> (1 : Int)) (if c = true then 128 else 0) =
      Int.lor ((n : Int) >>> (1 : Int)) (ofBool c <<< (7 : Int))) ∧
    (decide (Int.land (n : Int) 1 = 0) = !bitSet (n : Int) 0) ∧
    (Int.lor
        (Int.lor (Int.land ((n : Int) <<< (1 : Int)) 255) (if c = true then 1 else 0) >>>
          (1 : Int))
        (if Int.land (n : Int) 128 = 0 then 0 else 128) = (n : Int)) ∧
    (decide (Int.land
        (Int.lor (Int.land ((n : Int) <<< (1 : Int)) 255) (if c = true then 1 else 0)) 1 = 0) =
      !c) ∧
    (Int.lor
        (Int.land
          (Int.lor ((n : Int) >>> (1 : Int)) (if c = true then 128 else 0) <<< (1 : Int)) 255)
        (if Int.land (n : Int) 1 = 0 then 0 else 1) = (n : Int)) ∧
    (decide (Int.land
        (Int.lor ((n : Int) >>> (1 : Int)) (if c = true then 128 else 0)) 128 = 0) = !c) := by
  decide!

theorem inline_rotate_agrees (cpu : Cpu) : InlineRotateAgrees cpu := by
  unfold InlineRotateAgrees
  refine ⟨?_, ?_, ?_, ?_⟩
  · have hs := (tableSlot_eq 0x2A (by decide)).trans slot_2A
    simp [compileRotate, getGetPut] at hs
    refine ⟨_, hs, ?_⟩
    simp [run, runFrame, execLines, regFrame, rotate]
  · have hs := (tableSlot_eq 0x6A (by decide)).trans slot_6A
    simp [compileRotate, getGetPut] at hs
    refine ⟨_, hs, ?_⟩
    simp [run, runFrame, execLines, regFrame, rotate]
  · have hs := (tableSlot_eq 0x36 (by decide)).trans slot_36
    simp [compileRotate, getGetPut] at hs
    refine ⟨_, hs, ?_⟩
    simp [run, runFrame, execLines, regFrame, rotate]
  · have hs := (tableSlot_eq 0x76 (by decide)).trans slot_76
    simp [compileRotate, getGetPut] at hs
    refine ⟨_, hs, ?_⟩
    simp [run, runFrame, execLines, regFrame, rotate]


/-- C27: the rotate-through-carry mutations of `rotate` are mutually inverse 9-bit
rotations.  For every byte `v` and carry, `ROL` yields `(2 * v + c) mod 256` with
carry bit 7 of `v`, `ROR` yields `(v >> 1) | (c << 7)` with carry bit 0 of `v`, and
`ROL` then `ROR`, or `ROR` then `ROL`, gives back the value and the carry; the
inline mutation of `compileRotate` computes the same value and carry as `rotate`. -/
theorem rotate_inverse (cpu : Cpu) (v : Int) (hv : 0 ≤ v ∧ v < 256) :
    ((execLines (rotate true false) (regFrame cpu v)).vars Var.REG =
        (2 * v + ofBool cpu.p.c) % 256 ∧
      (execLines (rotate true false) (regFrame cpu v)).cpu.p.c = bitSet v 7) ∧
    ((execLines (rotate false false) (regFrame cpu v)).vars Var.REG =
        Int.lor (v >>> (1 : Int)) (ofBool cpu.p.c <<< (7 : Int)) ∧
      (execLines (rotate false false) (regFrame cpu v)).cpu.p.c = bitSet v 0) ∧
    ((execLines (rotate false false)
        (execLines (rotate true false) (regFrame cpu v))).vars Var.REG = v ∧
      (execLines (rotate false false)
        (execLines (rotate true false) (regFrame cpu v))).cpu.p.c = cpu.p.c) ∧
    ((execLines (rotate true false)
        (execLines (rotate false false) (regFrame cpu v))).vars Var.REG = v ∧
      (execLines (rotate true false)
        (execLines (rotate false false) (regFrame cpu v))).cpu.p.c = cpu.p.c) ∧
    InlineRotateAgrees cpu := by
  obtain ⟨n, rfl⟩ := Int.eq_ofNat_of_zero_le hv.1
  have hn : n < 256 := by omega
  obtain ⟨h1, h2, h3, h4, h5, h6, h7, h8⟩ := rotate_bytes n hn cpu.p.c
  have e1 : (execLines (rotate true false) (regFrame cpu (n : Int))).vars Var.REG =
      Int.lor (Int.land ((n : Int) <<< (1 : Int)) 255) (if cpu.p.c = true then 1 else 0) := by
    simp [execLines, regFrame, rotate]
  have e2 : (execLines (rotate true false) (regFrame cpu (n : Int))).cpu.p.c =
      !decide (Int.land (n : Int) 128 = 0) := by
    simp [execLines, regFrame, rotate]
  have e3 : (execLines (rotate false false) (regFrame cpu (n : Int))).vars Var.REG =
      Int.lor ((n : Int) >>> (1 : Int)) (if cpu.p.c = true then 128 else 0) := by
    simp [execLines, regFrame, rotate]
  have e4 : (execLines (rotate false false) (regFrame cpu (n : Int))).cpu.p.c =
      !decide (Int.land (n : Int) 1 = 0) := by
    simp [execLines, regFrame, rotate]
  have e5 : (execLines (rotate false false)
      (execLines (rotate true false) (regFrame cpu (n : Int)))).vars Var.REG =
      Int.lor
        (Int.lor (Int.land ((n : Int) <<< (1 : Int)) 255) (if cpu.p.c = true then 1 else 0) >>>
          (1 : Int))
        (if Int.land (n : Int) 128 = 0 then 0 else 128) := by
    simp [execLines, regFrame, rotate]
  have e6 : (execLines (rotate false false)
      (execLines (rotate true false) (regFrame cpu (n : Int)))).cpu.p.c =
      !decide (Int.land
        (Int.lor (Int.land ((n : Int) <<< (1 : Int)) 255) (if cpu.p.c = true then 1 else 0))
        1 = 0) := by
    simp [execLines, regFrame, rotate]
  have e7 : (execLines (rotate true false)
      (execLines (rotate false false) (regFrame cpu (n : Int)))).vars Var.REG =
      Int.lor
        (Int.land
          (Int.lor ((n : Int) >>> (1 : Int)) (if cpu.p.c = true then 128 else 0) <<< (1 : Int))
          255)
        (if Int.land (n : Int) 1 = 0 then 0 else 1) := by
    simp [execLines, regFrame, rotate]
  have e8 : (execLines (rotate true false)
      (execLines (rotate false false) (regFrame cpu (n : Int)))).cpu.p.c =
      !decide (Int.land
        (Int.lor ((n : Int) >>> (1 : Int)) (if cpu.p.c = true then 128 else 0)) 128 = 0) := by
    simp [execLines, regFrame, rotate]
  refine ⟨⟨e1.trans h1, ?_⟩, ⟨e3.trans h3, ?_⟩, ⟨e5.trans h5, ?_⟩, ⟨e7.trans h7, ?_⟩,
    inline_rotate_agrees cpu⟩
  · rw [e2, h2, Bool.not_not]
  · rw [e4, h4, Bool.not_not]
  · rw [e6, h6, Bool.not_not]
  · rw [e8, h8, Bool.not_not]

/-- Witness for C27: the byte `0x81` with the carry clear. -/
theorem rotate_inverse_witness :
    ((execLines (rotate true false) (regFrame (sampleCpu 0 (fun _ => 0)) 0x81)).vars Var.REG =
        (2 * 0x81 + ofBool (sampleCpu 0 (fun _ => 0)).p.c) % 256 ∧
      (execLines (rotate true false) (regFrame (sampleCpu 0 (fun _ => 0)) 0x81)).cpu.p.c =
        bitSet 0x81 7) ∧
    ((execLines (rotate false false) (regFrame (sampleCpu 0 (fun _ => 0)) 0x81)).vars Var.REG =
        Int.lor (0x81 >>> (1 : Int)) (ofBool (sampleCpu 0 (fun _ => 0)).p.c <<< (7 : Int)) ∧
      (execLines (rotate false false) (regFrame (sampleCpu 0 (fun _ => 0)) 0x81)).cpu.p.c =
        bitSet 0x81 0) ∧
    ((execLines (rotate false false)
        (execLines (rotate true false) (regFrame (sampleCpu 0 (fun _ => 0)) 0x81))).vars
          Var.REG = 0x81 ∧
      (execLines (rotate false false)
        (execLines (rotate true false) (regFrame (sampleCpu 0 (fun _ => 0)) 0x81))).cpu.p.c =
          (sampleCpu 0 (fun _ => 0)).p.c) ∧
    ((execLines (rotate true false)
        (execLines (rotate false false) (regFrame (sampleCpu 0 (fun _ => 0)) 0x81))).vars
          Var.REG = 0x81 ∧
      (execLines (rotate true false)
        (execLines (rotate false false) (regFrame (sampleCpu 0 (fun _ => 0)) 0x81))).cpu.p.c =
          (sampleCpu 0 (fun _ => 0)).p.c) ∧
    InlineRotateAgrees (sampleCpu 0 (fun _ => 0)) :=
  rotate_inverse (sampleCpu 0 (fun _ => 0)) 0x81 (by decide)

/-! ## The disassembler -/

theorem disassemble_snd (hexbyte hexword : Int → String) (signExtend : Int → Int) (cpu : Cpu)
    (addr : Int) :
    (disassemble hexbyte hexword signExtend cpu addr).2 =
      addr + reportedLength (opcodeAt (cpu.mem addr)) := by
  unfold disassemble reportedLength
  simp only [Cpu.readmem]
  cases opcodeAt (cpu.mem addr) with
  | none => rfl
  | some opcode =>
    simp only
    cases (jsSplit opcode).get? 1 with
    | none => rfl
    | some arg =>
      simp only
      split_ifs <;> rfl

/-- C25, evaluated on the code: for the catalog entries `NOP zpx` (byte `0xF4`),
`RRA (,y)` (byte `0x73`) and `LAX (,y)` (byte `0xA3`), two-byte instructions,
`disassemble` returns `addr + 1`.  For every other catalog entry it returns `addr`
plus the instruction length of the entry's form, and for a byte with no catalog
entry it returns the text `???` and `addr + 1`. -/
theorem disassemble_next_address (hexbyte hexword : Int → String) (signExtend : Int → Int)
    (cpu : Cpu) (addr : Int) (b : Nat) (hb : b < 256) (hm : cpu.mem addr = (b : Int)) :
    (b ∈ [0x73, 0xA3, 0xF4] →
      (opcodes6502 b).isSome = true ∧
      formLength ((opcodes6502 b).bind operandOf) = 2 ∧
      (disassemble hexbyte hexword signExtend cpu addr).2 = addr + 1) ∧
    (b ∉ [0x73, 0xA3, 0xF4] → (opcodes6502 b).isSome = true →
      (disassemble hexbyte hexword signExtend cpu addr).2 =
        addr + formLength ((opcodes6502 b).bind operandOf)) ∧
    (opcodes6502 b = none →
      disassemble hexbyte hexword signExtend cpu addr = ("???", addr + 1)) := by
  have hat : opcodeAt (cpu.mem addr) = opcodes6502 b := by
    rw [hm]; simp [opcodeAt]
  have key : ∀ b, b < 256 →
      (if b ∈ [0x73, 0xA3, 0xF4] then
        (opcodes6502 b).isSome && decide (formLength ((opcodes6502 b).bind operandOf) = 2) &&
          decide (reportedLength (opcodes6502 b) = 1)
      else
        !(opcodes6502 b).isSome ||
          decide (reportedLength (opcodes6502 b) =
            formLength ((opcodes6502 b).bind operandOf))) = true := by
    decide!
  have hk := key b hb
  refine ⟨?_, ?_, ?_⟩
  · intro hin
    rw [if_pos hin] at hk
    simp only [Bool.and_eq_true, decide_eq_true_eq] at hk
    refine ⟨hk.1.1, hk.1.2, ?_⟩
    rw [disassemble_snd, hat, hk.2]
  · intro hnin hsome
    rw [if_neg hnin] at hk
    simp only [Bool.or_eq_true, Bool.not_eq_true', decide_eq_true_eq] at hk
    rcases hk with hk | hk
    · rw [hsome] at hk; cases hk
    · rw [disassemble_snd, hat, hk]
  · intro hnone
    unfold disassemble
    simp only [Cpu.readmem]
    rw [hat, hnone]

/-- Witness for C25: the byte `0xF4` (`NOP zpx`) at address `0x2000`. -/
theorem disassemble_next_address_witness :
    (0xF4 ∈ [0x73, 0xA3, 0xF4] →
      (opcodes6502 0xF4).isSome = true ∧
      formLength ((opcodes6502 0xF4).bind operandOf) = 2 ∧
      (disassemble (fun _ => "") (fun _ => "") (fun v => v)
        (sampleCpu 0 (fun _ => 0xF4)) 0x2000).2 = 0x2000 + 1) ∧
    (0xF4 ∉ [0x73, 0xA3, 0xF4] → (opcodes6502 0xF4).isSome = true →
      (disassemble (fun _ => "") (fun _ => "") (fun v => v)
        (sampleCpu 0 (fun _ => 0xF4)) 0x2000).2 =
        0x2000 + formLength ((opcodes6502 0xF4).bind operandOf)) ∧
    (opcodes6502 0xF4 = none →
      disassemble (fun _ => "") (fun _ => "") (fun v => v)
        (sampleCpu 0 (fun _ => 0xF4)) 0x2000 = ("???", 0x2000 + 1)) :=
  disassemble_next_address (fun _ => "") (fun _ => "") (fun v => v)
    (sampleCpu 0 (fun _ => 0xF4)) 0x2000 0xF4 (by decide) (by decide)

/-! ## Range of the addresses put on the bus -/

/-- C28, evaluated on the code: in every CPU context the table's `LDX abs,y` routine
reads at `getw() + Y` without wrapping at 16 bits, and with operand word `0xffff` and
`Y = 1` it passes the address `0x10000` to `cpu.readmem`; the scheduler-built
`LDA abs,y` masks the sum and reads at `(getw() + Y) & 0xffff` last. -/
theorem indexed_read_beyond_16_bits :
    opcodes6502 0xBE = some "LDX abs,y" ∧
    (∀ cpu : Cpu, ∃ r, tableSlot 0xBE = some r ∧
      busEvents (trace r cpu) = [Event.read (cpu.getw.1 + cpu.y)]) ∧
    (∃ r, tableSlot 0xBE = some r ∧
      busEvents (trace r wrapExampleCpu) = [Event.read 0x10000]) ∧
    (∃ r, tableSlot 0xB9 = some r ∧
      (busEvents (trace r wrapExampleCpu)).getLast? = some (Event.read 0x0000)) := by
  refine ⟨by decide!, ?_, ?_, ?_⟩
  · intro cpu
    have hs := (tableSlot_eq 0xBE (by decide)).trans slot_BE
    simp [compileLoad, getGetPut, charAt] at hs
    refine ⟨_, hs, ?_⟩
    simp [busEvents, isBus, trace, run, runFrame, ite_drop]
    split_ifs <;> simp [isBus]
  · have hs := (tableSlot_eq 0xBE (by decide)).trans slot_BE
    simp [compileLoad, getGetPut, charAt] at hs
    refine ⟨_, hs, ?_⟩
    decide!
  · have hs := (tableSlot_eq 0xB9 (by decide)).trans slot_B9
    simp [getOp, rotate, getInstruction2AbsIndexed, getInstruction2Start, InstructionGen.render,
      InstructionGen.renderEntries, InstructionGen.renderTail, InstructionGen.renderLoop,
      InstructionGen.renderStep, InstructionGen.withCheckInt, InstructionGen.append,
      InstructionGen.tick, InstructionGen.readOp, InstructionGen.writeOp,
      InstructionGen.zpReadOp, InstructionGen.zpWriteOp, InstructionGen.flush,
      InstructionGen.new, Entry.line, List.range, List.range.loop] at hs
    refine ⟨_, hs, ?_⟩
    decide!


/-! ## Jumps, calls and the stack -/

theorem slot_6C : slotOf 0x6C = compileJump (some "()") := by decide!

theorem slot_20 : slotOf 0x20 = some compileJsr := by decide!

theorem slot_60 : slotOf 0x60 = some compileRts := by decide!

theorem slot_08 : slotOf 0x08 = some (compilePush 'p') := by decide!

theorem int_lor_comm_nonneg (a b : Int) (ha : 0 ≤ a) (hb : 0 ≤ b) :
    Int.lor a b = Int.lor b a := by
  obtain ⟨m, rfl⟩ := Int.eq_ofNat_of_zero_le ha
  obtain ⟨n, rfl⟩ := Int.eq_ofNat_of_zero_le hb
  rw [int_lor_cast, int_lor_cast, Nat.lor_comm]

theorem int_land_nonneg (a : Int) (b : Nat) (ha : 0 ≤ a) : 0 ≤ Int.land a (b : Int) := by
  obtain ⟨m, rfl⟩ := Int.eq_ofNat_of_zero_le ha
  rw [int_land_cast]
  exact Int.natCast_nonneg _

/-- C13: for every 16-bit pointer `p` fetched as the operand of `JMP` (indirect),
the routine sets PC to `readmem(p) | (readmem((p & 0xff00) | ((p + 1) & 0xff)) << 8)`,
reading the high byte from the page of the low byte, and costs 5 cycles. -/
theorem jmp_indirect_page_wrap (cpu : Cpu) (p : Int) (hp : cpu.getw.1 = p)
    (hpr : 0 ≤ p ∧ p < 65536) :
    opcodes6502 0x6C = some "JMP ()" ∧
    ∃ r, tableSlot 0x6C = some r ∧
      (run r cpu).pc =
        Int.lor (cpu.mem p)
          (cpu.mem (Int.lor (Int.land p 0xff00) (Int.land (p + 1) 0xff)) <<< (8 : Int)) ∧
      busEvents (trace r cpu) =
        [Event.read p, Event.read (Int.lor (Int.land p 0xff00) (Int.land (p + 1) 0xff))] ∧
      cost r cpu = 5 := by
  have hs := (tableSlot_eq 0x6C (by decide)).trans slot_6C
  simp [compileJump] at hs
  have hc : Int.lor (Int.land (p + 1) 255) (Int.land p 65280) =
      Int.lor (Int.land p 65280) (Int.land (p + 1) 255) :=
    int_lor_comm_nonneg _ _ (int_land_nonneg (p + 1) 255 (by omega))
      (int_land_nonneg p 65280 hpr.1)
  simp only [Cpu.getw] at hp
  refine ⟨by decide!, _, hs, ?_⟩
  simp [busEvents, isBus, cost, cycles, trace, run, runFrame, hp, hc]

/-- Witness for C13: the pointer `0x12ff`; the high byte comes from `0x1200`. -/
theorem jmp_indirect_page_wrap_witness :
    (opcodes6502 0x6C = some "JMP ()" ∧
    ∃ r, tableSlot 0x6C = some r ∧
      (run r jmpExampleCpu).pc =
        Int.lor (jmpExampleCpu.mem 0x12ff)
          (jmpExampleCpu.mem
            (Int.lor (Int.land 0x12ff 0xff00) (Int.land (0x12ff + 1) 0xff)) <<< (8 : Int)) ∧
      busEvents (trace r jmpExampleCpu) =
        [Event.read 0x12ff,
          Event.read (Int.lor (Int.land 0x12ff 0xff00) (Int.land (0x12ff + 1) 0xff))] ∧
      cost r jmpExampleCpu = 5) ∧
    Int.lor (Int.land 0x12ff 0xff00) (Int.land (0x12ff + 1) 0xff) = 0x1200 :=
  ⟨jmp_indirect_page_wrap jmpExampleCpu 0x12ff (by decide) (by decide), by decide⟩

/-- C14: for every target word `t` and every program counter value `r` reached
after the two operand bytes are fetched, `JSR` pushes `(r - 1) >> 8` and then
`(r - 1) & 0xff`, sets PC to `t`, and advances time by 6 cycles with the interrupt
sample after 5. -/
theorem jsr_effect (cpu : Cpu) (t r : Int) (ht : cpu.getw.1 = t)
    (hr : (cpu.pc + 2) % 65536 = r) :
    opcodes6502 0x20 = some "JSR abs" ∧
    ∃ j, tableSlot 0x20 = some j ∧
      trace j cpu =
        [Event.fetch cpu.pc, Event.fetch ((cpu.pc + 1) % 65536),
          Event.push ((r - 1) >>> (8 : Int)), Event.push (Int.land (r - 1) 0xff),
          Event.poll 5, Event.checkInt, Event.poll 1] ∧
      (run j cpu).pc = t ∧
      cost j cpu = 6 := by
  simp only [Cpu.getw] at ht
  refine ⟨by decide!, _, (tableSlot_eq 0x20 (by decide)).trans slot_20, ?_⟩
  simp [compileJsr, cost, cycles, trace, run, runFrame, ht, hr]

/-- Witness for C14: the opcode at `0x3000` with operand `0x4000` pushes `0x30` then
`0x02` and leaves PC at `0x4000`. -/
theorem jsr_effect_witness :
    (opcodes6502 0x20 = some "JSR abs" ∧
    ∃ j, tableSlot 0x20 = some j ∧
      trace j jsrExampleCpu =
        [Event.fetch jsrExampleCpu.pc, Event.fetch ((jsrExampleCpu.pc + 1) % 65536),
          Event.push ((0x3003 - 1) >>> (8 : Int)), Event.push (Int.land (0x3003 - 1) 0xff),
          Event.poll 5, Event.checkInt, Event.poll 1] ∧
      (run j jsrExampleCpu).pc = 0x4000 ∧
      cost j jsrExampleCpu = 6) ∧
    ((0x3003 - 1 : Int) >>> (8 : Int) = 0x30 ∧ Int.land (0x3003 - 1) 0xff = 0x02) :=
  ⟨jsr_effect jsrExampleCpu 0x4000 0x3003 (by decide) (by decide), by decide, by decide⟩

theorem word_of_bytes_cast : ∀ n : Nat, n < 65536 →
    Int.lor (Int.land (n : Int) 255) (((n : Int) >>> (8 : Int)) <<< (8 : Int)) = (n : Int) := by
  intro n hn
  have h1 : (n : Int) >>> (8 : Int) = ((n >>> 8 : Nat) : Int) := Int.shiftRight_coe_nat n 8
  have h2 : ((n >>> 8 : Nat) : Int) <<< (8 : Int) = (((n >>> 8) <<< 8 : Nat) : Int) :=
    Int.shiftLeft_coe_nat (n >>> 8) 8
  have h3 : Int.land (n : Int) 255 = ((n &&& 255 : Nat) : Int) := int_land_cast n 255
  rw [h1, h2, h3, int_lor_cast, nat_and_ff]
  congr 1
  rw [Nat.lor_comm, Nat.shiftLeft_eq, Nat.shiftRight_eq_div_pow, Nat.mul_comm]
  have hlt : n % 256 < 2 ^ 8 := by omega
  rw [← Nat.mul_add_lt_is_or hlt]
  omega

theorem run_jsr_stack (cpu : Cpu) :
    (run compileJsr cpu).s = ((cpu.s - 1) % 256 - 1) % 256 ∧
    (run compileJsr cpu).mem =
      (fun k =>
        if k = 0x100 + (cpu.s - 1) % 256 then Int.land ((cpu.pc + 2) % 65536 - 1) 255
        else if k = 0x100 + cpu.s then ((cpu.pc + 2) % 65536 - 1) >>> (8 : Int)
        else cpu.mem k) := by
  simp [compileJsr, run, runFrame]

theorem run_rts_pc (cpu : Cpu) :
    (run compileRts cpu).pc =
      Int.lor (cpu.mem (0x100 + (cpu.s + 1) % 256))
        (cpu.mem (0x100 + (cpu.s + 2) % 256) <<< (8 : Int)) + 1 := by
  simp [compileRts, run, runFrame, add_assoc]

/-- C15: `RTS` undoes `JSR`.  For every CPU context whose stack pointer holds a byte
and every `JSR` whose program counter after the operand, `r`, satisfies
`1 <= r <= 0xffff`, running `JSR` and then `RTS` leaves PC equal to `r`. -/
theorem rts_undoes_jsr (cpu : Cpu) (r : Int) (hs : 0 ≤ cpu.s ∧ cpu.s < 256)
    (hr : (cpu.pc + 2) % 65536 = r) (hrr : 1 ≤ r ∧ r ≤ 0xffff) :
    ∃ j t, tableSlot 0x20 = some j ∧ tableSlot 0x60 = some t ∧
      (run t (run j cpu)).pc = r := by
  refine ⟨_, _, (tableSlot_eq 0x20 (by decide)).trans slot_20,
    (tableSlot_eq 0x60 (by decide)).trans slot_60, ?_⟩
  obtain ⟨h1, h2⟩ := run_jsr_stack cpu
  rw [run_rts_pc, h1, h2, hr]
  have e1 : (((cpu.s - 1) % 256 - 1) % 256 + 1) % 256 = (cpu.s - 1) % 256 := by omega
  have e2 : (((cpu.s - 1) % 256 - 1) % 256 + 2) % 256 = cpu.s := by omega
  have e3 : ¬ ((256 : Int) + cpu.s = 256 + (cpu.s - 1) % 256) := by omega
  simp only [e1, e2, e3, if_true, if_false]
  obtain ⟨n, hn⟩ := Int.eq_ofNat_of_zero_le (show 0 ≤ r - 1 by omega)
  rw [hn, word_of_bytes_cast n (by omega)]
  omega

/-- Witness for C15: the `JSR $4000` example, whose return address is `0x3003`. -/
theorem rts_undoes_jsr_witness :
    ∃ j t, tableSlot 0x20 = some j ∧ tableSlot 0x60 = some t ∧
      (run t (run j jsrExampleCpu)).pc = 0x3003 :=
  rts_undoes_jsr jsrExampleCpu 0x3003 (by decide) (by decide) (by decide)

/-! ## `PHP` and `PLP` -/

theorem flagsOfByte_masked_cast : ∀ n : Nat, n < 256 →
    flagsOfByte (n : Int) = flagsOfByte (Int.land (n : Int) 0xCF) := by
  decide!

theorem flagsOfByte_masked (f : Int) (hf : 0 ≤ f ∧ f < 256) :
    flagsOfByte f = flagsOfByte (Int.land f 0xCF) := by
  obtain ⟨n, rfl⟩ := Int.eq_ofNat_of_zero_le hf.1
  exact flagsOfByte_masked_cast n (by omega)

/-- The flags `PLP` leaves are the flags unpacked from the pulled byte. -/
theorem run_plp_flags (cpu : Cpu) (f : Int) (hf : cpu.mem (0x100 + (cpu.s + 1) % 256) = f)
    (hfb : 0 ≤ f ∧ f < 256) : (run (compilePull 'p') cpu).p = flagsOfByte f := by
  obtain ⟨h0, h1, h2, h3, h6, h7⟩ := mask_tests f hfb
  simp [compilePull, run, runFrame, hf, flagsOfByte, h0, h1, h2, h3, h6, h7]

theorem run_php_stack (cpu : Cpu) :
    (run (compilePush 'p') cpu).s = (cpu.s - 1) % 256 ∧
    (run (compilePush 'p') cpu).mem =
      (fun k => if k = 0x100 + cpu.s then cpu.asByte cpu.p else cpu.mem k) := by
  simp [compilePush, run, runFrame]

/-- C16: if `cpu.p.asByte` packs the flags as carry in bit 0, zero in bit 1,
interrupt-disable in bit 2, decimal in bit 3, overflow in bit 6, negative in bit 7,
and the stack pointer holds a byte, then `PHP` followed by `PLP` leaves the six flags
as they were before the `PHP`; and two pulled bytes that agree on bits 0, 1, 2, 3, 6, 7
give `PLP` the same resulting flags. -/
theorem php_plp_roundtrip (cpu c1 c2 : Cpu) (hs : 0 ≤ cpu.s ∧ cpu.s < 256)
    (hpack : ∀ p : Flags,
      (0 ≤ cpu.asByte p ∧ cpu.asByte p < 256) ∧ flagsOfByte (cpu.asByte p) = p)
    (hf : 0 ≤ c1.mem (0x100 + (c1.s + 1) % 256) ∧ c1.mem (0x100 + (c1.s + 1) % 256) < 256)
    (hg : 0 ≤ c2.mem (0x100 + (c2.s + 1) % 256) ∧ c2.mem (0x100 + (c2.s + 1) % 256) < 256)
    (hfg : Int.land (c1.mem (0x100 + (c1.s + 1) % 256)) 0xCF =
      Int.land (c2.mem (0x100 + (c2.s + 1) % 256)) 0xCF) :
    (∃ php plp, tableSlot 0x08 = some php ∧ tableSlot 0x28 = some plp ∧
      (run plp (run php cpu)).p = cpu.p) ∧
    (∃ plp, tableSlot 0x28 = some plp ∧ (run plp c1).p = (run plp c2).p) := by
  refine ⟨⟨_, _, (tableSlot_eq 0x08 (by decide)).trans slot_08,
    (tableSlot_eq 0x28 (by decide)).trans slot_28, ?_⟩, ?_⟩
  · obtain ⟨h1, h2⟩ := run_php_stack cpu
    have hpull : (run (compilePush 'p') cpu).mem
        (0x100 + ((run (compilePush 'p') cpu).s + 1) % 256) = cpu.asByte cpu.p := by
      rw [h1, h2]
      have e1 : ((cpu.s - 1) % 256 + 1) % 256 = cpu.s := by omega
      simp only [e1, if_true]
    rw [run_plp_flags _ _ hpull (hpack cpu.p).1]
    exact (hpack cpu.p).2
  · refine ⟨_, (tableSlot_eq 0x28 (by decide)).trans slot_28, ?_⟩
    rw [run_plp_flags c1 _ rfl hf, run_plp_flags c2 _ rfl hg, flagsOfByte_masked _ hf,
      flagsOfByte_masked _ hg, hfg]

theorem packFlags_packs (p : Flags) :
    (0 ≤ packFlags p ∧ packFlags p < 256) ∧ flagsOfByte (packFlags p) = p := by
  rcases p with ⟨c, z, i, d, v, n⟩
  cases c <;> cases z <;> cases i <;> cases d <;> cases v <;> cases n <;> decide

/-- Witness for C16: `asByte` is `packFlags`, carry and negative are set; the pulled
bytes `0xf3` and `0xc3` differ in bits 4 and 5 only. -/
theorem php_plp_roundtrip_witness :
    (∃ php plp, tableSlot 0x08 = some php ∧ tableSlot 0x28 = some plp ∧
      (run plp (run php phpExampleCpu)).p = phpExampleCpu.p) ∧
    (∃ plp, tableSlot 0x28 = some plp ∧ (run plp plpExampleCpuA).p = (run plp plpExampleCpuB).p) :=
  php_plp_roundtrip phpExampleCpu plpExampleCpuA plpExampleCpuB (by decide)
    (fun p => packFlags_packs p) (by decide) (by decide) (by decide)


/-! ## Pointer reads of the indirect forms -/

theorem slot_B1 : slotOf 0xB1 = compileLoad 'a' (some "(),y") := by
  decide!

theorem slot_A1 : slotOf 0xA1 = compileLoad 'a' (some "(,x)") := by
  decide!

theorem slot_91 : slotOf 0x91 = routineOf (compileStore 'a' (some "(),y")) := by
  decide!

/-- C17, evaluated on the code: in every CPU context the table's `LDA (),y` routine
reads the pointer bytes at `getb()` and at `getb() + 1` without wrapping in the page,
and with operand byte `0xff` it reads the high pointer byte at `0x100`; the table's
`LDA (,x)` routine reads the pointer bytes at `getb() + X` and `getb() + X + 1`
without wrapping, and with operand byte `0xf0` and `X = 0x20` it reads them at `0x110`
and `0x111`; the table's `STA (),y` routine reads the high pointer byte at
`(getb() + 1) & 0xff`. -/
theorem indirect_pointer_read_outside_zero_page :
    opcodes6502 0xB1 = some "LDA (),y" ∧ opcodes6502 0xA1 = some "LDA (,x)" ∧
    opcodes6502 0x91 = some "STA (),y" ∧
    (∀ cpu : Cpu, ∃ r, tableSlot 0xB1 = some r ∧
      (busEvents (trace r cpu)).take 2 =
        [Event.read cpu.getb.1, Event.read (cpu.getb.1 + 1)]) ∧
    (∃ r, tableSlot 0xB1 = some r ∧
      busEvents (trace r indYExampleCpu) =
        [Event.read 0xff, Event.read 0x100, Event.read 0x5634]) ∧
    (∀ cpu : Cpu, ∃ r, tableSlot 0xA1 = some r ∧
      (busEvents (trace r cpu)).take 2 =
        [Event.read (cpu.getb.1 + cpu.x), Event.read (cpu.getb.1 + cpu.x + 1)]) ∧
    (∃ r, tableSlot 0xA1 = some r ∧
      (busEvents (trace r indXExampleCpu)).take 2 = [Event.read 0x110, Event.read 0x111]) ∧
    (∃ r, tableSlot 0x91 = some r ∧
      busEvents (trace r indYExampleCpu) =
        [Event.read 0xff, Event.read 0x00, Event.write 0x1234 0]) := by
  refine ⟨by decide!, by decide!, by decide!, ?_, ?_, ?_, ?_, ?_⟩
  · intro cpu
    have hs := (tableSlot_eq 0xB1 (by decide)).trans slot_B1
    simp [compileLoad, getGetPut, charAt] at hs
    refine ⟨_, hs, ?_⟩
    simp [busEvents, isBus, trace, run, runFrame, ite_drop]
    split_ifs <;> simp [isBus]
  · have hs := (tableSlot_eq 0xB1 (by decide)).trans slot_B1
    simp [compileLoad, getGetPut, charAt] at hs
    refine ⟨_, hs, ?_⟩
    decide!
  · intro cpu
    have hs := (tableSlot_eq 0xA1 (by decide)).trans slot_A1
    simp [compileLoad, getGetPut, charAt] at hs
    refine ⟨_, hs, ?_⟩
    simp [busEvents, isBus, trace, run, runFrame, ite_drop]
  · have hs := (tableSlot_eq 0xA1 (by decide)).trans slot_A1
    simp [compileLoad, getGetPut, charAt] at hs
    refine ⟨_, hs, ?_⟩
    decide!
  · have hs := (tableSlot_eq 0x91 (by decide)).trans slot_91
    have hb : routineOf (compileStore 'a' (some "(),y")) = some [
        setVar Var.zp Expr.getb,
        setVar Var.addr
          (eAdd
            (eAdd (Expr.readmem (lv Var.zp))
              (eShl (Expr.readmem (eAnd (eAdd (lv Var.zp) (Expr.num 1)) (Expr.num 0xff)))
                (Expr.num 8)))
            (cpuReg 'y')),
        Line.writemem (lv Var.addr) (cpuReg 'a'),
        Line.polltime 6,
        Line.checkInt] := by decide!
    refine ⟨_, hs.trans hb, ?_⟩
    decide!


/-! ## Compares -/

theorem compareReg_bytes :
    ∀ b < 256, (compareReg b).isSome = true →
      b ∈ [0xC0, 0xC1, 0xC4, 0xC5, 0xC9, 0xCC, 0xCD, 0xD1, 0xD5, 0xD9, 0xDD, 0xE0, 0xE4, 0xEC] := by
  decide!

theorem slot_C9 :
    slotOf 0xC9 = compileCompare (some "imm") 'a' := by
  decide!

theorem cmp_C9 (cpu : Cpu) (r m : Int) (hr : cpu.a = r)
    (hm : slotOperand 0xC9 cpu = some m) :
    ∃ t, tableSlot 0xC9 = some t ∧
      (run t cpu).a = cpu.a ∧ (run t cpu).x = cpu.x ∧ (run t cpu).y = cpu.y ∧
      (run t cpu).s = cpu.s ∧ (run t cpu).mem = cpu.mem ∧
      (run t cpu).p.c = decide (m ≤ r) ∧ (run t cpu).p.z = decide ((r - m) % 256 = 0) ∧
      (run t cpu).p.n = decide (128 ≤ (r - m) % 256) ∧
      (run t cpu).p.i = cpu.p.i ∧ (run t cpu).p.d = cpu.p.d ∧ (run t cpu).p.v = cpu.p.v := by
  have hs := (tableSlot_eq 0xC9 (by decide)).trans slot_C9
  simp [compileCompare, getGetPut, charAt] at hs
  unfold slotOperand at hm
  rw [hs] at hm
  simp [trace, run, runFrame, lastReadAddr, ite_drop] at hm
  refine ⟨_, hs, ?_⟩
  simp [run, runFrame, hr, hm]

theorem slot_C5 :
    slotOf 0xC5 = (getOp "CMP").map (fun op => getInstruction2Zp op getInstruction2Start) := by
  decide!

theorem cmp_C5 (cpu : Cpu) (r m : Int) (hr : cpu.a = r)
    (hm : slotOperand 0xC5 cpu = some m) :
    ∃ t, tableSlot 0xC5 = some t ∧
      (run t cpu).a = cpu.a ∧ (run t cpu).x = cpu.x ∧ (run t cpu).y = cpu.y ∧
      (run t cpu).s = cpu.s ∧ (run t cpu).mem = cpu.mem ∧
      (run t cpu).p.c = decide (m ≤ r) ∧ (run t cpu).p.z = decide ((r - m) % 256 = 0) ∧
      (run t cpu).p.n = decide (128 ≤ (r - m) % 256) ∧
      (run t cpu).p.i = cpu.p.i ∧ (run t cpu).p.d = cpu.p.d ∧ (run t cpu).p.v = cpu.p.v := by
  have hs := (tableSlot_eq 0xC5 (by decide)).trans slot_C5
  simp [getOp, rotate, getInstruction2Zp, getInstruction2Start, InstructionGen.render,
    InstructionGen.renderEntries, InstructionGen.renderTail, InstructionGen.renderLoop,
    InstructionGen.renderStep, InstructionGen.withCheckInt, InstructionGen.append,
    InstructionGen.tick, InstructionGen.readOp, InstructionGen.writeOp,
    InstructionGen.zpReadOp, InstructionGen.zpWriteOp, InstructionGen.flush,
    InstructionGen.new, Entry.line, List.range, List.range.loop] at hs
  unfold slotOperand at hm
  rw [hs] at hm
  simp [trace, run, runFrame, lastReadAddr, ite_drop] at hm
  refine ⟨_, hs, ?_⟩
  simp [run, runFrame, hr, hm]

theorem slot_D5 :
    slotOf 0xD5 = compileCompare (some "zp,x") 'a' := by
  decide!

theorem cmp_D5 (cpu : Cpu) (r m : Int) (hr : cpu.a = r)
    (hm : slotOperand 0xD5 cpu = some m) :
    ∃ t, tableSlot 0xD5 = some t ∧
      (run t cpu).a = cpu.a ∧ (run t cpu).x = cpu.x ∧ (run t cpu).y = cpu.y ∧
      (run t cpu).s = cpu.s ∧ (run t cpu).mem = cpu.mem ∧
      (run t cpu).p.c = decide (m ≤ r) ∧ (run t cpu).p.z = decide ((r - m) % 256 = 0) ∧
      (run t cpu).p.n = decide (128 ≤ (r - m) % 256) ∧
      (run t cpu).p.i = cpu.p.i ∧ (run t cpu).p.d = cpu.p.d ∧ (run t cpu).p.v = cpu.p.v := by
  have hs := (tableSlot_eq 0xD5 (by decide)).trans slot_D5
  simp [compileCompare, getGetPut, charAt] at hs
  unfold slotOperand at hm
  rw [hs] at hm
  simp [trace, run, runFrame, lastReadAddr, ite_drop] at hm
  refine ⟨_, hs, ?_⟩
  simp [run, runFrame, hr, hm]

theorem slot_CD :
    slotOf 0xCD = (getOp "CMP").map (fun op => getInstruction2Abs op getInstruction2Start) := by
  decide!

theorem cmp_CD (cpu : Cpu) (r m : Int) (hr : cpu.a = r)
    (hm : slotOperand 0xCD cpu = some m) :
    ∃ t, tableSlot 0xCD = some t ∧
      (run t cpu).a = cpu.a ∧ (run t cpu).x = cpu.x ∧ (run t cpu).y = cpu.y ∧
      (run t cpu).s = cpu.s ∧ (run t cpu).mem = cpu.mem ∧
      (run t cpu).p.c = decide (m ≤ r) ∧ (run t cpu).p.z = decide ((r - m) % 256 = 0) ∧
      (run t cpu).p.n = decide (128 ≤ (r - m) % 256) ∧
      (run t cpu).p.i = cpu.p.i ∧ (run t cpu).p.d = cpu.p.d ∧ (run t cpu).p.v = cpu.p.v := by
  have hs := (tableSlot_eq 0xCD (by decide)).trans slot_CD
  simp [getOp, rotate, getInstruction2Abs, getInstruction2Start, InstructionGen.render,
    InstructionGen.renderEntries, InstructionGen.renderTail, InstructionGen.renderLoop,
    InstructionGen.renderStep, InstructionGen.withCheckInt, InstructionGen.append,
    InstructionGen.tick, InstructionGen.readOp, InstructionGen.writeOp,
    InstructionGen.zpReadOp, InstructionGen.zpWriteOp, InstructionGen.flush,
    InstructionGen.new, Entry.line, List.range, List.range.loop] at hs
  unfold slotOperand at hm
  rw [hs] at hm
  simp [trace, run, runFrame, lastReadAddr, ite_drop] at hm
  refine ⟨_, hs, ?_⟩
  simp [run, runFrame, hr, hm]

theorem cmp_DD (cpu : Cpu) (r m : Int) (hr : cpu.a = r)
    (hm : slotOperand 0xDD cpu = some m) :
    ∃ t, tableSlot 0xDD = some t ∧
      (run t cpu).a = cpu.a ∧ (run t cpu).x = cpu.x ∧ (run t cpu).y = cpu.y ∧
      (run t cpu).s = cpu.s ∧ (run t cpu).mem = cpu.mem ∧
      (run t cpu).p.c = decide (m ≤ r) ∧ (run t cpu).p.z = decide ((r - m) % 256 = 0) ∧
      (run t cpu).p.n = decide (128 ≤ (r - m) % 256) ∧
      (run t cpu).p.i = cpu.p.i ∧ (run t cpu).p.d = cpu.p.d ∧ (run t cpu).p.v = cpu.p.v := by
  have hs := (tableSlot_eq 0xDD (by decide)).trans slot_DD
  simp [getOp, rotate, getInstruction2AbsIndexed, getInstruction2Start, InstructionGen.render,
    InstructionGen.renderEntries, InstructionGen.renderTail, InstructionGen.renderLoop,
    InstructionGen.renderStep, InstructionGen.withCheckInt, InstructionGen.append,
    InstructionGen.tick, InstructionGen.readOp, InstructionGen.writeOp,
    InstructionGen.zpReadOp, InstructionGen.zpWriteOp, InstructionGen.flush,
    InstructionGen.new, Entry.line, List.range, List.range.loop] at hs
  unfold slotOperand at hm
  rw [hs] at hm
  simp [trace, run, runFrame, lastReadAddr, ite_drop] at hm
  refine ⟨_, hs, ?_⟩
  split_ifs at hm with h <;> simp [lastReadAddr] at hm <;> simp [run, runFrame, hr] <;>
    (first | rw [if_pos h] | rw [if_neg h]) <;> simp [hm]

theorem cmp_D9 (cpu : Cpu) (r m : Int) (hr : cpu.a = r)
    (hm : slotOperand 0xD9 cpu = some m) :
    ∃ t, tableSlot 0xD9 = some t ∧
      (run t cpu).a = cpu.a ∧ (run t cpu).x = cpu.x ∧ (run t cpu).y = cpu.y ∧
      (run t cpu).s = cpu.s ∧ (run t cpu).mem = cpu.mem ∧
      (run t cpu).p.c = decide (m ≤ r) ∧ (run t cpu).p.z = decide ((r - m) % 256 = 0) ∧
      (run t cpu).p.n = decide (128 ≤ (r - m) % 256) ∧
      (run t cpu).p.i = cpu.p.i ∧ (run t cpu).p.d = cpu.p.d ∧ (run t cpu).p.v = cpu.p.v := by
  have hs := (tableSlot_eq 0xD9 (by decide)).trans slot_D9
  simp [getOp, rotate, getInstruction2AbsIndexed, getInstruction2Start, InstructionGen.render,
    InstructionGen.renderEntries, InstructionGen.renderTail, InstructionGen.renderLoop,
    InstructionGen.renderStep, InstructionGen.withCheckInt, InstructionGen.append,
    InstructionGen.tick, InstructionGen.readOp, InstructionGen.writeOp,
    InstructionGen.zpReadOp, InstructionGen.zpWriteOp, InstructionGen.flush,
    InstructionGen.new, Entry.line, List.range, List.range.loop] at hs
  unfold slotOperand at hm
  rw [hs] at hm
  simp [trace, run, runFrame, lastReadAddr, ite_drop] at hm
  refine ⟨_, hs, ?_⟩
  split_ifs at hm with h <;> simp [lastReadAddr] at hm <;> simp [run, runFrame, hr] <;>
    (first | rw [if_pos h] | rw [if_neg h]) <;> simp [hm]

theorem slot_C1 :
    slotOf 0xC1 = compileCompare (some "(,x)") 'a' := by
  decide!

theorem cmp_C1 (cpu : Cpu) (r m : Int) (hr : cpu.a = r)
    (hm : slotOperand 0xC1 cpu = some m) :
    ∃ t, tableSlot 0xC1 = some t ∧
      (run t cpu).a = cpu.a ∧ (run t cpu).x = cpu.x ∧ (run t cpu).y = cpu.y ∧
      (run t cpu).s = cpu.s ∧ (run t cpu).mem = cpu.mem ∧
      (run t cpu).p.c = decide (m ≤ r) ∧ (run t cpu).p.z = decide ((r - m) % 256 = 0) ∧
      (run t cpu).p.n = decide (128 ≤ (r - m) % 256) ∧
      (run t cpu).p.i = cpu.p.i ∧ (run t cpu).p.d = cpu.p.d ∧ (run t cpu).p.v = cpu.p.v := by
  have hs := (tableSlot_eq 0xC1 (by decide)).trans slot_C1
  simp [compileCompare, getGetPut, charAt] at hs
  unfold slotOperand at hm
  rw [hs] at hm
  simp [trace, run, runFrame, lastReadAddr, ite_drop] at hm
  refine ⟨_, hs, ?_⟩
  simp [run, runFrame, hr, hm]

theorem slot_D1 :
    slotOf 0xD1 = compileCompare (some "(),y") 'a' := by
  decide!

theorem cmp_D1 (cpu : Cpu) (r m : Int) (hr : cpu.a = r)
    (hm : slotOperand 0xD1 cpu = some m) :
    ∃ t, tableSlot 0xD1 = some t ∧
      (run t cpu).a = cpu.a ∧ (run t cpu).x = cpu.x ∧ (run t cpu).y = cpu.y ∧
      (run t cpu).s = cpu.s ∧ (run t cpu).mem = cpu.mem ∧
      (run t cpu).p.c = decide (m ≤ r) ∧ (run t cpu).p.z = decide ((r - m) % 256 = 0) ∧
      (run t cpu).p.n = decide (128 ≤ (r - m) % 256) ∧
      (run t cpu).p.i = cpu.p.i ∧ (run t cpu).p.d = cpu.p.d ∧ (run t cpu).p.v = cpu.p.v := by
  have hs := (tableSlot_eq 0xD1 (by decide)).trans slot_D1
  simp [compileCompare, getGetPut, charAt] at hs
  unfold slotOperand at hm
  rw [hs] at hm
  simp [trace, run, runFrame, lastReadAddr, ite_drop] at hm
  refine ⟨_, hs, ?_⟩
  split_ifs at hm <;> simp [lastReadAddr] at hm <;> simp [run, runFrame, hr, hm]

theorem slot_E0 :
    slotOf 0xE0 = compileCompare (some "imm") 'x' := by
  decide!

theorem cmp_E0 (cpu : Cpu) (r m : Int) (hr : cpu.x = r)
    (hm : slotOperand 0xE0 cpu = some m) :
    ∃ t, tableSlot 0xE0 = some t ∧
      (run t cpu).a = cpu.a ∧ (run t cpu).x = cpu.x ∧ (run t cpu).y = cpu.y ∧
      (run t cpu).s = cpu.s ∧ (run t cpu).mem = cpu.mem ∧
      (run t cpu).p.c = decide (m ≤ r) ∧ (run t cpu).p.z = decide ((r - m) % 256 = 0) ∧
      (run t cpu).p.n = decide (128 ≤ (r - m) % 256) ∧
      (run t cpu).p.i = cpu.p.i ∧ (run t cpu).p.d = cpu.p.d ∧ (run t cpu).p.v = cpu.p.v := by
  have hs := (tableSlot_eq 0xE0 (by decide)).trans slot_E0
  simp [compileCompare, getGetPut, charAt] at hs
  unfold slotOperand at hm
  rw [hs] at hm
  simp [trace, run, runFrame, lastReadAddr, ite_drop] at hm
  refine ⟨_, hs, ?_⟩
  simp [run, runFrame, hr, hm]

theorem slot_E4 :
    slotOf 0xE4 = compileCompare (some "zp") 'x' := by
  decide!

theorem cmp_E4 (cpu : Cpu) (r m : Int) (hr : cpu.x = r)
    (hm : slotOperand 0xE4 cpu = some m) :
    ∃ t, tableSlot 0xE4 = some t ∧
      (run t cpu).a = cpu.a ∧ (run t cpu).x = cpu.x ∧ (run t cpu).y = cpu.y ∧
      (run t cpu).s = cpu.s ∧ (run t cpu).mem = cpu.mem ∧
      (run t cpu).p.c = decide (m ≤ r) ∧ (run t cpu).p.z = decide ((r - m) % 256 = 0) ∧
      (run t cpu).p.n = decide (128 ≤ (r - m) % 256) ∧
      (run t cpu).p.i = cpu.p.i ∧ (run t cpu).p.d = cpu.p.d ∧ (run t cpu).p.v = cpu.p.v := by
  have hs := (tableSlot_eq 0xE4 (by decide)).trans slot_E4
  simp [compileCompare, getGetPut, charAt] at hs
  unfold slotOperand at hm
  rw [hs] at hm
  simp [trace, run, runFrame, lastReadAddr, ite_drop] at hm
  refine ⟨_, hs, ?_⟩
  simp [run, runFrame, hr, hm]

theorem slot_EC :
    slotOf 0xEC = compileCompare (some "abs") 'x' := by
  decide!

theorem cmp_EC (cpu : Cpu) (r m : Int) (hr : cpu.x = r)
    (hm : slotOperand 0xEC cpu = some m) :
    ∃ t, tableSlot 0xEC = some t ∧
      (run t cpu).a = cpu.a ∧ (run t cpu).x = cpu.x ∧ (run t cpu).y = cpu.y ∧
      (run t cpu).s = cpu.s ∧ (run t cpu).mem = cpu.mem ∧
      (run t cpu).p.c = decide (m ≤ r) ∧ (run t cpu).p.z = decide ((r - m) % 256 = 0) ∧
      (run t cpu).p.n = decide (128 ≤ (r - m) % 256) ∧
      (run t cpu).p.i = cpu.p.i ∧ (run t cpu).p.d = cpu.p.d ∧ (run t cpu).p.v = cpu.p.v := by
  have hs := (tableSlot_eq 0xEC (by decide)).trans slot_EC
  simp [compileCompare, getGetPut, charAt] at hs
  unfold slotOperand at hm
  rw [hs] at hm
  simp [trace, run, runFrame, lastReadAddr, ite_drop] at hm
  refine ⟨_, hs, ?_⟩
  simp [run, runFrame, hr, hm]

theorem slot_C0 :
    slotOf 0xC0 = compileCompare (some "imm") 'y' := by
  decide!

theorem cmp_C0 (cpu : Cpu) (r m : Int) (hr : cpu.y = r)
    (hm : slotOperand 0xC0 cpu = some m) :
    ∃ t, tableSlot 0xC0 = some t ∧
      (run t cpu).a = cpu.a ∧ (run t cpu).x = cpu.x ∧ (run t cpu).y = cpu.y ∧
      (run t cpu).s = cpu.s ∧ (run t cpu).mem = cpu.mem ∧
      (run t cpu).p.c = decide (m ≤ r) ∧ (run t cpu).p.z = decide ((r - m) % 256 = 0) ∧
      (run t cpu).p.n = decide (128 ≤ (r - m) % 256) ∧
      (run t cpu).p.i = cpu.p.i ∧ (run t cpu).p.d = cpu.p.d ∧ (run t cpu).p.v = cpu.p.v := by
  have hs := (tableSlot_eq 0xC0 (by decide)).trans slot_C0
  simp [compileCompare, getGetPut, charAt] at hs
  unfold slotOperand at hm
  rw [hs] at hm
  simp [trace, run, runFrame, lastReadAddr, ite_drop] at hm
  refine ⟨_, hs, ?_⟩
  simp [run, runFrame, hr, hm]

theorem slot_C4 :
    slotOf 0xC4 = compileCompare (some "zp") 'y' := by
  decide!

theorem cmp_C4 (cpu : Cpu) (r m : Int) (hr : cpu.y = r)
    (hm : slotOperand 0xC4 cpu = some m) :
    ∃ t, tableSlot 0xC4 = some t ∧
      (run t cpu).a = cpu.a ∧ (run t cpu).x = cpu.x ∧ (run t cpu).y = cpu.y ∧
      (run t cpu).s = cpu.s ∧ (run t cpu).mem = cpu.mem ∧
      (run t cpu).p.c = decide (m ≤ r) ∧ (run t cpu).p.z = decide ((r - m) % 256 = 0) ∧
      (run t cpu).p.n = decide (128 ≤ (r - m) % 256) ∧
      (run t cpu).p.i = cpu.p.i ∧ (run t cpu).p.d = cpu.p.d ∧ (run t cpu).p.v = cpu.p.v := by
  have hs := (tableSlot_eq 0xC4 (by decide)).trans slot_C4
  simp [compileCompare, getGetPut, charAt] at hs
  unfold slotOperand at hm
  rw [hs] at hm
  simp [trace, run, runFrame, lastReadAddr, ite_drop] at hm
  refine ⟨_, hs, ?_⟩
  simp [run, runFrame, hr, hm]

theorem slot_CC :
    slotOf 0xCC = compileCompare (some "abs") 'y' := by
  decide!

theorem cmp_CC (cpu : Cpu) (r m : Int) (hr : cpu.y = r)
    (hm : slotOperand 0xCC cpu = some m) :
    ∃ t, tableSlot 0xCC = some t ∧
      (run t cpu).a = cpu.a ∧ (run t cpu).x = cpu.x ∧ (run t cpu).y = cpu.y ∧
      (run t cpu).s = cpu.s ∧ (run t cpu).mem = cpu.mem ∧
      (run t cpu).p.c = decide (m ≤ r) ∧ (run t cpu).p.z = decide ((r - m) % 256 = 0) ∧
      (run t cpu).p.n = decide (128 ≤ (r - m) % 256) ∧
      (run t cpu).p.i = cpu.p.i ∧ (run t cpu).p.d = cpu.p.d ∧ (run t cpu).p.v = cpu.p.v := by
  have hs := (tableSlot_eq 0xCC (by decide)).trans slot_CC
  simp [compileCompare, getGetPut, charAt] at hs
  unfold slotOperand at hm
  rw [hs] at hm
  simp [trace, run, runFrame, lastReadAddr, ite_drop] at hm
  refine ⟨_, hs, ?_⟩
  simp [run, runFrame, hr, hm]

theorem slotOperand_mem (b : Nat) (cpu : Cpu) (m : Int) (h : slotOperand b cpu = some m) :
    ∃ a, cpu.mem a = m := by
  unfold slotOperand at h
  cases ht : tableSlot b with
  | none => simp [ht] at h
  | some t =>
    simp only [ht, Option.some_bind, Option.map_eq_some'] at h
    obtain ⟨a, _, ha⟩ := h
    exact ⟨a, ha⟩

theorem operand_C9 (cpu : Cpu) : ∃ m, slotOperand 0xC9 cpu = some m := by
  have hs := (tableSlot_eq 0xC9 (by decide)).trans slot_C9
  simp [compileCompare, getGetPut, charAt] at hs
  unfold slotOperand
  rw [hs]
  simp [trace, run, runFrame, lastReadAddr, ite_drop]

theorem operand_C5 (cpu : Cpu) : ∃ m, slotOperand 0xC5 cpu = some m := by
  have hs := (tableSlot_eq 0xC5 (by decide)).trans slot_C5
  simp [getOp, rotate, getInstruction2Zp, getInstruction2Start, InstructionGen.render,
    InstructionGen.renderEntries, InstructionGen.renderTail, InstructionGen.renderLoop,
    InstructionGen.renderStep, InstructionGen.withCheckInt, InstructionGen.append,
    InstructionGen.tick, InstructionGen.readOp, InstructionGen.writeOp,
    InstructionGen.zpReadOp, InstructionGen.zpWriteOp, InstructionGen.flush,
    InstructionGen.new, Entry.line, List.range, List.range.loop] at hs
  unfold slotOperand
  rw [hs]
  simp [trace, run, runFrame, lastReadAddr, ite_drop]

theorem operand_D5 (cpu : Cpu) : ∃ m, slotOperand 0xD5 cpu = some m := by
  have hs := (tableSlot_eq 0xD5 (by decide)).trans slot_D5
  simp [compileCompare, getGetPut, charAt] at hs
  unfold slotOperand
  rw [hs]
  simp [trace, run, runFrame, lastReadAddr, ite_drop]

theorem operand_CD (cpu : Cpu) : ∃ m, slotOperand 0xCD cpu = some m := by
  have hs := (tableSlot_eq 0xCD (by decide)).trans slot_CD
  simp [getOp, rotate, getInstruction2Abs, getInstruction2Start, InstructionGen.render,
    InstructionGen.renderEntries, InstructionGen.renderTail, InstructionGen.renderLoop,
    InstructionGen.renderStep, InstructionGen.withCheckInt, InstructionGen.append,
    InstructionGen.tick, InstructionGen.readOp, InstructionGen.writeOp,
    InstructionGen.zpReadOp, InstructionGen.zpWriteOp, InstructionGen.flush,
    InstructionGen.new, Entry.line, List.range, List.range.loop] at hs
  unfold slotOperand
  rw [hs]
  simp [trace, run, runFrame, lastReadAddr, ite_drop]

theorem operand_DD (cpu : Cpu) : ∃ m, slotOperand 0xDD cpu = some m := by
  have hs := (tableSlot_eq 0xDD (by decide)).trans slot_DD
  simp [getOp, rotate, getInstruction2AbsIndexed, getInstruction2Start, InstructionGen.render,
    InstructionGen.renderEntries, InstructionGen.renderTail, InstructionGen.renderLoop,
    InstructionGen.renderStep, InstructionGen.withCheckInt, InstructionGen.append,
    InstructionGen.tick, InstructionGen.readOp, InstructionGen.writeOp,
    InstructionGen.zpReadOp, InstructionGen.zpWriteOp, InstructionGen.flush,
    InstructionGen.new, Entry.line, List.range, List.range.loop] at hs
  unfold slotOperand
  rw [hs]
  simp [trace, run, runFrame, lastReadAddr, ite_drop]
  split_ifs <;> simp [lastReadAddr]

theorem operand_D9 (cpu : Cpu) : ∃ m, slotOperand 0xD9 cpu = some m := by
  have hs := (tableSlot_eq 0xD9 (by decide)).trans slot_D9
  simp [getOp, rotate, getInstruction2AbsIndexed, getInstruction2Start, InstructionGen.render,
    InstructionGen.renderEntries, InstructionGen.renderTail, InstructionGen.renderLoop,
    InstructionGen.renderStep, InstructionGen.withCheckInt, InstructionGen.append,
    InstructionGen.tick, InstructionGen.readOp, InstructionGen.writeOp,
    InstructionGen.zpReadOp, InstructionGen.zpWriteOp, InstructionGen.flush,
    InstructionGen.new, Entry.line, List.range, List.range.loop] at hs
  unfold slotOperand
  rw [hs]
  simp [trace, run, runFrame, lastReadAddr, ite_drop]
  split_ifs <;> simp [lastReadAddr]

theorem operand_C1 (cpu : Cpu) : ∃ m, slotOperand 0xC1 cpu = some m := by
  have hs := (tableSlot_eq 0xC1 (by decide)).trans slot_C1
  simp [compileCompare, getGetPut, charAt] at hs
  unfold slotOperand
  rw [hs]
  simp [trace, run, runFrame, lastReadAddr, ite_drop]

theorem operand_D1 (cpu : Cpu) : ∃ m, slotOperand 0xD1 cpu = some m := by
  have hs := (tableSlot_eq 0xD1 (by decide)).trans slot_D1
  simp [compileCompare, getGetPut, charAt] at hs
  unfold slotOperand
  rw [hs]
  simp [trace, run, runFrame, lastReadAddr, ite_drop]
  split_ifs <;> simp [lastReadAddr]

theorem operand_E0 (cpu : Cpu) : ∃ m, slotOperand 0xE0 cpu = some m := by
  have hs := (tableSlot_eq 0xE0 (by decide)).trans slot_E0
  simp [compileCompare, getGetPut, charAt] at hs
  unfold slotOperand
  rw [hs]
  simp [trace, run, runFrame, lastReadAddr, ite_drop]

theorem operand_E4 (cpu : Cpu) : ∃ m, slotOperand 0xE4 cpu = some m := by
  have hs := (tableSlot_eq 0xE4 (by decide)).trans slot_E4
  simp [compileCompare, getGetPut, charAt] at hs
  unfold slotOperand
  rw [hs]
  simp [trace, run, runFrame, lastReadAddr, ite_drop]

theorem operand_EC (cpu : Cpu) : ∃ m, slotOperand 0xEC cpu = some m := by
  have hs := (tableSlot_eq 0xEC (by decide)).trans slot_EC
  simp [compileCompare, getGetPut, charAt] at hs
  unfold slotOperand
  rw [hs]
  simp [trace, run, runFrame, lastReadAddr, ite_drop]

theorem operand_C0 (cpu : Cpu) : ∃ m, slotOperand 0xC0 cpu = some m := by
  have hs := (tableSlot_eq 0xC0 (by decide)).trans slot_C0
  simp [compileCompare, getGetPut, charAt] at hs
  unfold slotOperand
  rw [hs]
  simp [trace, run, runFrame, lastReadAddr, ite_drop]

theorem operand_C4 (cpu : Cpu) : ∃ m, slotOperand 0xC4 cpu = some m := by
  have hs := (tableSlot_eq 0xC4 (by decide)).trans slot_C4
  simp [compileCompare, getGetPut, charAt] at hs
  unfold slotOperand
  rw [hs]
  simp [trace, run, runFrame, lastReadAddr, ite_drop]

theorem operand_CC (cpu : Cpu) : ∃ m, slotOperand 0xCC cpu = some m := by
  have hs := (tableSlot_eq 0xCC (by decide)).trans slot_CC
  simp [compileCompare, getGetPut, charAt] at hs
  unfold slotOperand
  rw [hs]
  simp [trace, run, runFrame, lastReadAddr, ite_drop]

/-- C18: for every compare routine of the table (`CMP`, `CPX`, `CPY` in every
addressing mode of the catalog), on every CPU context whose memory holds bytes and
with `r` the byte in the compared register: the routine fetches an operand `m`, the
registers A, X, Y, S and memory are unchanged, carry is set exactly when `r ≥ m`,
zero and negative are those of `setzn (r - m)`, and zero is set exactly when
`r = m`. -/
theorem compare_effect (b : Nat) (hb : b < 256) (reg : Char) (hreg : compareReg b = some reg)
    (cpu : Cpu) (r : Int) (hr : cpu.getReg reg = r) (hrr : 0 ≤ r ∧ r < 256)
    (hbytes : ∀ k : Int, 0 ≤ cpu.mem k ∧ cpu.mem k < 256) :
    ∃ t m, tableSlot b = some t ∧ slotOperand b cpu = some m ∧
      (run t cpu).a = cpu.a ∧ (run t cpu).x = cpu.x ∧ (run t cpu).y = cpu.y ∧
      (run t cpu).s = cpu.s ∧ (run t cpu).mem = cpu.mem ∧
      (run t cpu).p.c = decide (r ≥ m) ∧
      (run t cpu).p.z = (cpu.setzn (r - m)).p.z ∧ (run t cpu).p.n = (cpu.setzn (r - m)).p.n ∧
      (run t cpu).p.z = decide (r = m) ∧
      (run t cpu).p.i = cpu.p.i ∧ (run t cpu).p.d = cpu.p.d ∧ (run t cpu).p.v = cpu.p.v := by
  have hz : ∀ m : Int, (∃ a, cpu.mem a = m) →
      decide ((r - m) % 256 = 0) = decide (r = m) := by
    rintro m ⟨a, rfl⟩
    have := hbytes a
    exact decide_eq_decide.mpr (by omega)
  have hmem := compareReg_bytes b hb (by rw [hreg]; rfl)
  simp only [List.mem_cons, List.mem_singleton, List.not_mem_nil, or_false] at hmem
  rcases hmem with rfl | rfl | rfl | rfl | rfl | rfl | rfl | rfl | rfl | rfl | rfl | rfl | rfl | rfl
  · have h2 : compareReg 0xC0 = some 'y' := by decide!
    rw [h2] at hreg
    simp only [Option.some.injEq] at hreg
    subst hreg
    obtain ⟨m, hm⟩ := operand_C0 cpu
    obtain ⟨t, ht, ha, hx, hy, hsp, hme, hc, hzz, hn, hi, hd, hv⟩ :=
      cmp_C0 cpu r m (by simpa using hr) hm
    exact ⟨t, m, ht, hm, ha, hx, hy, hsp, hme, hc, hzz, hn,
      hzz.trans (hz m (slotOperand_mem _ cpu m hm)), hi, hd, hv⟩
  · have h2 : compareReg 0xC1 = some 'a' := by decide!
    rw [h2] at hreg
    simp only [Option.some.injEq] at hreg
    subst hreg
    obtain ⟨m, hm⟩ := operand_C1 cpu
    obtain ⟨t, ht, ha, hx, hy, hsp, hme, hc, hzz, hn, hi, hd, hv⟩ :=
      cmp_C1 cpu r m (by simpa using hr) hm
    exact ⟨t, m, ht, hm, ha, hx, hy, hsp, hme, hc, hzz, hn,
      hzz.trans (hz m (slotOperand_mem _ cpu m hm)), hi, hd, hv⟩
  · have h2 : compareReg 0xC4 = some 'y' := by decide!
    rw [h2] at hreg
    simp only [Option.some.injEq] at hreg
    subst hreg
    obtain ⟨m, hm⟩ := operand_C4 cpu
    obtain ⟨t, ht, ha, hx, hy, hsp, hme, hc, hzz, hn, hi, hd, hv⟩ :=
      cmp_C4 cpu r m (by simpa using hr) hm
    exact ⟨t, m, ht, hm, ha, hx, hy, hsp, hme, hc, hzz, hn,
      hzz.trans (hz m (slotOperand_mem _ cpu m hm)), hi, hd, hv⟩
  · have h2 : compareReg 0xC5 = some 'a' := by decide!
    rw [h2] at hreg
    simp only [Option.some.injEq] at hreg
    subst hreg
    obtain ⟨m, hm⟩ := operand_C5 cpu
    obtain ⟨t, ht, ha, hx, hy, hsp, hme, hc, hzz, hn, hi, hd, hv⟩ :=
      cmp_C5 cpu r m (by simpa using hr) hm
    exact ⟨t, m, ht, hm, ha, hx, hy, hsp, hme, hc, hzz, hn,
      hzz.trans (hz m (slotOperand_mem _ cpu m hm)), hi, hd, hv⟩
  · have h2 : compareReg 0xC9 = some 'a' := by decide!
    rw [h2] at hreg
    simp only [Option.some.injEq] at hreg
    subst hreg
    obtain ⟨m, hm⟩ := operand_C9 cpu
    obtain ⟨t, ht, ha, hx, hy, hsp, hme, hc, hzz, hn, hi, hd, hv⟩ :=
      cmp_C9 cpu r m (by simpa using hr) hm
    exact ⟨t, m, ht, hm, ha, hx, hy, hsp, hme, hc, hzz, hn,
      hzz.trans (hz m (slotOperand_mem _ cpu m hm)), hi, hd, hv⟩
  · have h2 : compareReg 0xCC = some 'y' := by decide!
    rw [h2] at hreg
    simp only [Option.some.injEq] at hreg
    subst hreg
    obtain ⟨m, hm⟩ := operand_CC cpu
    obtain ⟨t, ht, ha, hx, hy, hsp, hme, hc, hzz, hn, hi, hd, hv⟩ :=
      cmp_CC cpu r m (by simpa using hr) hm
    exact ⟨t, m, ht, hm, ha, hx, hy, hsp, hme, hc, hzz, hn,
      hzz.trans (hz m (slotOperand_mem _ cpu m hm)), hi, hd, hv⟩
  · have h2 : compareReg 0xCD = some 'a' := by decide!
    rw [h2] at hreg
    simp only [Option.some.injEq] at hreg
    subst hreg
    obtain ⟨m, hm⟩ := operand_CD cpu
    obtain ⟨t, ht, ha, hx, hy, hsp, hme, hc, hzz, hn, hi, hd, hv⟩ :=
      cmp_CD cpu r m (by simpa using hr) hm
    exact ⟨t, m, ht, hm, ha, hx, hy, hsp, hme, hc, hzz, hn,
      hzz.trans (hz m (slotOperand_mem _ cpu m hm)), hi, hd, hv⟩
  · have h2 : compareReg 0xD1 = some 'a' := by decide!
    rw [h2] at hreg
    simp only [Option.some.injEq] at hreg
    subst hreg
    obtain ⟨m, hm⟩ := operand_D1 cpu
    obtain ⟨t, ht, ha, hx, hy, hsp, hme, hc, hzz, hn, hi, hd, hv⟩ :=
      cmp_D1 cpu r m (by simpa using hr) hm
    exact ⟨t, m, ht, hm, ha, hx, hy, hsp, hme, hc, hzz, hn,
      hzz.trans (hz m (slotOperand_mem _ cpu m hm)), hi, hd, hv⟩
  · have h2 : compareReg 0xD5 = some 'a' := by decide!
    rw [h2] at hreg
    simp only [Option.some.injEq] at hreg
    subst hreg
    obtain ⟨m, hm⟩ := operand_D5 cpu
    obtain ⟨t, ht, ha, hx, hy, hsp, hme, hc, hzz, hn, hi, hd, hv⟩ :=
      cmp_D5 cpu r m (by simpa using hr) hm
    exact ⟨t, m, ht, hm, ha, hx, hy, hsp, hme, hc, hzz, hn,
      hzz.trans (hz m (slotOperand_mem _ cpu m hm)), hi, hd, hv⟩
  · have h2 : compareReg 0xD9 = some 'a' := by decide!
    rw [h2] at hreg
    simp only [Option.some.injEq] at hreg
    subst hreg
    obtain ⟨m, hm⟩ := operand_D9 cpu
    obtain ⟨t, ht, ha, hx, hy, hsp, hme, hc, hzz, hn, hi, hd, hv⟩ :=
      cmp_D9 cpu r m (by simpa using hr) hm
    exact ⟨t, m, ht, hm, ha, hx, hy, hsp, hme, hc, hzz, hn,
      hzz.trans (hz m (slotOperand_mem _ cpu m hm)), hi, hd, hv⟩
  · have h2 : compareReg 0xDD = some 'a' := by decide!
    rw [h2] at hreg
    simp only [Option.some.injEq] at hreg
    subst hreg
    obtain ⟨m, hm⟩ := operand_DD cpu
    obtain ⟨t, ht, ha, hx, hy, hsp, hme, hc, hzz, hn, hi, hd, hv⟩ :=
      cmp_DD cpu r m (by simpa using hr) hm
    exact ⟨t, m, ht, hm, ha, hx, hy, hsp, hme, hc, hzz, hn,
      hzz.trans (hz m (slotOperand_mem _ cpu m hm)), hi, hd, hv⟩
  · have h2 : compareReg 0xE0 = some 'x' := by decide!
    rw [h2] at hreg
    simp only [Option.some.injEq] at hreg
    subst hreg
    obtain ⟨m, hm⟩ := operand_E0 cpu
    obtain ⟨t, ht, ha, hx, hy, hsp, hme, hc, hzz, hn, hi, hd, hv⟩ :=
      cmp_E0 cpu r m (by simpa using hr) hm
    exact ⟨t, m, ht, hm, ha, hx, hy, hsp, hme, hc, hzz, hn,
      hzz.trans (hz m (slotOperand_mem _ cpu m hm)), hi, hd, hv⟩
  · have h2 : compareReg 0xE4 = some 'x' := by decide!
    rw [h2] at hreg
    simp only [Option.some.injEq] at hreg
    subst hreg
    obtain ⟨m, hm⟩ := operand_E4 cpu
    obtain ⟨t, ht, ha, hx, hy, hsp, hme, hc, hzz, hn, hi, hd, hv⟩ :=
      cmp_E4 cpu r m (by simpa using hr) hm
    exact ⟨t, m, ht, hm, ha, hx, hy, hsp, hme, hc, hzz, hn,
      hzz.trans (hz m (slotOperand_mem _ cpu m hm)), hi, hd, hv⟩
  · have h2 : compareReg 0xEC = some 'x' := by decide!
    rw [h2] at hreg
    simp only [Option.some.injEq] at hreg
    subst hreg
    obtain ⟨m, hm⟩ := operand_EC cpu
    obtain ⟨t, ht, ha, hx, hy, hsp, hme, hc, hzz, hn, hi, hd, hv⟩ :=
      cmp_EC cpu r m (by simpa using hr) hm
    exact ⟨t, m, ht, hm, ha, hx, hy, hsp, hme, hc, hzz, hn,
      hzz.trans (hz m (slotOperand_mem _ cpu m hm)), hi, hd, hv⟩

/-- Witness for C18: `CMP #$30` with accumulator `0x40` fetches `0x30`, sets carry,
clears zero and negative. -/
theorem compare_effect_witness :
    ∃ t m, tableSlot 0xC9 = some t ∧ slotOperand 0xC9 cmpExampleCpu = some m ∧
      (run t cmpExampleCpu).a = cmpExampleCpu.a ∧ (run t cmpExampleCpu).x = cmpExampleCpu.x ∧
      (run t cmpExampleCpu).y = cmpExampleCpu.y ∧ (run t cmpExampleCpu).s = cmpExampleCpu.s ∧
      (run t cmpExampleCpu).mem = cmpExampleCpu.mem ∧
      (run t cmpExampleCpu).p.c = decide ((0x40 : Int) ≥ m) ∧
      (run t cmpExampleCpu).p.z = (cmpExampleCpu.setzn (0x40 - m)).p.z ∧
      (run t cmpExampleCpu).p.n = (cmpExampleCpu.setzn (0x40 - m)).p.n ∧
      (run t cmpExampleCpu).p.z = decide ((0x40 : Int) = m) ∧
      (run t cmpExampleCpu).p.i = cmpExampleCpu.p.i ∧
      (run t cmpExampleCpu).p.d = cmpExampleCpu.p.d ∧
      (run t cmpExampleCpu).p.v = cmpExampleCpu.p.v :=
  compare_effect 0xC9 (by decide) 'a' (by decide!) cmpExampleCpu 0x40 (by decide) (by decide)
    (by
      intro k
      simp only [cmpExampleCpu, sampleCpuRegs, sampleCpu]
      split_ifs <;> decide)

/-! ## `ASL abs,x` -/

theorem int_land_ffff (z : Int) (hz : 0 ≤ z) : Int.land z 65535 = z % 65536 := by
  obtain ⟨n, rfl⟩ := Int.eq_ofNat_of_zero_le hz
  have h : Int.land (n : Int) 65535 = ((n &&& 65535 : Nat) : Int) := int_land_cast n 65535
  rw [h, nat_and_ffff]
  norm_cast

theorem int_land_ff (z : Int) (hz : 0 ≤ z) : Int.land z 255 = z % 256 := by
  obtain ⟨n, rfl⟩ := Int.eq_ofNat_of_zero_le hz
  have h : Int.land (n : Int) 255 = ((n &&& 255 : Nat) : Int) := int_land_cast n 255
  rw [h, nat_and_ff]
  norm_cast

theorem asl_bytes_cast : ∀ n : Nat, n < 256 →
    Int.land ((n : Int) <<< (1 : Int)) 255 = (2 * (n : Int)) % 256 ∧
    decide (Int.land (n : Int) 128 = 0) = !decide ((128 : Int) ≤ (n : Int)) := by
  decide!

theorem asl_bytes (v : Int) (hv : 0 ≤ v ∧ v < 256) :
    Int.land (v <<< (1 : Int)) 255 = (2 * v) % 256 ∧
    decide (Int.land v 128 = 0) = !decide (128 ≤ v) := by
  obtain ⟨n, rfl⟩ := Int.eq_ofNat_of_zero_le hv.1
  exact asl_bytes_cast n (by omega)

/-- C19: for every 16-bit base address `w`, every `X` in `0..255` and every byte `v`
stored at `(w + X) & 0xffff`, the table's `ASL abs,x` routine leaves `(2 * v) mod 256`
at that address, sets carry exactly when `v ≥ 0x80`, computes zero and negative from
the new value, and costs exactly 7 cycles. -/
theorem asl_abs_x_effect (cpu : Cpu) (w x v : Int) (hw : cpu.getw.1 = w)
    (hwr : 0 ≤ w ∧ w < 65536) (hx : cpu.x = x) (hxr : 0 ≤ x ∧ x < 256)
    (hv : cpu.mem ((w + x) % 65536) = v) (hvr : 0 ≤ v ∧ v < 256) :
    opcodes6502 0x1E = some "ASL abs,x" ∧
    ∃ r, tableSlot 0x1E = some r ∧
      (run r cpu).mem ((w + x) % 65536) = (2 * v) % 256 ∧
      (run r cpu).p.c = decide (0x80 ≤ v) ∧
      (run r cpu).p.z = decide ((2 * v) % 256 = 0) ∧
      (run r cpu).p.n = decide (128 ≤ (2 * v) % 256) ∧
      cost r cpu = 7 := by
  refine ⟨by decide!, ?_⟩
  have hs := (tableSlot_eq 0x1E (by decide)).trans slot_1E
  simp [getOp, rotate, getInstruction2AbsIndexed, getInstruction2Start, InstructionGen.render,
    InstructionGen.renderEntries, InstructionGen.renderTail, InstructionGen.renderLoop,
    InstructionGen.renderStep, InstructionGen.withCheckInt, InstructionGen.append,
    InstructionGen.tick, InstructionGen.readOp, InstructionGen.writeOp,
    InstructionGen.zpReadOp, InstructionGen.zpWriteOp, InstructionGen.flush,
    InstructionGen.new, Entry.line, List.range, List.range.loop] at hs
  refine ⟨_, hs, ?_⟩
  simp at hw
  simp [cost, cycles, trace, run, runFrame, ite_drop, ite_cycles, hw, hx]
  rw [int_land_ffff (w + x) (by omega), hv]
  obtain ⟨h1, h2⟩ := asl_bytes v hvr
  rw [h1, h2]
  simp
  omega

/-- Witness for C19: `w = 0x2000`, `X = 0`, `v = 0x80` gives memory `0x00`, carry
true, zero true, negative false, and 7 cycles. -/
theorem asl_abs_x_effect_witness :
    opcodes6502 0x1E = some "ASL abs,x" ∧
    ∃ r, tableSlot 0x1E = some r ∧
      (run r aslExampleCpu).mem 0x2000 = 0x00 ∧
      (run r aslExampleCpu).p.c = true ∧
      (run r aslExampleCpu).p.z = true ∧
      (run r aslExampleCpu).p.n = false ∧
      cost r aslExampleCpu = 7 := by
  simpa using asl_abs_x_effect aslExampleCpu 0x2000 0 0x80 (by decide) (by decide) (by decide)
    (by decide) (by decide) (by decide)

/-! ## `INC zp` and `DEC zp` -/

theorem inc_dec_bytes_cast : ∀ n : Nat, n < 256 →
    Int.land ((n : Int) + 1) 255 = ((n : Int) + 1) % 256 ∧
    Int.land ((n : Int) - 1) 255 = ((n : Int) - 1) % 256 := by
  decide!

theorem inc_dec_bytes (v : Int) (hv : 0 ≤ v ∧ v < 256) :
    Int.land (v + 1) 255 = (v + 1) % 256 ∧ Int.land (v - 1) 255 = (v - 1) % 256 := by
  obtain ⟨n, rfl⟩ := Int.eq_ofNat_of_zero_le hv.1
  exact inc_dec_bytes_cast n (by omega)

/-- C20: for every operand address `a` and every byte `v` stored there, the table's
`INC zp` routine leaves `(v + 1) mod 256` at `a` and `DEC zp` leaves
`(v - 1) mod 256`, zero and negative are computed from the new value, the registers
A, X, Y, S and the carry flag are unchanged, and the cost is exactly 5 cycles. -/
theorem inc_dec_zp_effect (cpu : Cpu) (a v : Int) (ha : cpu.getb.1 = a) (hv : cpu.mem a = v)
    (hvr : 0 ≤ v ∧ v < 256) :
    opcodes6502 0xE6 = some "INC zp" ∧ opcodes6502 0xC6 = some "DEC zp" ∧
    (∃ r, tableSlot 0xE6 = some r ∧
      (run r cpu).mem a = (v + 1) % 256 ∧
      (run r cpu).p.z = decide ((v + 1) % 256 = 0) ∧
      (run r cpu).p.n = decide (128 ≤ (v + 1) % 256) ∧
      (run r cpu).a = cpu.a ∧ (run r cpu).x = cpu.x ∧ (run r cpu).y = cpu.y ∧
      (run r cpu).s = cpu.s ∧ (run r cpu).p.c = cpu.p.c ∧
      cost r cpu = 5) ∧
    (∃ r, tableSlot 0xC6 = some r ∧
      (run r cpu).mem a = (v - 1) % 256 ∧
      (run r cpu).p.z = decide ((v - 1) % 256 = 0) ∧
      (run r cpu).p.n = decide (128 ≤ (v - 1) % 256) ∧
      (run r cpu).a = cpu.a ∧ (run r cpu).x = cpu.x ∧ (run r cpu).y = cpu.y ∧
      (run r cpu).s = cpu.s ∧ (run r cpu).p.c = cpu.p.c ∧
      cost r cpu = 5) := by
  obtain ⟨h1, h2⟩ := inc_dec_bytes v hvr
  simp at ha
  refine ⟨by decide!, by decide!, ?_, ?_⟩
  · have hs := (tableSlot_eq 0xE6 (by decide)).trans slot_E6
    simp [getOp, rotate, getInstruction2Zp, getInstruction2Start, InstructionGen.render,
    InstructionGen.renderEntries, InstructionGen.renderTail, InstructionGen.renderLoop,
    InstructionGen.renderStep, InstructionGen.withCheckInt, InstructionGen.append,
    InstructionGen.tick, InstructionGen.readOp, InstructionGen.writeOp,
    InstructionGen.zpReadOp, InstructionGen.zpWriteOp, InstructionGen.flush,
    InstructionGen.new, Entry.line, List.range, List.range.loop] at hs
    refine ⟨_, hs, ?_⟩
    simp [cost, cycles, trace, run, runFrame, ha, hv, h1]
  · have hs := (tableSlot_eq 0xC6 (by decide)).trans slot_C6
    simp [getOp, rotate, getInstruction2Zp, getInstruction2Start, InstructionGen.render,
    InstructionGen.renderEntries, InstructionGen.renderTail, InstructionGen.renderLoop,
    InstructionGen.renderStep, InstructionGen.withCheckInt, InstructionGen.append,
    InstructionGen.tick, InstructionGen.readOp, InstructionGen.writeOp,
    InstructionGen.zpReadOp, InstructionGen.zpWriteOp, InstructionGen.flush,
    InstructionGen.new, Entry.line, List.range, List.range.loop] at hs
    refine ⟨_, hs, ?_⟩
    simp [cost, cycles, trace, run, runFrame, ha, hv, h2]

/-- Witness for C20: `INC` of `0xff` at `0x30` gives `0x00` with zero true and
negative false; `DEC` of it gives `0xfe`. -/
theorem inc_dec_zp_effect_witness :
    opcodes6502 0xE6 = some "INC zp" ∧ opcodes6502 0xC6 = some "DEC zp" ∧
    (∃ r, tableSlot 0xE6 = some r ∧
      (run r incExampleCpu).mem 0x30 = 0x00 ∧
      (run r incExampleCpu).p.z = true ∧
      (run r incExampleCpu).p.n = false ∧
      (run r incExampleCpu).a = incExampleCpu.a ∧ (run r incExampleCpu).x = incExampleCpu.x ∧
      (run r incExampleCpu).y = incExampleCpu.y ∧
      (run r incExampleCpu).s = incExampleCpu.s ∧ (run r incExampleCpu).p.c = incExampleCpu.p.c ∧
      cost r incExampleCpu = 5) ∧
    (∃ r, tableSlot 0xC6 = some r ∧
      (run r incExampleCpu).mem 0x30 = 0xfe ∧
      (run r incExampleCpu).p.z = false ∧
      (run r incExampleCpu).p.n = true ∧
      (run r incExampleCpu).a = incExampleCpu.a ∧ (run r incExampleCpu).x = incExampleCpu.x ∧
      (run r incExampleCpu).y = incExampleCpu.y ∧
      (run r incExampleCpu).s = incExampleCpu.s ∧ (run r incExampleCpu).p.c = incExampleCpu.p.c ∧
      cost r incExampleCpu = 5) := by
  simpa using inc_dec_zp_effect incExampleCpu 0x30 0xff (by decide) (by decide) (by decide)

/-! ## Indexed absolute stores -/

theorem land_ffff_ff (z : Int) (hz : 0 ≤ z) : Int.land (Int.land z 65535) 255 = Int.land z 255 := by
  rw [int_land_ffff z hz, int_land_ff z hz, int_land_ff _ (by omega)]
  omega

theorem compileStore_abs_x (reg : Char) :
    compileStore reg (some "abs,x") = Except.ok (some [
        setVar Var.addr Expr.getw,
        Line.polltime 4,
        setVar Var.offsetAddr (eAnd (eAdd (lv Var.addr) (cpuReg 'x')) (Expr.num 0xffff)),
        setVar Var.weirdReadAddr
          (eOr (eAnd (lv Var.addr) (Expr.num 0xff00)) (eAnd (lv Var.offsetAddr) (Expr.num 0xff))),
        Line.eval (Expr.readmem (lv Var.weirdReadAddr)),
        Line.polltime 1,
        Line.checkInt,
        Line.writemem (lv Var.offsetAddr) (cpuReg reg)]) := by
  rfl

theorem compileStore_abs_y (reg : Char) :
    compileStore reg (some "abs,y") = Except.ok (some [
        setVar Var.addr Expr.getw,
        Line.polltime 4,
        setVar Var.offsetAddr (eAnd (eAdd (lv Var.addr) (cpuReg 'y')) (Expr.num 0xffff)),
        setVar Var.weirdReadAddr
          (eOr (eAnd (lv Var.addr) (Expr.num 0xff00)) (eAnd (lv Var.offsetAddr) (Expr.num 0xff))),
        Line.eval (Expr.readmem (lv Var.weirdReadAddr)),
        Line.polltime 1,
        Line.checkInt,
        Line.writemem (lv Var.offsetAddr) (cpuReg reg)]) := by
  rfl

/-- C11: for every 16-bit base address `w` and index values in `0..255`, the table's
`STA abs,x` and `STA abs,y` routines and the routines `compileStore` builds for
`abs,x` and `abs,y` make exactly two bus accesses: one read at the non-carried
address `(w & 0xff00) | ((w + i) & 0xff)`, then one write of the register to
`(w + i) & 0xffff`. -/
theorem indexed_store_dummy_read (cpu : Cpu) (w : Int) (reg : Char) (hw : cpu.getw.1 = w)
    (hwr : 0 ≤ w ∧ w < 65536) (hx : 0 ≤ cpu.x ∧ cpu.x < 256) (hy : 0 ≤ cpu.y ∧ cpu.y < 256) :
    opcodes6502 0x9D = some "STA abs,x" ∧ opcodes6502 0x99 = some "STA abs,y" ∧
    (∃ r, tableSlot 0x9D = some r ∧ busEvents (trace r cpu) = storeAccesses w cpu.x cpu.a) ∧
    (∃ r, tableSlot 0x99 = some r ∧ busEvents (trace r cpu) = storeAccesses w cpu.y cpu.a) ∧
    (∃ r, compileStore reg (some "abs,x") = Except.ok (some r) ∧
      busEvents (trace r cpu) = storeAccesses w cpu.x (cpu.getReg reg)) ∧
    (∃ r, compileStore reg (some "abs,y") = Except.ok (some r) ∧
      busEvents (trace r cpu) = storeAccesses w cpu.y (cpu.getReg reg)) := by
  have ex := land_ffff_ff (w + cpu.x) (by omega)
  have ey := land_ffff_ff (w + cpu.y) (by omega)
  simp at hw
  refine ⟨by decide!, by decide!, ?_, ?_, ?_, ?_⟩
  · have hs := (tableSlot_eq 0x9D (by decide)).trans slot_9D
    simp [getOp, rotate, getInstruction2AbsIndexed, getInstruction2Start, InstructionGen.render,
    InstructionGen.renderEntries, InstructionGen.renderTail, InstructionGen.renderLoop,
    InstructionGen.renderStep, InstructionGen.withCheckInt, InstructionGen.append,
    InstructionGen.tick, InstructionGen.readOp, InstructionGen.writeOp,
    InstructionGen.zpReadOp, InstructionGen.zpWriteOp, InstructionGen.flush,
    InstructionGen.new, Entry.line, List.range, List.range.loop] at hs
    refine ⟨_, hs, ?_⟩
    simp [busEvents, isBus, storeAccesses, trace, run, runFrame, ite_drop, hw, ex]
  · have hs := (tableSlot_eq 0x99 (by decide)).trans slot_99
    simp [getOp, rotate, getInstruction2AbsIndexed, getInstruction2Start, InstructionGen.render,
    InstructionGen.renderEntries, InstructionGen.renderTail, InstructionGen.renderLoop,
    InstructionGen.renderStep, InstructionGen.withCheckInt, InstructionGen.append,
    InstructionGen.tick, InstructionGen.readOp, InstructionGen.writeOp,
    InstructionGen.zpReadOp, InstructionGen.zpWriteOp, InstructionGen.flush,
    InstructionGen.new, Entry.line, List.range, List.range.loop] at hs
    refine ⟨_, hs, ?_⟩
    simp [busEvents, isBus, storeAccesses, trace, run, runFrame, ite_drop, hw, ey]
  · refine ⟨_, compileStore_abs_x reg, ?_⟩
    simp [busEvents, isBus, storeAccesses, trace, run, runFrame, ite_drop, hw, ex]
  · refine ⟨_, compileStore_abs_y reg, ?_⟩
    simp [busEvents, isBus, storeAccesses, trace, run, runFrame, ite_drop, hw, ey]

/-- Witness for C11: `STA $20ff,X` with `X = 1` and accumulator `0x99` reads at
`0x2000`, then writes `0x99` to `0x2100`. -/
theorem indexed_store_dummy_read_witness :
    storeAccesses 0x20ff 1 0x99 = [Event.read 0x2000, Event.write 0x2100 0x99] ∧
    ∃ r, tableSlot 0x9D = some r ∧
      busEvents (trace r staIndexedExampleCpu) = storeAccesses 0x20ff 1 0x99 :=
  ⟨by decide, (indexed_store_dummy_read staIndexedExampleCpu 0x20ff 'a' (by decide) (by decide)
    (by decide) (by decide)).2.2.1⟩

/-! ## Cycle of the interrupt sample in the indexed reads -/

/-- C12, evaluated on the code: `LDA abs,x` is built by the cycle scheduler and
rendered as an ordinary form; in every CPU context the time between its
`cpu.checkInt()` and the end of the routine is 1 cycle when `addrWithCarry` equals
`addrNonCarry` and 2 cycles otherwise; with operand word `0x20ff` and index 1 the
routine samples interrupts, then spends one cycle on the read at `0x2000` and one more
on the read at `0x2100`, and so do `EOR abs,x` and `CMP abs,y`; with operand word
`0x2000` one cycle follows the sample. -/
theorem indexed_read_samples_early :
    opcodes6502 0xBD = some "LDA abs,x" ∧ getInstruction2Yields "LDA abs,x" = true ∧
    (∀ cpu : Cpu, ∃ r, tableSlot 0xBD = some r ∧
      cyclesAfterCheckInt (trace r cpu) =
        some (if Int.land (cpu.getw.1 + cpu.x) 0xffff =
            Int.lor (Int.land cpu.getw.1 0xff00) (Int.land (Int.land (cpu.getw.1 + cpu.x) 0xffff) 0xff)
          then 1 else 2)) ∧
    (∃ r, tableSlot 0xBD = some r ∧
      trace r pageCrossExampleCpu =
        [Event.poll 3, Event.fetch 0x1001, Event.fetch 0x1002, Event.checkInt,
         Event.poll 1, Event.read 0x2000, Event.poll 1, Event.read 0x2100] ∧
      cyclesAfterCheckInt (trace r pageCrossExampleCpu) = some 2 ∧
      cyclesAfterCheckInt (trace r samePageExampleCpu) = some 1) ∧
    (∃ r, tableSlot 0x5D = some r ∧ cyclesAfterCheckInt (trace r pageCrossExampleCpu) = some 2) ∧
    (∃ r, tableSlot 0xD9 = some r ∧ cyclesAfterCheckInt (trace r pageCrossExampleCpu) = some 2) := by
  refine ⟨by decide!, by decide!, ?_, ?_, ?_, ?_⟩
  · intro cpu
    have hs := (tableSlot_eq 0xBD (by decide)).trans slot_BD
    simp [getOp, rotate, getInstruction2AbsIndexed, getInstruction2Start, InstructionGen.render,
    InstructionGen.renderEntries, InstructionGen.renderTail, InstructionGen.renderLoop,
    InstructionGen.renderStep, InstructionGen.withCheckInt, InstructionGen.append,
    InstructionGen.tick, InstructionGen.readOp, InstructionGen.writeOp,
    InstructionGen.zpReadOp, InstructionGen.zpWriteOp, InstructionGen.flush,
    InstructionGen.new, Entry.line, List.range, List.range.loop] at hs
    refine ⟨_, hs, ?_⟩
    simp [cyclesAfterCheckInt, trace, run, runFrame, ite_drop]
    split_ifs <;> simp [afterCheckInt, cycles]
  · have hs := (tableSlot_eq 0xBD (by decide)).trans slot_BD
    simp [getOp, rotate, getInstruction2AbsIndexed, getInstruction2Start, InstructionGen.render,
    InstructionGen.renderEntries, InstructionGen.renderTail, InstructionGen.renderLoop,
    InstructionGen.renderStep, InstructionGen.withCheckInt, InstructionGen.append,
    InstructionGen.tick, InstructionGen.readOp, InstructionGen.writeOp,
    InstructionGen.zpReadOp, InstructionGen.zpWriteOp, InstructionGen.flush,
    InstructionGen.new, Entry.line, List.range, List.range.loop] at hs
    exact ⟨_, hs, by decide!, by decide!, by decide!⟩
  · have hs := (tableSlot_eq 0x5D (by decide)).trans slot_5D
    simp [getOp, rotate, getInstruction2AbsIndexed, getInstruction2Start, InstructionGen.render,
    InstructionGen.renderEntries, InstructionGen.renderTail, InstructionGen.renderLoop,
    InstructionGen.renderStep, InstructionGen.withCheckInt, InstructionGen.append,
    InstructionGen.tick, InstructionGen.readOp, InstructionGen.writeOp,
    InstructionGen.zpReadOp, InstructionGen.zpWriteOp, InstructionGen.flush,
    InstructionGen.new, Entry.line, List.range, List.range.loop] at hs
    exact ⟨_, hs, by decide!⟩
  · have hs := (tableSlot_eq 0xD9 (by decide)).trans slot_D9
    simp [getOp, rotate, getInstruction2AbsIndexed, getInstruction2Start, InstructionGen.render,
    InstructionGen.renderEntries, InstructionGen.renderTail, InstructionGen.renderLoop,
    InstructionGen.renderStep, InstructionGen.withCheckInt, InstructionGen.append,
    InstructionGen.tick, InstructionGen.readOp, InstructionGen.writeOp,
    InstructionGen.zpReadOp, InstructionGen.zpWriteOp, InstructionGen.flush,
    InstructionGen.new, Entry.line, List.range, List.range.loop] at hs
    exact ⟨_, hs, by decide!⟩


end Jsbeeb
